import Mathlib

/-!
# SciTE Python extension (PythonExtension.cxx): marshaling core and event bridge

A shallow embedding of `src/scite/scite/src/PythonExtension.cxx`.

Conventions of the embedding:

* A `String` stands for the bytes found at a `char*`; every C routine that takes
  a `const char*` (strlen, strcmp, memcmp, PyString_FromString) sees only the
  bytes before the first NUL, which is `cstr`.  A Python 2 `str` object keeps
  all of its bytes, NUL included.
* C `int`, `long` and `sptr_t` values are `Int`; a narrowing conversion to
  `int` is written `castInt` (two's complement, 32 bits).
* A pointer returned as `NULL` is `none`; a path that C leaves undefined (an
  index outside a table, a read or write past a buffer) makes the embedding
  return `none` at the outermost `Option`.
* Calls into the host (`Host()->Send`, `Host()->Trace`) are logged in the state
  that the functions pass along, oldest call first.
-/

namespace SciTE

/-! ## Interface table types (IFaceTable.h) -/

/-- Modelled from the spec: the enumeration `IFaceType` of IFaceTable.h, a header
that is not part of the sources here.  The tags and their order are those of the
spec's data model (void, int, length, position, colour, bool, keymod, string,
string-result, cells, text-range, find-text, format-range), which is also the
order of the cases of `IFaceTypeToString`. -/
inductive IFaceType
  | iface_void
  | iface_int
  | iface_length
  | iface_position
  | iface_colour
  | iface_bool
  | iface_keymod
  | iface_string
  | iface_stringresult
  | iface_cells
  | iface_textrange
  | iface_findtext
  | iface_formatrange
  deriving DecidableEq, Repr

open IFaceType

/-- The integer value of an enumerator: its position in the declaration. -/
def IFaceType.ord : IFaceType → Nat
  | iface_void => 0
  | iface_int => 1
  | iface_length => 2
  | iface_position => 3
  | iface_colour => 4
  | iface_bool => 5
  | iface_keymod => 6
  | iface_string => 7
  | iface_stringresult => 8
  | iface_cells => 9
  | iface_textrange => 10
  | iface_findtext => 11
  | iface_formatrange => 12

/-- Modelled from the spec: `struct IFaceFunction` of IFaceTable.h (FunctionDescriptor:
name, message id, return type, two parameter types).  `name` is a `const char*`;
the value-initialised descriptor `{0}` has the null pointer there. -/
structure IFaceFunction where
  name : Option String
  value : Int
  returnType : IFaceType
  paramType0 : IFaceType
  paramType1 : IFaceType
  deriving DecidableEq, Repr

/-- The element `paramType[i]` of the two-element array. -/
def IFaceFunction.paramType (f : IFaceFunction) (i : Nat) : IFaceType :=
  if i = 0 then f.paramType0 else f.paramType1

/-- Modelled from the spec: `struct IFaceProperty` of IFaceTable.h (PropertyDescriptor).
`getter` and `setter` are message ids, 0 when the accessor does not exist (the
source tests them with `p.getter || p.setter` and `!...getter`). -/
structure IFaceProperty where
  name : String
  getter : Int
  setter : Int
  valueType : IFaceType
  paramType : IFaceType
  deriving DecidableEq, Repr

/-- Modelled from the spec: the static interface tables of IFaceTable.cxx, which
is not part of the sources here.  The arrays, the two lookups (index, or a
negative number when the name is not found) and the two accessor producers of
`IFaceProperty` are taken as they come: nothing is assumed about them. -/
structure IFaceTable where
  functions : List IFaceFunction
  properties : List IFaceProperty
  FindFunction : String → Int
  FindProperty : String → Int
  GetterFunction : IFaceProperty → IFaceFunction
  SetterFunction : IFaceProperty → IFaceFunction

/-- Embeds `IFaceFunction empty = {0};` -/
def IFaceFunction.empty : IFaceFunction :=
  { name := none, value := 0, returnType := iface_void,
    paramType0 := iface_void, paramType1 := iface_void }

/-! ## Type classifier (lines 22-42) -/

/-- Embeds `t < iface_stringresult || (index==1 && t == iface_stringresult)` -/
def IFaceTypeIsScriptable (t : IFaceType) (index : Nat) : Bool :=
  decide (t.ord < iface_stringresult.ord) || (index == 1 && decide (t = iface_stringresult))

/-- Embeds `t > iface_void && t < iface_bool` -/
def IFaceTypeIsNumeric (t : IFaceType) : Bool :=
  decide (iface_void.ord < t.ord) && decide (t.ord < iface_bool.ord)

/-- Both parameter tags are scriptable at their index. -/
def IFaceFunctionIsScriptable (f : IFaceFunction) : Bool :=
  IFaceTypeIsScriptable (f.paramType 0) 0 && IFaceTypeIsScriptable (f.paramType 1) 1

/-- The property predicate of lines 38-42. -/
def IFacePropertyIsScriptable (p : IFaceProperty) : Bool :=
  ((decide (iface_void.ord < p.valueType.ord) && decide (p.valueType.ord ≤ iface_stringresult.ord)
      && decide (p.valueType ≠ iface_keymod)) &&
    (decide (p.paramType.ord < iface_colour.ord) || decide (p.paramType = iface_string) ||
      decide (p.paramType = iface_bool))) &&
  (decide (p.getter ≠ 0) || decide (p.setter ≠ 0))

/-! ## C strings (lines 139-162) -/

/-- The bytes a C routine reads at a `const char*`: those before the first NUL. -/
def cstr (s : String) : List Char :=
  s.data.takeWhile (fun c => c != '\x00')

/-- C `strlen`. -/
def strlen (s : String) : Nat := (cstr s).length

/-- Byte-wise comparison of two terminated byte sequences, as `strcmp` does it:
negative, zero or positive. -/
def strcmpBytes : List Char → List Char → Int
  | [], [] => 0
  | [], _ :: _ => -1
  | _ :: _, [] => 1
  | a :: as, b :: bs =>
    if a.toNat < b.toNat then -1
    else if b.toNat < a.toNat then 1
    else strcmpBytes as bs

/-- C `strcmp`. -/
def strcmp (s1 s2 : String) : Int := strcmpBytes (cstr s1) (cstr s2)

/-- Embeds `strcmp(s1, s2) == 0` -/
def strEqual (s1 s2 : String) : Bool := strcmp s1 s2 == 0

/-- Lines 144-152: `len1 < len2 ? false : memcmp(s1, s2, len2) == 0`. -/
def strStartsWith (s1 s2 : String) : Bool :=
  if strlen s1 < strlen s2 then false
  else (cstr s1).take (strlen s2) == (cstr s2).take (strlen s2)

/-- Pointer arithmetic `s + n` on a `const char*`, for `n` within the string. -/
def strOffset (s : String) (n : Nat) : String := String.mk (s.data.drop n)

/-! ## Script values and the interpreter's error indicator -/

/-- A Python 2 object as far as the bridge looks at it.  `PyInt` holds a C long,
`PyString` is a byte string (it may hold NUL bytes), `PyOther` is any object of
another type (float, long, list, unicode, ...). -/
inductive PyObject
  | None
  | PyInt (n : Int)
  | PyBool (b : Bool)
  | PyString (s : String)
  | PyTuple (items : List PyObject)
  | PyOther (id : Nat)

open PyObject

/-- The exception classes the bridge raises or may find raised. -/
inductive PyExc
  | RuntimeError
  | TypeError
  deriving DecidableEq, Repr

/-- What `PyErr_SetString(exc, msg)` records. -/
structure PyErr where
  exc : PyExc
  msg : String
  deriving DecidableEq, Repr

/-- Embeds `PyInt_Check`: an int or an instance of a subclass of int; in Python 2 bool
is such a subclass. -/
def PyInt_Check : PyObject → Bool
  | PyInt _ => true
  | PyBool _ => true
  | _ => false

/-- Embeds `PyBool_Check`. -/
def PyBool_Check : PyObject → Bool
  | PyBool _ => true
  | _ => false

/-- Embeds `PyString_Check`. -/
def PyString_Check : PyObject → Bool
  | PyString _ => true
  | _ => false

/-- Embeds `PyInt_AsLong` on an object that passed `PyInt_Check`. -/
def PyInt_AsLong : PyObject → Int
  | PyInt n => n
  | PyBool b => if b then 1 else 0
  | _ => -1

/-- Embeds `PyObject_IsTrue` on an object that passed `PyBool_Check`. -/
def PyObject_IsTrue : PyObject → Bool
  | PyBool b => b
  | _ => false

/-- Conversion of a wider integer to C `int` (32 bits, two's complement). -/
def castInt (n : Int) : Int := (n + 2147483648) % 4294967296 - 2147483648

/-! ## Value converters (lines 803-864) -/

/-- Embeds `GetPythonInt(arg, optional)`: the value returned and the error indicator
afterwards. -/
def GetPythonInt (arg : Option PyObject) (optional : Bool) (err : Option PyErr) :
    Int × Option PyErr :=
  match arg with
  | none =>
    if optional then (0, err)
    else (0, some ⟨PyExc.RuntimeError, "expected int param."⟩)
  | some a =>
    if !PyInt_Check a then (0, some ⟨PyExc.RuntimeError, "expected int param."⟩)
    else (castInt (PyInt_AsLong a), err)

/-- Embeds `GetPythonBool(arg, optional)`. -/
def GetPythonBool (arg : Option PyObject) (optional : Bool) (err : Option PyErr) :
    Bool × Option PyErr :=
  match arg with
  | none =>
    if optional then (false, err)
    else (false, some ⟨PyExc.RuntimeError, "expected boolean param."⟩)
  | some a =>
    if !PyBool_Check a then (false, some ⟨PyExc.RuntimeError, "expected boolean param."⟩)
    else (PyObject_IsTrue a, err)

/-- Embeds `GetPythonString(arg, &str, &len, optional)`: the pointer stored in `*str`
(`none` for NULL), the length stored in `*len`, and the error indicator. -/
def GetPythonString (arg : Option PyObject) (optional : Bool) (err : Option PyErr) :
    Option String × Nat × Option PyErr :=
  match arg with
  | none =>
    if optional then (some "", 0, err)
    else (none, 0, some ⟨PyExc.RuntimeError, "expected string param."⟩)
  | some (PyString s) => (some s, s.length, err)
  | some _ => (none, 0, some ⟨PyExc.RuntimeError, "expected string param."⟩)

/-! ## Interface resolver (lines 866-921) -/

/-- What `SearchForFunction` leaves behind: the descriptor returned, the out
parameter `nameFound`, and the error indicator. -/
structure SearchResult where
  fn : IFaceFunction
  nameFound : String
  pyErr : Option PyErr
  deriving DecidableEq, Repr

/-- The entry `table[index]` of a C array for an `int` index; `none` outside it. -/
def tableAt {α : Type} (table : List α) (index : Int) : Option α :=
  if index < 0 then none else table.get? index.toNat

/-- Embeds `SearchForFunction(name, nameFound)`, lines 866-921.  `nameFound` and `err`
are the values on entry.  The result is `none` when a lookup hands back an index
outside its table (undefined in C). -/
def SearchForFunction (T : IFaceTable) (name : String) (nameFound : String)
    (err : Option PyErr) : Option SearchResult :=
  let empty := IFaceFunction.empty
  let index := T.FindFunction name
  if index ≥ 0 then
    match tableAt T.functions index with
    | none => none
    | some f =>
      if !IFaceFunctionIsScriptable f then
        some ⟨empty, nameFound, some ⟨PyExc.RuntimeError, "function is not scriptable"⟩⟩
      else
        match f.name with
        | none => none
        | some fname =>
          if !strEqual name fname then
            some ⟨empty, nameFound,
              some ⟨PyExc.RuntimeError, "IFaceTable::FindFunction returned incorrect name"⟩⟩
          else
            some ⟨f, String.mk (cstr fname), err⟩
  else
    let isGet := strStartsWith name "Get"
    let isSet := strStartsWith name "Set"
    if isGet || isSet then
      let potentialPropertyName := strOffset name (if isGet then strlen "Get" else strlen "Set")
      let index := T.FindProperty potentialPropertyName
      if index > 0 then
        match tableAt T.properties index with
        | none => none
        | some p =>
          if !IFacePropertyIsScriptable p then
            some ⟨empty, nameFound, some ⟨PyExc.RuntimeError, "property is not scriptable"⟩⟩
          else if !strEqual potentialPropertyName p.name then
            some ⟨empty, nameFound,
              some ⟨PyExc.RuntimeError, "IFaceTable::FindProperty returned incorrect name"⟩⟩
          else if isGet && p.getter == 0 then
            some ⟨empty, nameFound,
              some ⟨PyExc.RuntimeError, "Cannot read from a write-only property"⟩⟩
          else if isSet && p.setter == 0 then
            some ⟨empty, nameFound,
              some ⟨PyExc.RuntimeError, "Cannot write to a read-only property"⟩⟩
          else if isGet then
            some ⟨T.GetterFunction p, String.mk (cstr p.name) ++ " (getter)", err⟩
          else if isSet then
            some ⟨T.SetterFunction p, String.mk (cstr p.name) ++ " (setter)", err⟩
          else
            some ⟨empty, nameFound, err⟩
      else
        some ⟨empty, nameFound, err⟩
    else
      some ⟨empty, nameFound, err⟩

/-! ## The host (ExtensionAPI) and the state passed along -/

/-- Embeds `ExtensionAPI::Pane`. -/
inductive Pane
  | paneEditor
  | paneOutput
  deriving DecidableEq, Repr

/-- A native word (`sptr_t` / `uptr_t`) handed to `Send`: a number, a pointer to
the bytes of a string (`CastSzToSptr`), or a pointer to the string-result buffer
(`CastPtrToSptr`) together with what the buffer holds when the call is made. -/
inductive Sptr
  | num (n : Int)
  | sz (s : String)
  | buffer (content : List Char)
  deriving DecidableEq, Repr

/-- One call `Host()->Send(pane, msg, word0, word1)`. -/
structure SendCall where
  pane : Pane
  msg : Int
  word0 : Sptr
  word1 : Sptr
  deriving DecidableEq, Repr

/-- The host side of `Send`, external to the bridge: from the host's state and a
call, the next state, the result word, and the bytes the host writes through
`word1` when that word points to a buffer. -/
structure ExtensionAPI (σ : Type) where
  Send : σ → SendCall → σ × Int × List Char

/-- The state the bridge functions pass along: the host's own state, the log of
`Send` calls, the log of `Host()->Trace` texts, and the interpreter's error
indicator (`PyErr_Occurred`). -/
structure Env (σ : Type) where
  host : σ
  sends : List SendCall
  traces : List String
  pyErr : Option PyErr

/-- Embeds `Host()->Send(...)`: the call is logged and the host moves on. -/
def hostSend {σ : Type} (api : ExtensionAPI σ) (env : Env σ) (c : SendCall) :
    Env σ × Int × List Char :=
  let r := api.Send env.host c
  ({ env with host := r.1, sends := env.sends ++ [c] }, r.2.1, r.2.2)

/-- Embeds `trace(text1, text2)`, lines 443-453, with a host attached: one
`Host()->Trace` per text. -/
def trace {σ : Type} (env : Env σ) (text1 text2 : String) : Env σ :=
  { env with traces := env.traces ++ [text1, text2] }

/-- Embeds `PyErr_SetString`. -/
def pyErrSet {σ : Type} (env : Env σ) (e : PyErr) : Env σ :=
  { env with pyErr := some e }

/-! ## SimpleStringBuffer (lines 115-137) -/

/-- The class `SimpleStringBuffer`: the vector and the flag. -/
structure SimpleStringBuffer where
  _buffer : List Char
  _allocated : Bool
  deriving DecidableEq, Repr

/-- The constructor: nothing allocated. -/
def SimpleStringBuffer.new : SimpleStringBuffer := ⟨[], false⟩

/-- Embeds `Allocate(n)`: resize to `n` and fill with zero bytes. -/
def SimpleStringBuffer.Allocate (_b : SimpleStringBuffer) (n : Nat) : SimpleStringBuffer :=
  ⟨List.replicate n '\x00', true⟩

/-- Embeds `Get()`: the buffer when allocated, `NULL` otherwise. -/
def SimpleStringBuffer.Get (b : SimpleStringBuffer) : Option (List Char) :=
  if b._allocated then some b._buffer else none

/-- The buffer after the host wrote `w` at its start; `none` when `w` does not fit. -/
def writeBuffer (buf w : List Char) : Option (List Char) :=
  if w.length ≤ buf.length then some (w ++ buf.drop w.length) else none

/-- Embeds `PyString_FromString` on a buffer: the bytes before the first NUL; `none`
when the buffer holds no NUL (the read would leave the buffer). -/
def PyString_FromBuffer (buf : List Char) : Option String :=
  if buf.contains '\x00' then some (String.mk (buf.takeWhile (fun c => c != '\x00'))) else none

/-! ## Pane call dispatcher (lines 923-1056) -/

/-- The locals of `CallPaneFunction` that the parameter loop updates. -/
structure Marshal (σ : Type) where
  word0 : Sptr
  word1 : Sptr
  arg : Nat
  env : Env σ

/-- Embeds `paramsToSend[i] = w` -/
def Marshal.setParam {σ : Type} (m : Marshal σ) (i : Nat) (w : Sptr) : Marshal σ :=
  if i = 0 then { m with word0 := w } else { m with word1 := w }

/-- Embeds `CastSzToSptr(str)`: the null pointer is the word 0. -/
def CastSzToSptr : Option String → Sptr
  | none => Sptr.num 0
  | some s => Sptr.sz s

/-- Embeds `args[k]` of `PyObject* args[] = {arg1, arg2}`. -/
def argAt (arg1 arg2 : Option PyObject) (k : Nat) : Option PyObject :=
  if k = 0 then arg1 else if k = 1 then arg2 else none

/-- The conversions of one iteration of the loop of lines 966-997, for index `i`
(lines 968-990): the locals afterwards. -/
def loopConvert {σ : Type} (functionInfo : IFaceFunction) (name : String)
    (arg1 arg2 : Option PyObject) (i : Nat) (m : Marshal σ) : Marshal σ :=
  let t := functionInfo.paramType i
  if t = iface_string then
    let r := GetPythonString (argAt arg1 arg2 m.arg) false m.env.pyErr
    { (m.setParam i (CastSzToSptr r.1)) with arg := m.arg + 1, env := { m.env with pyErr := r.2.2 } }
  else if t = iface_bool then
    let r := GetPythonBool (argAt arg1 arg2 m.arg) false m.env.pyErr
    { (m.setParam i (Sptr.num (if r.1 then 1 else 0))) with
      arg := m.arg + 1, env := { m.env with pyErr := r.2 } }
  else if IFaceTypeIsNumeric t || t = iface_keymod then
    let r := GetPythonInt (argAt arg1 arg2 m.arg) false m.env.pyErr
    { (m.setParam i (Sptr.num r.1)) with arg := m.arg + 1, env := { m.env with pyErr := r.2 } }
  else if t ≠ iface_void then
    { m with env := trace m.env "Warning: parameter expected, but unhandled type, in function " name }
  else m

/-- The body of the loop of lines 966-997 for index `i`: the conversions, then
the check of lines 992-996; `Except.error` is the `return NULL` of line 995,
with the state at that point. -/
def loopBody {σ : Type} (functionInfo : IFaceFunction) (name : String)
    (arg1 arg2 : Option PyObject) (i : Nat) (m : Marshal σ) : Except (Env σ) (Marshal σ) :=
  let m1 := loopConvert functionInfo name arg1 arg2 i m
  if m1.env.pyErr.isSome then Except.error m1.env else Except.ok m1

/-- The loop `for (int i = 0; i < loopParamCount; ++i)`: `todo` iterations are
left, the next one for index `i`. -/
def paramLoop {σ : Type} (functionInfo : IFaceFunction) (name : String)
    (arg1 arg2 : Option PyObject) : Nat → Nat → Marshal σ → Except (Env σ) (Marshal σ)
  | _, 0, m => Except.ok m
  | i, todo + 1, m =>
    match loopBody functionInfo name arg1 arg2 i m with
    | Except.error e => Except.error e
    | Except.ok m1 => paramLoop functionInfo name arg1 arg2 (i + 1) todo m1

/-- The loop of lines 1000-1004, `for (int i = arg; i < loopParamCount; i++)`,
with `todo` iterations left. -/
def tooManyLoop {σ : Type} (name : String) (arg1 arg2 : Option PyObject) :
    Nat → Nat → Env σ → Env σ
  | _, 0, env => env
  | i, todo + 1, env =>
    let env1 :=
      if (argAt arg1 arg2 i).isSome then
        trace env "Warning: too many parameter(s) passed to function " name
      else env
    tooManyLoop name arg1 arg2 (i + 1) todo env1

/-- Lines 1031-1055: the script value built from the return type, the string
read from the string-result buffer (`none` when no buffer was allocated) and the
result word of the last `Send`. -/
def buildReturn (returnType : IFaceType) (returnedString : Option String) (result : Int) :
    PyObject :=
  if returnType = iface_bool then
    match returnedString with
    | some s => PyTuple [PyString s, PyBool (result != 0)]
    | none => PyBool (result != 0)
  else if IFaceTypeIsNumeric returnType || returnType = iface_keymod then
    match returnedString with
    | some s => PyTuple [PyString s, PyInt (castInt result)]
    | none => PyInt (castInt result)
  else
    match returnedString with
    | some s => PyString s
    | none => None

/-- Lines 1006-1056: the probe, the allocation, the real `Send` and the return
value, from the words the first part assembled. -/
def sendAndReturn {σ : Type} (api : ExtensionAPI σ) (pane : Pane) (functionInfo : IFaceFunction)
    (needStringResult : Bool) (m : Marshal σ) : Option (Option PyObject × Env σ) :=
  if needStringResult then
    let probe := hostSend api m.env ⟨pane, functionInfo.value, m.word0, Sptr.num 0⟩
    let stringResultLen : Int := if probe.2.1 = 0 then 1 else probe.2.1
    if stringResultLen + 1 ≤ 0 then none
    else
      let stringResult := SimpleStringBuffer.new.Allocate (stringResultLen + 1).toNat
      match stringResult.Get with
      | none => none
      | some buf =>
        let word0 := if functionInfo.paramType 0 = iface_length then Sptr.num stringResultLen
          else m.word0
        let real := hostSend api probe.1 ⟨pane, functionInfo.value, word0, Sptr.buffer buf⟩
        match writeBuffer buf real.2.2 with
        | none => none
        | some written =>
          match PyString_FromBuffer written with
          | none => none
          | some s => some (some (buildReturn functionInfo.returnType (some s) real.2.1), real.1)
  else
    let real := hostSend api m.env ⟨pane, functionInfo.value, m.word0, m.word1⟩
    some (some (buildReturn functionInfo.returnType none real.2.1), real.1)

/-- Lines 927-1004 of `CallPaneFunction`: the shape of the call, the parameter
loop and the check for surplus arguments.  `Except.error` is a `return NULL`
(lines 943 and 995) with the state at that point; otherwise the flag
`needStringResult` and the locals. -/
def marshalArgs {σ : Type} (env : Env σ) (functionInfo : IFaceFunction) (name : String)
    (arg1 arg2 : Option PyObject) : Except (Env σ) (Bool × Marshal σ) :=
  let m0 : Marshal σ := ⟨Sptr.num 0, Sptr.num 0, 0, env⟩
  if functionInfo.paramType 0 = iface_length ∧ functionInfo.paramType 1 = iface_string then
    let r := GetPythonString (argAt arg1 arg2 m0.arg) false env.pyErr
    let env1 : Env σ := { env with pyErr := r.2.2 }
    if env1.pyErr.isSome then Except.error env1
    else
      let m1 : Marshal σ := ⟨Sptr.num r.2.1, CastSzToSptr r.1, m0.arg, env1⟩
      let loopParamCount : Nat := 0
      match paramLoop functionInfo name arg1 arg2 0 loopParamCount m1 with
      | Except.error e => Except.error e
      | Except.ok m2 =>
        Except.ok (false,
          { m2 with env := tooManyLoop name arg1 arg2 m2.arg (loopParamCount - m2.arg) m2.env })
  else
    let needStringResult : Bool :=
      functionInfo.paramType 1 = iface_stringresult ∨ functionInfo.returnType = iface_stringresult
    let loopParamCount : Nat :=
      if needStringResult then (if functionInfo.paramType 0 = iface_length then 0 else 1) else 2
    match paramLoop functionInfo name arg1 arg2 0 loopParamCount m0 with
    | Except.error e => Except.error e
    | Except.ok m2 =>
      Except.ok (needStringResult,
        { m2 with env := tooManyLoop name arg1 arg2 m2.arg (loopParamCount - m2.arg) m2.env })

/-- Embeds `CallPaneFunction(pane, functionInfo, name, arg1, arg2)`, lines 923-1056.
An absent script argument is `none`.  The result is the object returned (`none`
for `NULL`) and the state afterwards; the outer `none` is a path that C leaves
undefined (a probed length below zero, a host write past the buffer). -/
def CallPaneFunction {σ : Type} (api : ExtensionAPI σ) (env : Env σ) (pane : Pane)
    (functionInfo : IFaceFunction) (name : String) (arg1 arg2 : Option PyObject) :
    Option (Option PyObject × Env σ) :=
  match marshalArgs env functionInfo name arg1 arg2 with
  | Except.error e => some (none, e)
  | Except.ok (needStringResult, m) => sendAndReturn api pane functionInfo needStringResult m

/-! ## Pane selector and the generic pane call (lines 1060-1087, 1410-1427) -/

/-- Embeds `GetPaneFromInt(nPane, &outPane)`: the pane written to `*outPane` (`none`
when nothing is written, the function then returns false) and the error
indicator afterwards. -/
def GetPaneFromInt (nPane : Int) (err : Option PyErr) : Option Pane × Option PyErr :=
  if nPane = 0 then (some Pane.paneEditor, err)
  else if nPane = 1 then (some Pane.paneOutput, err)
  else (none, some ⟨PyExc.RuntimeError, "Invalid pane, must be 0 or 1."⟩)

/-- What `PyArg_ParseTuple(args, "is|OO", ...)` stored on success: the pane
number, the function name, and the two optional objects. -/
structure SendScintillaArgs where
  nPane : Int
  functionName : String
  arg1 : Option PyObject
  arg2 : Option PyObject

/-- Embeds `pyfun_pane_SendScintilla`, lines 1060-1087.  `parsed` is the outcome of the
interpreter's `PyArg_ParseTuple`: `Except.error e` when it failed, raising `e`. -/
def pyfun_pane_SendScintilla {σ : Type} (api : ExtensionAPI σ) (T : IFaceTable) (env : Env σ)
    (parsed : Except PyErr SendScintillaArgs) : Option (Option PyObject × Env σ) :=
  match parsed with
  | Except.error e => some (none, pyErrSet env e)
  | Except.ok a =>
    match GetPaneFromInt a.nPane env.pyErr with
    | (none, err) => some (none, { env with pyErr := err })
    | (some pane, err) =>
      match SearchForFunction T a.functionName "" err with
      | none => none
      | some found =>
        let env1 : Env σ := { env with pyErr := found.pyErr }
        if env1.pyErr.isSome then some (none, env1)
        else if found.fn.name.isNone then
          some (none, pyErrSet env1 ⟨PyExc.RuntimeError, "Function or property not found"⟩)
        else
          CallPaneFunction api env1 pane found.fn found.nameFound a.arg1 a.arg2

/-! ## Event bridge (lines 164-245, 302-412, 516-571, 1429-1530) -/

/-- The members of the class `PythonExtension` that the event entry points
read: the initialisation flag and the `std::map<std::string, bool>` of enabled
notifications, as the list of its entries. -/
structure PythonExtension where
  _pythonInitialized : Bool
  _enabledNotifications : List (String × Bool)

/-- The `std::string` built from a `const char*`. -/
def stdString (s : String) : String := String.mk (cstr s)

/-- Embeds `_enabledNotifications[eventName] = true` on the entries of the map. -/
def mapAssignTrue (key : String) : List (String × Bool) → List (String × Bool)
  | [] => [(key, true)]
  | (k, v) :: rest => if k = key then (k, true) :: rest else (k, v) :: mapAssignTrue key rest

/-- Embeds `EnableNotification(eventName, enabled)`, lines 174-184. -/
def PythonExtension.EnableNotification (ext : PythonExtension) (eventName : String)
    (enabled : Bool) : PythonExtension :=
  if enabled then
    { ext with _enabledNotifications := mapAssignTrue (stdString eventName) ext._enabledNotifications }
  else
    { ext with _enabledNotifications :=
        ext._enabledNotifications.filter (fun kv => kv.1 ≠ stdString eventName) }

/-- Embeds `NeedsNotification(eventName)`, lines 186-190: the key is in the map. -/
def PythonExtension.NeedsNotification (ext : PythonExtension) (eventName : String) : Bool :=
  ext._enabledNotifications.any (fun kv => kv.1 = stdString eventName)

/-- Embeds `FInitialized()`. -/
def PythonExtension.FInitialized (ext : PythonExtension) : Bool := ext._pythonInitialized

/-- What `PyDict_GetItemString(pDict, "OnEvent")` finds in the module: nothing,
an object that is not callable, or a callable, given by what a call with the
positional arguments returns (`none` when the call raises). -/
inductive OnEventEntry
  | absent
  | notCallable
  | callable (f : List PyObject → Option PyObject)

/-- The interpreter side of an event dispatch, external to the bridge: whether
the module `scite_extend_ui` imports, whether its dict is there, and its
`OnEvent` entry.  The interpreter's object constructors (`PyString_FromString`,
`Py_BuildValue`) are taken to succeed. -/
structure ScriptModule where
  imports : Bool
  hasDict : Bool
  OnEvent : OnEventEntry

/-- The log of an event dispatch: the texts passed to `Host()->Trace`, the
invocations of `RunCallbackArgs` (event name and argument object, `none` for
NULL), the calls of the script's `OnEvent` (their positional arguments), and the
number of `PyErr_Print` calls. -/
structure EventLog where
  traces : List String
  runs : List (String × Option PyObject)
  calls : List (List PyObject)
  errPrints : Nat

/-- The log before anything happened. -/
def EventLog.start : EventLog := ⟨[], [], [], 0⟩

/-- Embeds `PythonExtension::WriteError(error)`, lines 419-423. -/
def WriteError (log : EventLog) (error : String) : EventLog :=
  { log with traces := log.traces ++ [">Python Error:", error, "\n"] }

/-- Embeds `PythonExtension::WriteError(error, error2)`, lines 425-430. -/
def WriteError2 (log : EventLog) (error error2 : String) : EventLog :=
  { log with traces := log.traces ++ [">Python Error:", error, " ", error2, "\n"] }

/-- Embeds `PyErr_Print()`. -/
def PyErr_Print (log : EventLog) : EventLog := { log with errPrints := log.errPrints + 1 }

/-- The object `Py_BuildValue` makes for an `s` item from a non-null `char*`. -/
def buildS (s : String) : PyObject := PyString (stdString s)

/-- Embeds `RunCallbackArgs(eventName, pArgsBorrowed)`, lines 1449-1530. -/
def RunCallbackArgs (script : ScriptModule) (log : EventLog) (eventName : String)
    (pArgsBorrowed : Option PyObject) : Bool × EventLog :=
  let log0 : EventLog := { log with runs := log.runs ++ [(eventName, pArgsBorrowed)] }
  let args : PyObject := pArgsBorrowed.getD None
  let fullArgs : List PyObject := [buildS eventName, args]
  if !script.imports then
    (false, PyErr_Print (WriteError log0 "Error importing module."))
  else if !script.hasDict then
    (false, WriteError log0 "Unexpected: could not get module dict.")
  else
    match script.OnEvent with
    | OnEventEntry.absent => (false, log0)
    | OnEventEntry.notCallable => (false, WriteError log0 "OnEvent not a function")
    | OnEventEntry.callable f =>
      let log1 : EventLog := { log0 with calls := log0.calls ++ [fullArgs] }
      match f fullArgs with
      | none => (false, PyErr_Print (WriteError2 log1 "Error in callback " eventName))
      | some pResult =>
        match pResult with
        | PyString string =>
          if strcmp "StopEventPropagation" string = 0 then (true, log1) else (false, log1)
        | _ => (false, log1)

/-- Embeds `RunCallback(eventName, nArgs, arg1)`, lines 1429-1447. -/
def RunCallback (script : ScriptModule) (log : EventLog) (eventName : String) (nArgs : Int)
    (arg1 : String) : Bool × EventLog :=
  if nArgs = 0 then RunCallbackArgs script log eventName none
  else if nArgs = 1 then RunCallbackArgs script log eventName (some (PyTuple [buildS arg1]))
  else (false, WriteError log "Unexpected: calling RunCallback, only 0/1 args supported.")

/-- Modelled from the spec: the key modifier masks `SCMOD_SHIFT`, `SCMOD_CTRL`
and `SCMOD_ALT` of Scintilla.h, a header that is not part of the sources here;
each is the mask of one modifier bit. -/
structure KeyMods where
  SCMOD_SHIFT : Int
  SCMOD_CTRL : Int
  SCMOD_ALT : Int

/-- Embeds `OnOpen(filename)`, lines 302-306. -/
def PythonExtension.OnOpen (ext : PythonExtension) (script : ScriptModule) (log : EventLog)
    (filename : String) : Bool × EventLog :=
  if ext.FInitialized && ext.NeedsNotification "OnOpen" then
    RunCallback script log "OnOpen" 1 filename
  else (false, log)

/-- Embeds `OnSwitchFile(filename)`, lines 308-312. -/
def PythonExtension.OnSwitchFile (ext : PythonExtension) (script : ScriptModule) (log : EventLog)
    (filename : String) : Bool × EventLog :=
  if ext.FInitialized && ext.NeedsNotification "OnSwitchFile" then
    RunCallback script log "OnSwitchFile" 1 filename
  else (false, log)

/-- Embeds `OnBeforeSave(filename)`, lines 314-318. -/
def PythonExtension.OnBeforeSave (ext : PythonExtension) (script : ScriptModule) (log : EventLog)
    (filename : String) : Bool × EventLog :=
  if ext.FInitialized && ext.NeedsNotification "OnBeforeSave" then
    RunCallback script log "OnBeforeSave" 1 filename
  else (false, log)

/-- Embeds `OnSave(filename)`, lines 320-324. -/
def PythonExtension.OnSave (ext : PythonExtension) (script : ScriptModule) (log : EventLog)
    (filename : String) : Bool × EventLog :=
  if ext.FInitialized && ext.NeedsNotification "OnSave" then
    RunCallback script log "OnSave" 1 filename
  else (false, log)

/-- Embeds `OnSavePointReached()`, lines 350-354. -/
def PythonExtension.OnSavePointReached (ext : PythonExtension) (script : ScriptModule)
    (log : EventLog) : Bool × EventLog :=
  if ext.FInitialized && ext.NeedsNotification "OnSavePointReached" then
    RunCallback script log "OnSavePointReached" 0 ""
  else (false, log)

/-- Embeds `OnSavePointLeft()`, lines 356-360. -/
def PythonExtension.OnSavePointLeft (ext : PythonExtension) (script : ScriptModule)
    (log : EventLog) : Bool × EventLog :=
  if ext.FInitialized && ext.NeedsNotification "OnSavePointLeft" then
    RunCallback script log "OnSavePointLeft" 0 ""
  else (false, log)

/-- Embeds `OnDoubleClick()`, lines 368-372. -/
def PythonExtension.OnDoubleClick (ext : PythonExtension) (script : ScriptModule)
    (log : EventLog) : Bool × EventLog :=
  if ext.FInitialized && ext.NeedsNotification "OnDoubleClick" then
    RunCallback script log "OnDoubleClick" 0 ""
  else (false, log)

/-- Embeds `OnMarginClick()`, lines 379-383. -/
def PythonExtension.OnMarginClick (ext : PythonExtension) (script : ScriptModule)
    (log : EventLog) : Bool × EventLog :=
  if ext.FInitialized && ext.NeedsNotification "OnMarginClick" then
    RunCallback script log "OnMarginClick" 0 ""
  else (false, log)

/-- Embeds `OnClose(filename)`, lines 403-407. -/
def PythonExtension.OnClose (ext : PythonExtension) (script : ScriptModule) (log : EventLog)
    (filename : String) : Bool × EventLog :=
  if ext.FInitialized && ext.NeedsNotification "OnClose" then
    RunCallback script log "OnClose" 1 filename
  else (false, log)

/-- Embeds `OnChar(ch)`, lines 516-527; `ch` is the value of the C `char`. -/
def PythonExtension.OnChar (ext : PythonExtension) (script : ScriptModule) (log : EventLog)
    (ch : Int) : Bool × EventLog :=
  if ext.FInitialized && ext.NeedsNotification "OnChar" then
    RunCallbackArgs script log "OnChar" (some (PyTuple [PyInt ch]))
  else (false, log)

/-- Embeds `OnUserListSelection(type, selection)`, lines 529-540. -/
def PythonExtension.OnUserListSelection (ext : PythonExtension) (script : ScriptModule)
    (log : EventLog) (type : Int) (selection : String) : Bool × EventLog :=
  if ext.FInitialized && ext.NeedsNotification "OnUserListSelection" then
    RunCallbackArgs script log "OnUserListSelection" (some (PyTuple [PyInt type, buildS selection]))
  else (false, log)

/-- Embeds `OnKey(keyval, modifiers)`, lines 542-557. -/
def PythonExtension.OnKey (ext : PythonExtension) (script : ScriptModule) (log : EventLog)
    (K : KeyMods) (keyval modifiers : Int) : Bool × EventLog :=
  if ext.FInitialized && ext.NeedsNotification "OnKey" then
    let shift : Int := if Int.land K.SCMOD_SHIFT modifiers ≠ 0 then 1 else 0
    let ctrl : Int := if Int.land K.SCMOD_CTRL modifiers ≠ 0 then 1 else 0
    let alt : Int := if Int.land K.SCMOD_ALT modifiers ≠ 0 then 1 else 0
    RunCallbackArgs script log "OnKey"
      (some (PyTuple [PyInt keyval, PyInt shift, PyInt ctrl, PyInt alt]))
  else (false, log)

/-- Embeds `OnUserStrip(control, eventType)`, lines 559-571. -/
def PythonExtension.OnUserStrip (ext : PythonExtension) (script : ScriptModule) (log : EventLog)
    (control eventType : Int) : Bool × EventLog :=
  if ext.FInitialized && ext.NeedsNotification "OnUserStrip" then
    RunCallbackArgs script log "OnUserStrip" (some (PyTuple [PyInt control, PyInt eventType]))
  else (false, log)

/-- Embeds `InitializePython()`, lines 207-217, as far as the members go. -/
def PythonExtension.InitializePython (ext : PythonExtension) : PythonExtension :=
  if !ext._pythonInitialized then { ext with _pythonInitialized := true } else ext

/-- Embeds `Initialise(host)`, lines 229-245, in a release build (`WriteLog` and
`VerifyConstantsTableOrder` are empty without `_DEBUG`).  `delayLoadProp` is the
host's value of the property `ext.python.delayload`. -/
def PythonExtension.Initialise (ext : PythonExtension) (script : ScriptModule) (log : EventLog)
    (delayLoadProp : String) : Bool × PythonExtension × EventLog :=
  let delayLoad : Bool :=
    decide (0 < delayLoadProp.length) && delayLoadProp.data.head? != some '0'
  if !delayLoad then
    let ext1 := ext.InitializePython
    let r := RunCallback script log "OnStart" 0 ""
    (false, ext1, r.2)
  else (false, ext, log)

/-! ## Named-command lookup (lines 1532-1736) -/

/-- Modelled from the spec: `struct IFaceConstant` of IFaceTable.h, a header that
is not part of the sources here: a name and a value (the friendly command
table's pairs of name and command id). -/
structure IFaceConstant where
  name : String
  value : Int
  deriving DecidableEq, Repr

/-- The do-while loop of `FindFriendlyNamedIDMConstant`, lines 1537-1553, entered
with `lo` and `hi`; the loop condition `lo <= hi` is tested where the body
ends.  `fuel` bounds the number of iterations; the result is `none` when the
fuel runs out or when `constantsTable[idx]` is outside the table. -/
def findLoop (table : List IFaceConstant) (name : String) : Nat → Int → Int → Option Int
  | 0, _, _ => none
  | fuel + 1, lo, hi =>
    let idx := Int.tdiv (lo + hi) 2
    match tableAt table idx with
    | none => none
    | some entry =>
      let cmp := strcmp name entry.name
      if cmp > 0 then
        if idx + 1 ≤ hi then findLoop table name fuel (idx + 1) hi else some (-1)
      else if cmp < 0 then
        if lo ≤ idx - 1 then findLoop table name fuel lo (idx - 1) else some (-1)
      else some idx

/-- Embeds `FindFriendlyNamedIDMConstant(name)`, lines 1532-1555, over the table
`PythonExtension::constantsTable` of `constantsTableLen` entries; the fuel given
to the loop is one more than the length of the table. -/
def FindFriendlyNamedIDMConstant (table : List IFaceConstant) (name : String) : Option Int :=
  findLoop table name (table.length + 1) 0 ((table.length : Int) - 1)

/-- The initialiser of `rgFriendlyNamedIDMConstants`, lines 1574-1733: each
friendly name with the name of the `IDM_` macro that gives its value. -/
def friendlyNamedIDM : List (String × String) :=
  [("Abbrev", "IDM_ABBREV"),
   ("About", "IDM_ABOUT"),
   ("Activate", "IDM_ACTIVATE"),
   ("AllowAccess", "IDM_ALLOWACCESS"),
   ("BlockComment", "IDM_BLOCK_COMMENT"),
   ("BookmarkClearAll", "IDM_BOOKMARK_CLEARALL"),
   ("BookmarkNext", "IDM_BOOKMARK_NEXT"),
   ("BookmarkNextSelect", "IDM_BOOKMARK_NEXT_SELECT"),
   ("BookmarkPrev", "IDM_BOOKMARK_PREV"),
   ("BookmarkPrevSelect", "IDM_BOOKMARK_PREV_SELECT"),
   ("BookmarkToggle", "IDM_BOOKMARK_TOGGLE"),
   ("BoxComment", "IDM_BOX_COMMENT"),
   ("Buffer", "IDM_BUFFER"),
   ("BufferSep", "IDM_BUFFERSEP"),
   ("Build", "IDM_BUILD"),
   ("Clean", "IDM_CLEAN"),
   ("Clear", "IDM_CLEAR"),
   ("ClearOutput", "IDM_CLEAROUTPUT"),
   ("Close", "IDM_CLOSE"),
   ("CloseAll", "IDM_CLOSEALL"),
   ("Compile", "IDM_COMPILE"),
   ("Complete", "IDM_COMPLETE"),
   ("CompleteWord", "IDM_COMPLETEWORD"),
   ("Copy", "IDM_COPY"),
   ("CopyAsRtf", "IDM_COPYASRTF"),
   ("CopyPath", "IDM_COPYPATH"),
   ("Cut", "IDM_CUT"),
   ("DirectionDown", "IDM_DIRECTIONDOWN"),
   ("DirectionUp", "IDM_DIRECTIONUP"),
   ("Duplicate", "IDM_DUPLICATE"),
   ("EncodingDefault", "IDM_ENCODING_DEFAULT"),
   ("EncodingUCookie", "IDM_ENCODING_UCOOKIE"),
   ("EncodingUcs2be", "IDM_ENCODING_UCS2BE"),
   ("EncodingUcs2le", "IDM_ENCODING_UCS2LE"),
   ("EncodingUtf8", "IDM_ENCODING_UTF8"),
   ("EnterSelection", "IDM_ENTERSELECTION"),
   ("EolConvert", "IDM_EOL_CONVERT"),
   ("EolCr", "IDM_EOL_CR"),
   ("EolCrlf", "IDM_EOL_CRLF"),
   ("EolLf", "IDM_EOL_LF"),
   ("Expand", "IDM_EXPAND"),
   ("ExpandEnsureChildrenVisible", "IDM_EXPAND_ENSURECHILDRENVISIBLE"),
   ("Filer", "IDM_FILER"),
   ("Find", "IDM_FIND"),
   ("FindInFiles", "IDM_FINDINFILES"),
   ("FindNext", "IDM_FINDNEXT"),
   ("FindNextBack", "IDM_FINDNEXTBACK"),
   ("FindNextBackSel", "IDM_FINDNEXTBACKSEL"),
   ("FindNextSel", "IDM_FINDNEXTSEL"),
   ("FinishedExecute", "IDM_FINISHEDEXECUTE"),
   ("FoldMargin", "IDM_FOLDMARGIN"),
   ("FullScreen", "IDM_FULLSCREEN"),
   ("Go", "IDM_GO"),
   ("Goto", "IDM_GOTO"),
   ("Help", "IDM_HELP"),
   ("HelpScite", "IDM_HELP_SCITE"),
   ("Import", "IDM_IMPORT"),
   ("IncrementalSearch", "IDM_INCSEARCH"),
   ("InsAbbrev", "IDM_INS_ABBREV"),
   ("Join", "IDM_JOIN"),
   ("Language", "IDM_LANGUAGE"),
   ("LineNumberMargin", "IDM_LINENUMBERMARGIN"),
   ("LoadSession", "IDM_LOADSESSION"),
   ("LowerCase", "IDM_LWRCASE"),
   ("MacroList", "IDM_MACROLIST"),
   ("MacroPlay", "IDM_MACROPLAY"),
   ("MacroRecord", "IDM_MACRORECORD"),
   ("MacroSep", "IDM_MACRO_SEP"),
   ("MacroStopRecord", "IDM_MACROSTOPRECORD"),
   ("MatchBrace", "IDM_MATCHBRACE"),
   ("MatchCase", "IDM_MATCHCASE"),
   ("MonoFont", "IDM_MONOFONT"),
   ("MoveTabLeft", "IDM_MOVETABLEFT"),
   ("MoveTabRight", "IDM_MOVETABRIGHT"),
   ("MruFile", "IDM_MRUFILE"),
   ("MruSep", "IDM_MRU_SEP"),
   ("MruSub", "IDM_MRU_SUB"),
   ("New", "IDM_NEW"),
   ("NextFile", "IDM_NEXTFILE"),
   ("NextFileStack", "IDM_NEXTFILESTACK"),
   ("NextMatchPpc", "IDM_NEXTMATCHPPC"),
   ("NextMsg", "IDM_NEXTMSG"),
   ("OnTop", "IDM_ONTOP"),
   ("Open", "IDM_OPEN"),
   ("OpenAbbrevProperties", "IDM_OPENABBREVPROPERTIES"),
   ("OpenDirectoryProperties", "IDM_OPENDIRECTORYPROPERTIES"),
   ("OpenFilesHere", "IDM_OPENFILESHERE"),
   ("OpenGlobalProperties", "IDM_OPENGLOBALPROPERTIES"),
   ("OpenLocalProperties", "IDM_OPENLOCALPROPERTIES"),
   ("OpenLuaExternalfile", "IDM_OPENLUAEXTERNALFILE"),
   ("OpenSelected", "IDM_OPENSELECTED"),
   ("OpenUserProperties", "IDM_OPENUSERPROPERTIES"),
   ("Paste", "IDM_PASTE"),
   ("PasteAndDown", "IDM_PASTEANDDOWN"),
   ("PrevFile", "IDM_PREVFILE"),
   ("PrevFileStack", "IDM_PREVFILESTACK"),
   ("PrevMatchPpc", "IDM_PREVMATCHPPC"),
   ("PrevMsg", "IDM_PREVMSG"),
   ("Print", "IDM_PRINT"),
   ("PrintSetup", "IDM_PRINTSETUP"),
   ("Quit", "IDM_QUIT"),
   ("ReadOnly", "IDM_READONLY"),
   ("Redo", "IDM_REDO"),
   ("Regexp", "IDM_REGEXP"),
   ("Replace", "IDM_REPLACE"),
   ("Revert", "IDM_REVERT"),
   ("RunWin", "IDM_RUNWIN"),
   ("Save", "IDM_SAVE"),
   ("SaveACopy", "IDM_SAVEACOPY"),
   ("SaveAll", "IDM_SAVEALL"),
   ("SaveAs", "IDM_SAVEAS"),
   ("SaveAsHtml", "IDM_SAVEASHTML"),
   ("SaveAsPdf", "IDM_SAVEASPDF"),
   ("SaveAsRtf", "IDM_SAVEASRTF"),
   ("SaveAsTex", "IDM_SAVEASTEX"),
   ("SaveAsXml", "IDM_SAVEASXML"),
   ("SaveSession", "IDM_SAVESESSION"),
   ("SelMargin", "IDM_SELMARGIN"),
   ("SelectAll", "IDM_SELECTALL"),
   ("SelectToBrace", "IDM_SELECTTOBRACE"),
   ("SelectToNextMatchPpc", "IDM_SELECTTONEXTMATCHPPC"),
   ("SelectToPrevMatchPpc", "IDM_SELECTTOPREVMATCHPPC"),
   ("SelectionAddEach", "IDM_SELECTIONADDEACH"),
   ("SelectionAddNext", "IDM_SELECTIONADDNEXT"),
   ("SelectionForFind", "IDM_SELECTION_FOR_FIND"),
   ("ShowCalltip", "IDM_SHOWCALLTIP"),
   ("Split", "IDM_SPLIT"),
   ("SplitVertical", "IDM_SPLITVERTICAL"),
   ("SrcWin", "IDM_SRCWIN"),
   ("StatusWin", "IDM_STATUSWIN"),
   ("StopExecute", "IDM_STOPEXECUTE"),
   ("StreamComment", "IDM_STREAM_COMMENT"),
   ("SwitchPane", "IDM_SWITCHPANE"),
   ("TabSize", "IDM_TABSIZE"),
   ("TabWin", "IDM_TABWIN"),
   ("ToggleFoldAll", "IDM_TOGGLE_FOLDALL"),
   ("ToggleFoldRecursive", "IDM_TOGGLE_FOLDRECURSIVE"),
   ("ToggleOutput", "IDM_TOGGLEOUTPUT"),
   ("ToggleParameters", "IDM_TOGGLEPARAMETERS"),
   ("ToolWin", "IDM_TOOLWIN"),
   ("Tools", "IDM_TOOLS"),
   ("Undo", "IDM_UNDO"),
   ("Unslash", "IDM_UNSLASH"),
   ("UpperCase", "IDM_UPRCASE"),
   ("ViewEol", "IDM_VIEWEOL"),
   ("ViewGuides", "IDM_VIEWGUIDES"),
   ("ViewSpace", "IDM_VIEWSPACE"),
   ("ViewStatusBar", "IDM_VIEWSTATUSBAR"),
   ("ViewTabBar", "IDM_VIEWTABBAR"),
   ("ViewToolbar", "IDM_VIEWTOOLBAR"),
   ("WholeWord", "IDM_WHOLEWORD"),
   ("Wrap", "IDM_WRAP"),
   ("WrapAround", "IDM_WRAPAROUND"),
   ("WrapOutput", "IDM_WRAPOUTPUT")]

/-- The table `rgFriendlyNamedIDMConstants`, which is `PythonExtension::constantsTable`.
The `IDM_` identifiers are macros of a header that is not part of the sources
here; `idm` gives the value of each, by its name. -/
def rgFriendlyNamedIDMConstants (idm : String → Int) : List IFaceConstant :=
  friendlyNamedIDM.map (fun p => ⟨p.1, idm p.2⟩)

/-- The test that `VerifyConstantsTableOrder` makes on each adjacent pair, for a
whole list of names: every name is below the next one under `strcmp`. -/
def strictlyAscending : List String → Bool
  | a :: b :: rest => decide (strcmp a b < 0) && strictlyAscending (b :: rest)
  | _ => true

/-- The loop of lines 1561-1570 from the pair at hand on: the texts it traces. -/
def verifyLoop : List IFaceConstant → List String
  | first :: second :: rest =>
    (if ¬ (strcmp first.name second.name < 0) then
        ["Warning, unsorted.", first.name, second.name]
      else []) ++ verifyLoop (second :: rest)
  | _ => []

/-- Embeds `VerifyConstantsTableOrder()`, lines 1557-1572, as a debug build
compiles it (the body is empty otherwise): the texts traced.  With an empty
table the bound `constantsTableLen - 1` wraps around and the loop leaves the
table (`none`). -/
def VerifyConstantsTableOrder (table : List IFaceConstant) : Option (List String) :=
  if table.length = 0 then none else some (verifyLoop table)

/-! ## Properties of the host (lines 642-676) -/

/-- The host's property calls, external to the bridge: `Property(key)` answers
a `std::string`, `SetProperty(key, val)` changes the host's state.  Both take
`const char*` arguments. -/
structure PropertyHost (σ : Type) where
  Property : σ → String → String
  SetProperty : σ → String → String → σ

/-- Embeds `pyfun_GetProperty`, lines 642-660.  `parsed` is the outcome of
`PyArg_ParseTuple(args, "s", &propName)`; the result is the object returned
(`none` for NULL), the host's state and the error indicator. -/
def pyfun_GetProperty {σ : Type} (H : PropertyHost σ) (st : σ) (err : Option PyErr)
    (parsed : Except PyErr String) : Option PyObject × σ × Option PyErr :=
  match parsed with
  | Except.error e => (none, st, some e)
  | Except.ok propName =>
    let value := H.Property st (stdString propName)
    let sz := if value.length > 0 then value else ""
    (some (PyString (stdString sz)), st, err)

/-- Embeds `pyfun_SetProperty`, lines 662-676.  `parsed` is the outcome of
`PyArg_ParseTuple(args, "ss", &propName, &propValue)`. -/
def pyfun_SetProperty {σ : Type} (H : PropertyHost σ) (st : σ) (err : Option PyErr)
    (parsed : Except PyErr (String × String)) : Option PyObject × σ × Option PyErr :=
  match parsed with
  | Except.error e => (none, st, some e)
  | Except.ok (propName, propValue) =>
    (some None, H.SetProperty st (stdString propName) (stdString propValue), err)

/-- Modelled from the spec: the host as a key-to-string store (`SetProperty`
records the value under the key, `Property` answers the value recorded last and
the empty string for a key that has none); the host's own code is not part of
the sources here. -/
def storeHost : PropertyHost (List (String × String)) :=
  { Property := fun st key => ((st.find? (fun kv => kv.1 = key)).map (fun kv => kv.2)).getD ""
    SetProperty := fun st key val => (key, val) :: st }

/-! ## Diagnostic dump (lines 63-82, 1246-1290) -/

/-- Embeds `IFaceTypeToString(type)`, lines 63-82, on the thirteen enumerators;
the `default` case, "unknown", is for a value outside the enumeration. -/
def IFaceTypeToString : IFaceType → String
  | iface_void => "void"
  | iface_int => "int"
  | iface_length => "length"
  | iface_position => "position"
  | iface_colour => "colour"
  | iface_bool => "bool"
  | iface_keymod => "keymod"
  | iface_string => "string"
  | iface_stringresult => "stringresult"
  | iface_cells => "cells"
  | iface_textrange => "textrange"
  | iface_findtext => "findtext"
  | iface_formatrange => "findtext"

/-- Embeds `PrintIFaceFunction(fn, strm, prefix, nameOverride,
showActualParamsVsCallingUsage)`, lines 1246-1290, on a stream that was reset:
the text handed to `trace`, which is what was written to the stream up to the
NUL that `Get()` appends.  The name is given as `namePrefix` and `nameOverride`. -/
def PrintIFaceFunction (fn : IFaceFunction) (namePrefix nameOverride : String)
    (showActualParamsVsCallingUsage : Bool) : String :=
  if showActualParamsVsCallingUsage then
    stdString (String.join
      [stdString (IFaceTypeToString fn.returnType), "|",
       stdString (IFaceTypeToString (fn.paramType 0)), "|",
       stdString (IFaceTypeToString (fn.paramType 1)), "|",
       stdString namePrefix, stdString nameOverride, "\n"])
  else
    stdString (String.join
      [stdString (IFaceTypeToString fn.returnType), " ",
       stdString namePrefix, stdString nameOverride, "(",
       (if fn.paramType 0 = iface_length ∧ fn.paramType 1 = iface_string then "string"
        else
          (if fn.paramType 0 ≠ iface_void then stdString (IFaceTypeToString (fn.paramType 0))
           else "") ++
          (if fn.paramType 1 ≠ iface_void then
             ", " ++ stdString (IFaceTypeToString (fn.paramType 1))
           else "")),
       ")\n"])

/-! ## Pane text calls (lines 709-801) -/

/-- What `PyArg_ParseTuple` left behind: on success the variables hold the
parsed values; on failure an exception is raised and the variables hold what
was stored before the failure, their initial values otherwise. -/
inductive Parsed (α : Type)
  | ok (vars : α)
  | failed (e : PyErr) (vars : α)

/-- Modelled from the spec: `struct Sci_CharacterRange` of Scintilla.h, a header
that is not part of the sources here, with the fields the source uses. -/
structure Sci_CharacterRange where
  cpMin : Int
  cpMax : Int
  deriving DecidableEq, Repr

/-- Modelled from the spec: `struct Sci_TextToFind` of Scintilla.h, a header that
is not part of the sources here, with the fields the source uses (lines
779-790); `lpstrText` is a `const char*`. -/
structure Sci_TextToFind where
  chrg : Sci_CharacterRange
  lpstrText : Option String
  chrgText : Sci_CharacterRange
  deriving DecidableEq, Repr

/-- Modelled from the spec: the message ids `SCI_GETLENGTH` and `SCI_FINDTEXT` of
Scintilla.h, a header that is not part of the sources here. -/
structure ScintillaMsg where
  SCI_GETLENGTH : Int
  SCI_FINDTEXT : Int

/-- One call into the host made by a pane text function: `Send` with two
numbers, `Send` with a pointer to a `Sci_TextToFind` as second word, `Range`,
`Remove`, `Insert`. -/
inductive HostCall
  | Send (pane : Pane) (msg : Int) (word0 word1 : Int)
  | SendFindText (pane : Pane) (msg : Int) (flags : Int) (ft : Sci_TextToFind)
  | Range (pane : Pane) (startPos endPos : Int)
  | Remove (pane : Pane) (startPos endPos : Int)
  | Insert (pane : Pane) (pos : Int) (text : String)
  deriving DecidableEq, Repr

/-- The host side of the pane text calls, external to the bridge.  `Send` answers
a result word; `SendFindText` also answers the range the host writes to
`chrgText`; `Range` answers a `char*` that may be NULL. -/
structure PaneHost (σ : Type) where
  Send : σ → Pane → Int → Int → Int → σ × Int
  SendFindText : σ → Pane → Int → Int → Sci_TextToFind → σ × Int × Sci_CharacterRange
  Range : σ → Pane → Int → Int → σ × Option String
  Remove : σ → Pane → Int → Int → σ
  Insert : σ → Pane → Int → String → σ

/-- The state the pane text functions pass along: the host's own state, the log
of the calls into the host, and the interpreter's error indicator. -/
structure PaneEnv (σ : Type) where
  host : σ
  calls : List HostCall
  pyErr : Option PyErr

/-- The variables of `pyfun_pane_TextRange` that `PyArg_ParseTuple` fills
(format "iii"); each starts as -1. -/
structure TextRangeVars where
  nPane : Int
  nPosStart : Int
  nPosEnd : Int

/-- The variables of `pyfun_pane_FindText` that `PyArg_ParseTuple` fills (format
"is|iii"); they start as -1, NULL, 0, 0 and -1. -/
structure FindTextVars where
  nPane : Int
  text : Option String
  nFlags : Int
  nPosStart : Int
  nPosEnd : Int

/-- Embeds `pyfun_pane_TextRange`, lines 744-762: the object returned (`none`
for NULL) and the state afterwards. -/
def pyfun_pane_TextRange {σ : Type} (H : PaneHost σ) (st : PaneEnv σ)
    (parsed : Parsed TextRangeVars) : Option PyObject × PaneEnv σ :=
  match parsed with
  | Parsed.failed e _ => (none, { st with pyErr := some e })
  | Parsed.ok v =>
    if v.nPosStart < 0 ∨ v.nPosEnd < 0 then (none, st)
    else
      match GetPaneFromInt v.nPane st.pyErr with
      | (none, err) => (none, { st with pyErr := err })
      | (some pane, err) =>
        let r := H.Range st.host pane v.nPosStart v.nPosEnd
        let st1 : PaneEnv σ :=
          { host := r.1, calls := st.calls ++ [HostCall.Range pane v.nPosStart v.nPosEnd],
            pyErr := err }
        match r.2 with
        | some value => (some (PyString (stdString value)), st1)
        | none => (some None, st1)

/-- Embeds `pyfun_pane_FindText`, lines 764-801: the object returned (`none` for
NULL) and the state afterwards.  The condition of line 769 is
`!PyArg_ParseTuple(...) && GetPaneFromInt(nPane, &pane)`. -/
def pyfun_pane_FindText {σ : Type} (H : PaneHost σ) (M : ScintillaMsg) (st : PaneEnv σ)
    (parsed : Parsed FindTextVars) : Option PyObject × PaneEnv σ :=
  match parsed with
  | Parsed.ok _ => (none, st)
  | Parsed.failed e v =>
    match GetPaneFromInt v.nPane (some e) with
    | (none, err) => (none, { st with pyErr := err })
    | (some pane, err) =>
      let st1 : PaneEnv σ := { st with pyErr := err }
      let len := H.Send st1.host pane M.SCI_GETLENGTH 0 0
      let st2 : PaneEnv σ :=
        if v.nPosEnd = -1 then
          { st1 with host := len.1, calls := st1.calls ++ [HostCall.Send pane M.SCI_GETLENGTH 0 0] }
        else st1
      let nPosEnd : Int := if v.nPosEnd = -1 then castInt len.2 else v.nPosEnd
      if ¬ (v.nPosStart < 0 ∨ nPosEnd < 0) then
        let ft : Sci_TextToFind := ⟨⟨v.nPosStart, nPosEnd⟩, v.text, ⟨0, 0⟩⟩
        let r := H.SendFindText st2.host pane M.SCI_FINDTEXT v.nFlags ft
        let st3 : PaneEnv σ :=
          { st2 with host := r.1,
                     calls := st2.calls ++ [HostCall.SendFindText pane M.SCI_FINDTEXT v.nFlags ft] }
        let result : Int := castInt r.2.1
        if result ≥ 0 then
          (some (PyTuple [PyInt (castInt r.2.2.cpMin), PyInt (castInt r.2.2.cpMax)]), st3)
        else (some None, st3)
      else (none, st2)

/-- The variables of `pyfun_pane_Remove` that `PyArg_ParseTuple` fills (format
"iii"); each starts as -1. -/
structure RemoveVars where
  nPane : Int
  nPosStart : Int
  nPosEnd : Int

/-- The variables of `pyfun_pane_Insert` that `PyArg_ParseTuple` fills (format
"iis"); the numbers start as -1.  `text` is the string at the pointer stored by
the `s` item: it is read only after a parse that succeeded, which stores a
pointer that is not null. -/
structure InsertVars where
  nPane : Int
  nPos : Int
  text : String

/-- Embeds `pyfun_pane_Insert`, lines 709-725: the object returned (`none` for
NULL) and the state afterwards.  The condition of lines 714-716 is
`PyArg_ParseTuple(...) && nPos >= 0 && GetPaneFromInt(nPane, &pane)`. -/
def pyfun_pane_Insert {σ : Type} (H : PaneHost σ) (st : PaneEnv σ)
    (parsed : Parsed InsertVars) : Option PyObject × PaneEnv σ :=
  match parsed with
  | Parsed.failed e _ => (none, { st with pyErr := some e })
  | Parsed.ok v =>
    if v.nPos ≥ 0 then
      match GetPaneFromInt v.nPane st.pyErr with
      | (none, err) => (none, { st with pyErr := err })
      | (some pane, err) =>
        (some None,
          { host := H.Insert st.host pane v.nPos (stdString v.text),
            calls := st.calls ++ [HostCall.Insert pane v.nPos (stdString v.text)],
            pyErr := err })
    else (none, st)

/-- Embeds `pyfun_pane_Remove`, lines 727-742: the object returned (`none` for
NULL) and the state afterwards.  The condition of lines 731-733 is
`!PyArg_ParseTuple(...) && !(nPosStart < 0 || nPosEnd < 0) && GetPaneFromInt(nPane, &pane)`. -/
def pyfun_pane_Remove {σ : Type} (H : PaneHost σ) (st : PaneEnv σ)
    (parsed : Parsed RemoveVars) : Option PyObject × PaneEnv σ :=
  match parsed with
  | Parsed.ok _ => (none, st)
  | Parsed.failed e v =>
    if ¬ (v.nPosStart < 0 ∨ v.nPosEnd < 0) then
      match GetPaneFromInt v.nPane (some e) with
      | (none, err) => (none, { st with pyErr := err })
      | (some pane, err) =>
        (some None,
          { host := H.Remove st.host pane v.nPosStart v.nPosEnd,
            calls := st.calls ++ [HostCall.Remove pane v.nPosStart v.nPosEnd],
            pyErr := err })
    else (none, { st with pyErr := some e })

/-- A host of text panes holding "hello world": the length is 11, a search finds
the range 6 to 11, and `Range` answers "hello". -/
def textHost : PaneHost Nat :=
  { Send := fun st _ _ _ _ => (st + 1, 11)
    SendFindText := fun st _ _ _ _ => (st + 1, 6, ⟨6, 11⟩)
    Range := fun st _ _ _ => (st + 1, some "hello")
    Remove := fun st _ _ _ => st + 1
    Insert := fun st _ _ _ => st + 1 }

/-- The message ids with the values Scintilla gives them. -/
def scintillaMsg : ScintillaMsg := ⟨2006, 2150⟩

/-- A fresh state for the pane text functions. -/
def freshPaneEnv : PaneEnv Nat := ⟨0, [], none⟩

/-! ## Sample host and sample tables, for concrete runs -/

/-- A host that counts the calls it received; `Send` answers 5 and writes
"hello" when handed a buffer. -/
def helloHost : ExtensionAPI Nat :=
  ⟨fun st c => match c.word1 with
    | Sptr.buffer _ => (st + 1, 5, ['h', 'e', 'l', 'l', 'o'])
    | _ => (st + 1, 5, [])⟩

/-- A host for which every `Send` answers 0 and writes nothing, as for a
property that does not exist. -/
def silentHost : ExtensionAPI Nat := ⟨fun st _ => (st + 1, 0, [])⟩

/-- A fresh state: no call logged, no error pending. -/
def freshEnv : Env Nat := ⟨0, [], [], none⟩

/-- A descriptor of the length+string shape, as `SCI_ADDTEXT` has it. -/
def addTextInfo : IFaceFunction :=
  ⟨some "AddText", 2001, iface_void, iface_length, iface_string⟩

/-- A descriptor of the string-result shape with a reserved length, as
`SCI_GETTEXT` has it. -/
def getTextInfo : IFaceFunction :=
  ⟨some "GetText", 2182, iface_int, iface_length, iface_stringresult⟩

/-- A descriptor of the string-result shape with a leading parameter, as
`SCI_GETLINE` has it. -/
def getLineInfo : IFaceFunction :=
  ⟨some "GetLine", 2153, iface_int, iface_int, iface_stringresult⟩

/-- A descriptor of the string-result shape with a string parameter, as
`SCI_GETPROPERTY` has it. -/
def getPropertyInfo : IFaceFunction :=
  ⟨some "GetProperty", 4008, iface_int, iface_string, iface_stringresult⟩

/-- A sample accessor producer for the sample table: the getter's message id,
the property's value type as return type, its parameter type as parameter 0. -/
def sampleGetterFunction (p : IFaceProperty) : IFaceFunction :=
  ⟨some "(property getter)", p.getter, p.valueType, p.paramType, iface_void⟩

/-- A sample accessor producer for the sample table: the setter's message id
and the property's value type as parameter 0. -/
def sampleSetterFunction (p : IFaceProperty) : IFaceFunction :=
  ⟨some "(property setter)", p.setter, iface_void, p.valueType, iface_void⟩

/-- A lookup by exact name: the index of the first entry with that name, or -1. -/
def findByName (names : List String) (name : String) : Int :=
  if name ∈ names then (names.indexOf name : Int) else -1

/-- The function array of the sample table; `FindText` is not scriptable. -/
def sampleFunctions : List IFaceFunction :=
  [addTextInfo,
   ⟨some "FindText", 2150, iface_position, iface_int, iface_findtext⟩,
   getLineInfo, getPropertyInfo, getTextInfo]

/-- The property array of the sample table, sorted by name: a colour property
with both accessors, a write-only one, a read-only one. -/
def sampleProperties : List IFaceProperty :=
  [⟨"AdditionalCaretFore", 2605, 2604, iface_colour, iface_void⟩,
   ⟨"CallTipForeHlt", 0, 2207, iface_colour, iface_void⟩,
   ⟨"Length", 2006, 0, iface_int, iface_void⟩]

/-- A sample interface table with exact-name lookups. -/
def sampleTable : IFaceTable :=
  { functions := sampleFunctions
    properties := sampleProperties
    FindFunction := findByName (sampleFunctions.map (fun f => f.name.getD ""))
    FindProperty := findByName (sampleProperties.map (fun q => q.name))
    GetterFunction := sampleGetterFunction
    SetterFunction := sampleSetterFunction }

/-- The sample table with a read-only property in front. -/
def readOnlyFirstTable : IFaceTable :=
  { sampleTable with
    properties := [⟨"AllLinesVisible", 2236, 0, iface_bool, iface_void⟩]
    FindProperty := findByName ["AllLinesVisible"] }

/-- The sample table with a write-only property in front. -/
def writeOnlyFirstTable : IFaceTable :=
  { sampleTable with
    properties := [⟨"CallTipForeHlt", 0, 2207, iface_colour, iface_void⟩]
    FindProperty := findByName ["CallTipForeHlt"] }

/-- A script module whose `OnEvent` is callable and returns `result` whatever
the event. -/
def scriptReturning (result : PyObject) : ScriptModule :=
  ⟨true, true, OnEventEntry.callable (fun _ => some result)⟩

/-- The extension before `Initialise`: nothing initialised, nothing enabled. -/
def PythonExtension.new : PythonExtension := ⟨false, []⟩

/-- The key modifier masks with the values Scintilla gives them. -/
def scintillaKeyMods : KeyMods := ⟨1, 2, 4⟩

/-- A run of `EnableNotification` calls, each an event name and a flag, in order. -/
def PythonExtension.applyAll (ext : PythonExtension) (ops : List (String × Bool)) :
    PythonExtension :=
  ops.foldl (fun x op => x.EnableNotification op.1 op.2) ext

/-- None of the calls `ops` disables the event `e`. -/
def noLaterDisable (e : String) (ops : List (String × Bool)) : Prop :=
  ∀ op ∈ ops, op.2 = false → stdString op.1 ≠ stdString e

/-- The word the parameter loop builds for a parameter of tag `t` from the
script argument `a` (lines 968-990), the conversion having succeeded: a pointer
to the string, 1 or 0 for a boolean, the integer, and 0 for a tag that takes no
argument. -/
def convertedWord (t : IFaceType) (a : Option PyObject) : Sptr :=
  if t = iface_string then CastSzToSptr (GetPythonString a false none).1
  else if t = iface_bool then Sptr.num (if (GetPythonBool a false none).1 then 1 else 0)
  else if IFaceTypeIsNumeric t || t = iface_keymod then Sptr.num (GetPythonInt a false none).1
  else Sptr.num 0

/-- Whether a parameter of tag `t` takes a script argument in the parameter
loop (lines 968-986): string, bool, numeric and keymod do. -/
def consumes (t : IFaceType) : Bool :=
  decide (t = iface_string) || decide (t = iface_bool) || IFaceTypeIsNumeric t ||
    decide (t = iface_keymod)

/-- Whether the script argument `a` converts for a parameter of tag `t`: a
string for string, a bool for bool, an int (PyInt_Check) for numeric and keymod;
a tag that takes no argument asks for nothing. -/
def convertible (t : IFaceType) (a : Option PyObject) : Bool :=
  if t = iface_string then
    match a with
    | some x => PyString_Check x
    | none => false
  else if t = iface_bool then
    match a with
    | some x => PyBool_Check x
    | none => false
  else if IFaceTypeIsNumeric t || t = iface_keymod then
    match a with
    | some x => PyInt_Check x
    | none => false
  else true

/-- Whether some argument conversion of the call signals an error: the string
of the length+string shortcut, or, in the parameter loop, the first parameter
or (when the loop runs twice and the first converted) the second, which takes
the next script argument that is not consumed yet. -/
def conversionFails (functionInfo : IFaceFunction) (arg1 arg2 : Option PyObject) : Bool :=
  if functionInfo.paramType 0 = iface_length ∧ functionInfo.paramType 1 = iface_string then
    !convertible iface_string arg1
  else if functionInfo.paramType 1 = iface_stringresult ∨
      functionInfo.returnType = iface_stringresult then
    if functionInfo.paramType 0 = iface_length then false
    else !convertible (functionInfo.paramType 0) arg1
  else
    !convertible (functionInfo.paramType 0) arg1 ||
      !convertible (functionInfo.paramType 1)
        (if consumes (functionInfo.paramType 0) then arg2 else arg1)

/-- A descriptor with one parameter, as `SCI_GOTOPOS` has it. -/
def gotoPosInfo : IFaceFunction :=
  ⟨some "GotoPos", 2025, iface_void, iface_position, iface_void⟩

/-- A host like `helloHost` that also writes the NUL that ends its text: 6 bytes
into a buffer handed to it. -/
def helloNulHost : ExtensionAPI Nat :=
  ⟨fun st c => match c.word1 with
    | Sptr.buffer _ => (st + 1, 5, ['h', 'e', 'l', 'l', 'o', '\x00'])
    | _ => (st + 1, 5, [])⟩

/-- A host whose `Send` answers a word that does not fit 32 bits, 2^31. -/
def wideHost : ExtensionAPI Nat := ⟨fun st _ => (st + 1, 2147483648, [])⟩

/-- A descriptor without parameters that returns an int, as `SCI_GETLENGTH` has it. -/
def getLengthInfo : IFaceFunction :=
  ⟨some "GetLength", 2006, iface_int, iface_void, iface_void⟩

/-! ## Theorems -/

/-- C1. CallPaneFunction, length+string shortcut: for a descriptor with
paramType[0] == length and paramType[1] == string, called (error indicator
clear, as its caller guarantees) with a string of L bytes as first argument and
anything at all as second argument, exactly one Send is issued, with
word0 == L and word1 == the string; nothing is traced, no error is raised, and
the outcome does not depend on the second argument. -/
theorem CallPaneFunction_length_string {σ : Type} (api : ExtensionAPI σ) (env : Env σ)
    (pane : Pane) (functionInfo : IFaceFunction) (name : String) (s : String)
    (arg2 : Option PyObject)
    (h0 : functionInfo.paramType 0 = iface_length)
    (h1 : functionInfo.paramType 1 = iface_string)
    (hclear : env.pyErr = none) :
    CallPaneFunction api env pane functionInfo name (some (PyString s)) arg2 =
      some (some (buildReturn functionInfo.returnType none
          (api.Send env.host ⟨pane, functionInfo.value, Sptr.num s.length, Sptr.sz s⟩).2.1),
        { host := (api.Send env.host ⟨pane, functionInfo.value, Sptr.num s.length, Sptr.sz s⟩).1,
          sends := env.sends ++ [⟨pane, functionInfo.value, Sptr.num s.length, Sptr.sz s⟩],
          traces := env.traces,
          pyErr := none }) := by
  simp [CallPaneFunction, marshalArgs, h0, h1, GetPythonString, argAt, hclear, paramLoop,
    tooManyLoop, sendAndReturn, hostSend, CastSzToSptr]

/-- C1, at a concrete call: AddText("abc", 7) sends (3, "abc") once. -/
theorem CallPaneFunction_length_string_witness :
    addTextInfo.paramType 0 = iface_length ∧ addTextInfo.paramType 1 = iface_string ∧
    CallPaneFunction helloHost freshEnv Pane.paneEditor addTextInfo "AddText"
        (some (PyString "abc")) (some (PyInt 7)) =
      some (some None,
        { host := 1, sends := [⟨Pane.paneEditor, 2001, Sptr.num 3, Sptr.sz "abc"⟩],
          traces := [], pyErr := none }) :=
  ⟨rfl, rfl,
    CallPaneFunction_length_string helloHost freshEnv Pane.paneEditor addTextInfo "AddText" "abc"
      (some (PyInt 7)) rfl rfl rfl⟩

/-- The conversion to `int` leaves a word that fits in 32 bits as it is. -/
theorem castInt_of_fits (r : Int) (hlo : -2147483648 ≤ r) (hhi : r < 2147483648) :
    castInt r = r := by
  unfold castInt
  omega

/-- The object `buildReturn` makes (lines 1031-1055), by return type: bool gives
the boolean `r != 0`, or the pair of the string and that boolean; a numeric
return type or keymod gives the integer `castInt r`, the result word narrowed to
a C `int`, or the pair of the string and that integer; any other return type
gives the string alone, or `None` without a string. -/
theorem buildReturn_shape (returnType : IFaceType) (r : Int) :
    (returnType = iface_bool →
      buildReturn returnType none r = PyBool (r != 0) ∧
      ∀ s, buildReturn returnType (some s) r = PyTuple [PyString s, PyBool (r != 0)]) ∧
    (returnType ∈ [iface_int, iface_length, iface_position, iface_colour, iface_keymod] →
      buildReturn returnType none r = PyInt (castInt r) ∧
      (∀ s, buildReturn returnType (some s) r = PyTuple [PyString s, PyInt (castInt r)]) ∧
      (-2147483648 ≤ r → r < 2147483648 → castInt r = r)) ∧
    (returnType ∉ [iface_bool, iface_int, iface_length, iface_position, iface_colour,
        iface_keymod] →
      buildReturn returnType none r = None ∧
      ∀ s, buildReturn returnType (some s) r = PyString s) := by
  refine ⟨?_, ?_, ?_⟩
  · intro h
    subst h
    exact ⟨rfl, fun _ => rfl⟩
  · intro h
    refine ⟨?_, ?_, castInt_of_fits r⟩
    · cases returnType <;> simp at h <;> rfl
    · intro s
      cases returnType <;> simp at h <;> rfl
  · intro h
    constructor
    · cases returnType <;> simp at h <;> rfl
    · intro s
      cases returnType <;> simp at h <;> rfl

/-! ### The state across the marshaling phase -/

/-- The conversions of an iteration leave the host and the log of sends alone. -/
theorem loopConvert_frame {σ : Type} (functionInfo : IFaceFunction) (name : String)
    (arg1 arg2 : Option PyObject) (i : Nat) (m : Marshal σ) :
    (loopConvert functionInfo name arg1 arg2 i m).env.host = m.env.host ∧
    (loopConvert functionInfo name arg1 arg2 i m).env.sends = m.env.sends := by
  unfold loopConvert
  simp only []
  split_ifs <;> simp [Marshal.setParam, trace]

/-- An iteration of the parameter loop that goes on leaves the host and the log
of sends alone and the error indicator clear. -/
theorem loopBody_ok_frame {σ : Type} (functionInfo : IFaceFunction) (name : String)
    (arg1 arg2 : Option PyObject) (i : Nat) (m m1 : Marshal σ)
    (h : loopBody functionInfo name arg1 arg2 i m = Except.ok m1) :
    m1.env.host = m.env.host ∧ m1.env.sends = m.env.sends ∧ m1.env.pyErr = none := by
  unfold loopBody at h
  simp only [] at h
  by_cases hc : (loopConvert functionInfo name arg1 arg2 i m).env.pyErr.isSome = true
  · rw [if_pos hc] at h
    cases h
  · rw [if_neg hc] at h
    injection h with h
    subst h
    have hf := loopConvert_frame functionInfo name arg1 arg2 i m
    refine ⟨hf.1, hf.2, ?_⟩
    simpa using hc

/-- An iteration that returns NULL has raised an error and has left the host
and the log of sends alone. -/
theorem loopBody_error_frame {σ : Type} (functionInfo : IFaceFunction) (name : String)
    (arg1 arg2 : Option PyObject) (i : Nat) (m : Marshal σ) (e : Env σ)
    (h : loopBody functionInfo name arg1 arg2 i m = Except.error e) :
    e.host = m.env.host ∧ e.sends = m.env.sends ∧ e.pyErr.isSome = true := by
  unfold loopBody at h
  simp only [] at h
  by_cases hc : (loopConvert functionInfo name arg1 arg2 i m).env.pyErr.isSome = true
  · rw [if_pos hc] at h
    injection h with h
    subst h
    have hf := loopConvert_frame functionInfo name arg1 arg2 i m
    exact ⟨hf.1, hf.2, hc⟩
  · rw [if_neg hc] at h
    cases h

/-- The parameter loop, when it completes, leaves the host and the log of sends
alone, and the error indicator as it was when no iteration ran, clear otherwise. -/
theorem paramLoop_ok_frame {σ : Type} (functionInfo : IFaceFunction) (name : String)
    (arg1 arg2 : Option PyObject) (todo : Nat) :
    ∀ (i : Nat) (m m1 : Marshal σ),
      paramLoop functionInfo name arg1 arg2 i todo m = Except.ok m1 →
      m1.env.host = m.env.host ∧ m1.env.sends = m.env.sends ∧
        (m.env.pyErr = none → m1.env.pyErr = none) := by
  induction todo with
  | zero =>
    intro i m m1 h
    simp [paramLoop] at h
    subst h
    exact ⟨rfl, rfl, id⟩
  | succ n ih =>
    intro i m m1 h
    rw [paramLoop] at h
    cases hb : loopBody functionInfo name arg1 arg2 i m with
    | error e => rw [hb] at h; cases h
    | ok m2 =>
      rw [hb] at h
      have h2 := loopBody_ok_frame functionInfo name arg1 arg2 i m m2 hb
      have h3 := ih (i + 1) m2 m1 h
      exact ⟨h3.1.trans h2.1, h3.2.1.trans h2.2.1, fun _ => h3.2.2 h2.2.2⟩

/-- The parameter loop, when it returns NULL, has raised an error and has left
the host and the log of sends alone. -/
theorem paramLoop_error_frame {σ : Type} (functionInfo : IFaceFunction) (name : String)
    (arg1 arg2 : Option PyObject) (todo : Nat) :
    ∀ (i : Nat) (m : Marshal σ) (e : Env σ),
      paramLoop functionInfo name arg1 arg2 i todo m = Except.error e →
      e.host = m.env.host ∧ e.sends = m.env.sends ∧ e.pyErr.isSome = true := by
  induction todo with
  | zero =>
    intro i m e h
    simp [paramLoop] at h
  | succ n ih =>
    intro i m e h
    rw [paramLoop] at h
    cases hb : loopBody functionInfo name arg1 arg2 i m with
    | error e2 =>
      rw [hb] at h
      injection h with h
      subst h
      exact loopBody_error_frame functionInfo name arg1 arg2 i m _ hb
    | ok m2 =>
      rw [hb] at h
      have h2 := loopBody_ok_frame functionInfo name arg1 arg2 i m m2 hb
      have h3 := ih (i + 1) m2 e h
      exact ⟨h3.1.trans h2.1, h3.2.1.trans h2.2.1, h3.2.2⟩

/-- The check for surplus arguments only traces. -/
theorem tooManyLoop_frame {σ : Type} (name : String) (arg1 arg2 : Option PyObject)
    (todo : Nat) :
    ∀ (i : Nat) (env : Env σ),
      (tooManyLoop name arg1 arg2 i todo env).host = env.host ∧
      (tooManyLoop name arg1 arg2 i todo env).sends = env.sends ∧
      (tooManyLoop name arg1 arg2 i todo env).pyErr = env.pyErr := by
  induction todo with
  | zero => intro i env; exact ⟨rfl, rfl, rfl⟩
  | succ n ih =>
    intro i env
    rw [tooManyLoop]
    split_ifs
    · have h := ih (i + 1) (trace env "Warning: too many parameter(s) passed to function " name)
      exact ⟨h.1, h.2.1, h.2.2⟩
    · exact ih (i + 1) env

/-- The marshaling phase, when it completes, leaves the host and the log of
sends alone, and a clear error indicator clear. -/
theorem marshalArgs_ok_frame {σ : Type} (env : Env σ) (functionInfo : IFaceFunction)
    (name : String) (arg1 arg2 : Option PyObject) (need : Bool) (m : Marshal σ)
    (h : marshalArgs env functionInfo name arg1 arg2 = Except.ok (need, m)) :
    m.env.host = env.host ∧ m.env.sends = env.sends ∧ (env.pyErr = none → m.env.pyErr = none) := by
  unfold marshalArgs at h
  simp only [] at h
  by_cases hshape : functionInfo.paramType 0 = iface_length ∧ functionInfo.paramType 1 = iface_string
  · rw [if_pos hshape] at h
    split_ifs at h with herr
    simp only [paramLoop] at h
    injection h with h
    injection h with _ h
    subst h
    simp only [Bool.not_eq_true, Option.not_isSome, Option.isNone_iff_eq_none] at herr
    have ht := tooManyLoop_frame (σ := σ) name arg1 arg2 (0 - 0) 0
      { host := env.host, sends := env.sends, traces := env.traces,
        pyErr := (GetPythonString (argAt arg1 arg2 0) false env.pyErr).2.2 }
    exact ⟨ht.1, ht.2.1, fun _ => ht.2.2.trans herr⟩
  · rw [if_neg hshape] at h
    generalize (if (decide (functionInfo.paramType 1 = iface_stringresult ∨
        functionInfo.returnType = iface_stringresult)) = true then
          (if functionInfo.paramType 0 = iface_length then 0 else 1) else 2) = c at h
    split at h
    · cases h
    · rename_i m2 hl
      injection h with h
      injection h with _ h
      subst h
      have hp := paramLoop_ok_frame functionInfo name arg1 arg2 _ 0 _ m2 hl
      have ht := tooManyLoop_frame (σ := σ) name arg1 arg2 (c - m2.arg) m2.arg m2.env
      exact ⟨ht.1.trans hp.1, ht.2.1.trans hp.2.1, fun hc => ht.2.2.trans (hp.2.2 hc)⟩

/-- The marshaling phase, when it returns NULL, has raised an error and has
left the host and the log of sends alone. -/
theorem marshalArgs_error_frame {σ : Type} (env : Env σ) (functionInfo : IFaceFunction)
    (name : String) (arg1 arg2 : Option PyObject) (e : Env σ)
    (h : marshalArgs env functionInfo name arg1 arg2 = Except.error e) :
    e.host = env.host ∧ e.sends = env.sends ∧ e.pyErr.isSome = true := by
  unfold marshalArgs at h
  simp only [] at h
  by_cases hshape : functionInfo.paramType 0 = iface_length ∧ functionInfo.paramType 1 = iface_string
  · rw [if_pos hshape] at h
    split_ifs at h with herr
    · injection h with h
      subst h
      exact ⟨rfl, rfl, herr⟩
    · simp [paramLoop] at h
  · rw [if_neg hshape] at h
    generalize (if (decide (functionInfo.paramType 1 = iface_stringresult ∨
        functionInfo.returnType = iface_stringresult)) = true then
          (if functionInfo.paramType 0 = iface_length then 0 else 1) else 2) = c at h
    split at h
    · rename_i e2 hl
      injection h with h
      subst h
      exact paramLoop_error_frame functionInfo name arg1 arg2 _ 0 _ e2 hl
    · cases h

/-- The pointer `GetPythonString` stores does not depend on the error indicator. -/
theorem GetPythonString_ptr (a : Option PyObject) (e : Option PyErr) :
    (GetPythonString a false e).1 = (GetPythonString a false none).1 := by
  unfold GetPythonString
  split <;> simp

/-- The value `GetPythonBool` returns does not depend on the error indicator. -/
theorem GetPythonBool_val (a : Option PyObject) (e : Option PyErr) :
    (GetPythonBool a false e).1 = (GetPythonBool a false none).1 := by
  unfold GetPythonBool
  split
  · simp
  · split_ifs <;> rfl

/-- The value `GetPythonInt` returns does not depend on the error indicator. -/
theorem GetPythonInt_val (a : Option PyObject) (e : Option PyErr) :
    (GetPythonInt a false e).1 = (GetPythonInt a false none).1 := by
  unfold GetPythonInt
  split
  · simp
  · split_ifs <;> rfl

/-- In a string-result-shaped call whose arguments converted, the flag
`needStringResult` is set, and word0 is 0 when parameter 0 is the reserved
length and the word converted from the first script argument otherwise. -/
theorem marshalArgs_stringResult {σ : Type} (env : Env σ) (functionInfo : IFaceFunction)
    (name : String) (arg1 arg2 : Option PyObject) (need : Bool) (m : Marshal σ)
    (hshape : ¬ (functionInfo.paramType 0 = iface_length ∧ functionInfo.paramType 1 = iface_string))
    (hneed : functionInfo.paramType 1 = iface_stringresult ∨
      functionInfo.returnType = iface_stringresult)
    (h : marshalArgs env functionInfo name arg1 arg2 = Except.ok (need, m)) :
    need = true ∧
    (functionInfo.paramType 0 = iface_length → m.word0 = Sptr.num 0) ∧
    (functionInfo.paramType 0 ≠ iface_length →
      m.word0 = convertedWord (functionInfo.paramType 0) arg1) := by
  unfold marshalArgs at h
  simp only [] at h
  rw [if_neg hshape] at h
  have hd : decide (functionInfo.paramType 1 = iface_stringresult ∨
      functionInfo.returnType = iface_stringresult) = true := by simpa using hneed
  rw [hd] at h
  simp only [if_true] at h
  by_cases h0 : functionInfo.paramType 0 = iface_length
  · rw [if_pos h0] at h
    simp only [paramLoop] at h
    injection h with h
    injection h with h1 h2
    subst h2
    exact ⟨h1.symm, fun _ => rfl, fun hn => absurd h0 hn⟩
  · rw [if_neg h0] at h
    simp only [paramLoop, loopBody] at h
    split_ifs at h with herr
    simp only [] at h
    injection h with h
    injection h with h1 h2
    subst h2
    refine ⟨h1.symm, fun hl => absurd hl h0, fun _ => ?_⟩
    simp only [loopConvert, convertedWord]
    have e1 := GetPythonString_ptr arg1 env.pyErr
    have e2 := GetPythonBool_val arg1 env.pyErr
    have e3 := GetPythonInt_val arg1 env.pyErr
    have ha : argAt arg1 arg2 0 = arg1 := rfl
    simp only [ha, e1, e2, e3]
    split_ifs <;> simp [Marshal.setParam]

/-! ### The probe-then-allocate phase -/

/-- Reading a terminated string stops at the first NUL at the latest: what
follows a block of zero bytes is never read. -/
theorem takeWhile_append_zeros (w : List Char) (j : Nat) :
    (w ++ List.replicate (j + 1) '\x00').takeWhile (fun c => c != '\x00') =
      w.takeWhile (fun c => c != '\x00') := by
  induction w with
  | nil => simp [List.replicate_succ, List.takeWhile]
  | cons a t ih =>
    rw [List.cons_append, List.takeWhile_cons, List.takeWhile_cons, ih]

/-- A host write that fits a zero-filled buffer of `k + 1` bytes and leaves a NUL
in it (the last byte of the buffer left alone, or a NUL among the bytes
written) is read back as the bytes written, up to their first NUL. -/
theorem read_after_write (w : List Char) (k : Nat) (hw : w.length ≤ k + 1)
    (hnul : w.length = k + 1 → '\x00' ∈ w) :
    (writeBuffer (List.replicate (k + 1) '\x00') w).bind PyString_FromBuffer =
      some (String.mk (w.takeWhile (fun c => c != '\x00'))) := by
  have hlen : w.length ≤ (List.replicate (k + 1) '\x00').length := by
    simp only [List.length_replicate]
    omega
  unfold writeBuffer
  rw [if_pos hlen]
  simp only [Option.some_bind, PyString_FromBuffer]
  by_cases hfull : w.length = k + 1
  · have hdrop : (List.replicate (k + 1) '\x00').drop w.length = [] := by
      rw [List.drop_replicate, hfull]
      simp
    rw [hdrop, List.append_nil]
    have hmem : w.contains '\x00' = true := by
      simpa using hnul hfull
    rw [if_pos hmem]
  · have hdrop : (List.replicate (k + 1) '\x00').drop w.length =
        List.replicate ((k - w.length) + 1) '\x00' := by
      rw [List.drop_replicate]
      congr 1
      omega
    rw [hdrop, takeWhile_append_zeros]
    have hmem : (w ++ List.replicate (k - w.length + 1) '\x00').contains '\x00' = true := by
      simp [List.replicate_succ]
    rw [if_pos hmem]

/-- A host write that does not fit the buffer of `k + 1` bytes, or that fills it
without a NUL, has no defined read-back: the two conditions of
`read_after_write` are the ones under which the C code stays inside the buffer. -/
theorem read_after_write_undefined (w : List Char) (k : Nat)
    (h : ¬ (w.length ≤ k + 1 ∧ (w.length = k + 1 → '\x00' ∈ w))) :
    (writeBuffer (List.replicate (k + 1) '\x00') w).bind PyString_FromBuffer = none := by
  unfold writeBuffer
  by_cases hw : w.length ≤ k + 1
  · have hfull : w.length = k + 1 ∧ '\x00' ∉ w := by
      by_contra hc
      apply h
      refine ⟨hw, fun hl => ?_⟩
      by_contra hn
      exact hc ⟨hl, hn⟩
    have hlen : w.length ≤ (List.replicate (k + 1) '\x00').length := by
      simp only [List.length_replicate]
      exact hw
    rw [if_pos hlen]
    have hdrop : (List.replicate (k + 1) '\x00').drop w.length = [] := by
      rw [List.drop_replicate, hfull.1]
      simp
    rw [hdrop, List.append_nil]
    simp only [Option.some_bind, PyString_FromBuffer]
    have hmem : ¬ (w.contains '\x00' = true) := by
      simpa using hfull.2
    rw [if_neg hmem]
  · have hlen : ¬ (w.length ≤ (List.replicate (k + 1) '\x00').length) := by
      simp only [List.length_replicate]
      exact hw
    rw [if_neg hlen]
    rfl

/-- Lines 1006-1056 for a string result.  The probe answers `p`, a length that
is not negative; `k` is `p`, or 1 when `p` is 0; the host then writes bytes `w`
that fit the buffer and leave a NUL in it.  Two sends are made, the probe with
word1 == 0 and the real one with a zero-filled buffer of `k + 1` bytes, and the
string read back is `w` up to its first NUL. -/
theorem sendAndReturn_stringResult {σ : Type} (api : ExtensionAPI σ) (pane : Pane)
    (functionInfo : IFaceFunction) (m : Marshal σ) (host1 host2 : σ) (p r : Int)
    (w1 w : List Char) (k : Nat)
    (hk : (k : Int) = if p = 0 then 1 else p)
    (hp : api.Send m.env.host ⟨pane, functionInfo.value, m.word0, Sptr.num 0⟩ = (host1, p, w1))
    (hr : api.Send host1 ⟨pane, functionInfo.value,
        if functionInfo.paramType 0 = iface_length then Sptr.num k else m.word0,
        Sptr.buffer (List.replicate (k + 1) '\x00')⟩ = (host2, r, w))
    (hw : w.length ≤ k + 1) (hnul : w.length = k + 1 → '\x00' ∈ w) :
    sendAndReturn api pane functionInfo true m =
      some (some (buildReturn functionInfo.returnType
          (some (String.mk (w.takeWhile (fun c => c != '\x00')))) r),
        { host := host2,
          sends := m.env.sends ++
            [⟨pane, functionInfo.value, m.word0, Sptr.num 0⟩,
             ⟨pane, functionInfo.value,
              if functionInfo.paramType 0 = iface_length then Sptr.num k else m.word0,
              Sptr.buffer (List.replicate (k + 1) '\x00')⟩],
          traces := m.env.traces,
          pyErr := m.env.pyErr }) := by
  have hpos : ¬ ((if p = 0 then (1 : Int) else p) + 1 ≤ 0) := by
    rw [← hk]
    omega
  have hnat : ((if p = 0 then (1 : Int) else p) + 1).toNat = k + 1 := by
    rw [← hk]
    omega
  have hrw := read_after_write w k hw hnul
  unfold sendAndReturn
  simp only [if_true, hostSend, hp]
  rw [if_neg hpos, hnat]
  simp only [SimpleStringBuffer.Allocate, SimpleStringBuffer.Get, if_true, ← hk, hr]
  cases hwb : writeBuffer (List.replicate (k + 1) '\x00') w with
  | none => rw [hwb] at hrw; simp at hrw
  | some written =>
    rw [hwb] at hrw
    simp only [Option.some_bind] at hrw
    simp [hrw]

/-- C3. CallPaneFunction, zero-length probe: in a string-result-shaped call
(paramType[1] == string-result or returnType == string-result, not the
length+string shape) whose arguments converted and whose probe Send answers 0,
the call does not fail: a zero-filled buffer of 2 bytes (so it holds at least 1)
is allocated and passed as word1 of the real Send, with word0 == 1 when
parameter 0 is the reserved length; the host writing nothing into the buffer,
the string returned to the script is the empty string (alone or as the first
element of the pair that the return type asks for), no NULL and no error. -/
theorem CallPaneFunction_probe_zero {σ : Type} (api : ExtensionAPI σ) (env : Env σ)
    (pane : Pane) (functionInfo : IFaceFunction) (name : String) (arg1 arg2 : Option PyObject)
    (need : Bool) (m : Marshal σ) (host1 host2 : σ) (r : Int) (w1 : List Char)
    (hshape : ¬ (functionInfo.paramType 0 = iface_length ∧ functionInfo.paramType 1 = iface_string))
    (hneed : functionInfo.paramType 1 = iface_stringresult ∨
      functionInfo.returnType = iface_stringresult)
    (hclear : env.pyErr = none)
    (hm : marshalArgs env functionInfo name arg1 arg2 = Except.ok (need, m))
    (hp : api.Send env.host ⟨pane, functionInfo.value, m.word0, Sptr.num 0⟩ = (host1, 0, w1))
    (hr : api.Send host1 ⟨pane, functionInfo.value,
        if functionInfo.paramType 0 = iface_length then Sptr.num 1 else m.word0,
        Sptr.buffer (List.replicate 2 '\x00')⟩ = (host2, r, [])) :
    CallPaneFunction api env pane functionInfo name arg1 arg2 =
      some (some (buildReturn functionInfo.returnType (some "") r),
        { host := host2,
          sends := env.sends ++
            [⟨pane, functionInfo.value, m.word0, Sptr.num 0⟩,
             ⟨pane, functionInfo.value,
              if functionInfo.paramType 0 = iface_length then Sptr.num 1 else m.word0,
              Sptr.buffer (List.replicate 2 '\x00')⟩],
          traces := m.env.traces,
          pyErr := none }) ∧
    1 ≤ (List.replicate 2 '\x00').length := by
  have hf := marshalArgs_ok_frame env functionInfo name arg1 arg2 need m hm
  have hs := marshalArgs_stringResult env functionInfo name arg1 arg2 need m hshape hneed hm
  have hsr := sendAndReturn_stringResult api pane functionInfo m host1 host2 0 r w1 [] 1
    (by simp) (by rw [hf.1]; exact hp) (by exact_mod_cast hr) (by simp) (by simp)
  refine ⟨?_, by simp⟩
  unfold CallPaneFunction
  rw [hm, hs.1]
  simp only []
  rw [hsr, hf.2.1, hf.2.2 hclear]
  rfl

/-- C3, at a concrete call: GetProperty("nonexistant") on a host that answers 0
and writes nothing returns ("", 0). -/
theorem CallPaneFunction_probe_zero_witness :
    CallPaneFunction silentHost freshEnv Pane.paneEditor getPropertyInfo "GetProperty"
        (some (PyString "nonexistant")) none =
      some (some (PyTuple [PyString "", PyInt 0]),
        { host := 2,
          sends :=
            [⟨Pane.paneEditor, 4008, Sptr.sz "nonexistant", Sptr.num 0⟩,
             ⟨Pane.paneEditor, 4008, Sptr.sz "nonexistant", Sptr.buffer ['\x00', '\x00']⟩],
          traces := [],
          pyErr := none }) :=
  (CallPaneFunction_probe_zero silentHost freshEnv Pane.paneEditor getPropertyInfo "GetProperty"
    (some (PyString "nonexistant")) none true ⟨Sptr.sz "nonexistant", Sptr.num 0, 1, freshEnv⟩
    1 2 0 [] (by decide) (Or.inl rfl) rfl rfl rfl rfl).1

/-- C4 as stated fails.  With a probe that answers 0, GetText gets a buffer of 2
bytes and word0 == 1, not a buffer of 0 + 1 bytes and word0 == 0; and GetLine
called without its argument issues no Send at all. -/
theorem CallPaneFunction_probe_then_allocate_counterexample :
    (silentHost.Send freshEnv.host ⟨Pane.paneEditor, 2182, Sptr.num 0, Sptr.num 0⟩).2.1 = 0 ∧
    (∃ out, CallPaneFunction silentHost freshEnv Pane.paneEditor getTextInfo "GetText" none none
        = some out ∧
      out.2.sends =
        [⟨Pane.paneEditor, 2182, Sptr.num 0, Sptr.num 0⟩,
         ⟨Pane.paneEditor, 2182, Sptr.num 1, Sptr.buffer ['\x00', '\x00']⟩] ∧
      out.2.sends ≠
        [⟨Pane.paneEditor, 2182, Sptr.num 0, Sptr.num 0⟩,
         ⟨Pane.paneEditor, 2182, Sptr.num 0, Sptr.buffer (List.replicate (0 + 1) '\x00')⟩]) ∧
    (∃ out, CallPaneFunction helloHost freshEnv Pane.paneEditor getLineInfo "GetLine" none none
        = some out ∧
      out.1 = none ∧ out.2.sends = []) := by
  refine ⟨rfl, ⟨_, rfl, rfl, by decide⟩, ⟨_, rfl, rfl, rfl⟩⟩

/-- C4, amended. CallPaneFunction, probe-then-allocate: in a string-result-shaped
call whose arguments converted, let the probe answer a length p that is not
negative, let k be p, or 1 when p is 0, and let the host write within the
buffer and leave a NUL in it (at most k + 1 bytes, with a NUL among them when
they are k + 1).  Then exactly two Sends are issued, with the same message id;
the first has word1 == 0; the buffer allocated is zero-filled and of k + 1
bytes; the second Send has word1 == the buffer and, when paramType[0] == length,
word0 == k (the probe had word0 == 0), otherwise word0 is in both Sends the word
converted from the first script argument.  The string returned is what the host
wrote, up to its first NUL. -/
theorem CallPaneFunction_probe_then_allocate {σ : Type} (api : ExtensionAPI σ) (env : Env σ)
    (pane : Pane) (functionInfo : IFaceFunction) (name : String) (arg1 arg2 : Option PyObject)
    (need : Bool) (m : Marshal σ) (host1 host2 : σ) (p r : Int) (w1 w : List Char) (k : Nat)
    (hshape : ¬ (functionInfo.paramType 0 = iface_length ∧ functionInfo.paramType 1 = iface_string))
    (hneed : functionInfo.paramType 1 = iface_stringresult ∨
      functionInfo.returnType = iface_stringresult)
    (hm : marshalArgs env functionInfo name arg1 arg2 = Except.ok (need, m))
    (hk : (k : Int) = if p = 0 then 1 else p)
    (hp : api.Send env.host ⟨pane, functionInfo.value, m.word0, Sptr.num 0⟩ = (host1, p, w1))
    (hr : api.Send host1 ⟨pane, functionInfo.value,
        if functionInfo.paramType 0 = iface_length then Sptr.num k else m.word0,
        Sptr.buffer (List.replicate (k + 1) '\x00')⟩ = (host2, r, w))
    (hw : w.length ≤ k + 1) (hnul : w.length = k + 1 → '\x00' ∈ w) :
    CallPaneFunction api env pane functionInfo name arg1 arg2 =
      some (some (buildReturn functionInfo.returnType
          (some (String.mk (w.takeWhile (fun c => c != '\x00')))) r),
        { host := host2,
          sends := env.sends ++
            [⟨pane, functionInfo.value, m.word0, Sptr.num 0⟩,
             ⟨pane, functionInfo.value,
              if functionInfo.paramType 0 = iface_length then Sptr.num k else m.word0,
              Sptr.buffer (List.replicate (k + 1) '\x00')⟩],
          traces := m.env.traces,
          pyErr := m.env.pyErr }) ∧
    (functionInfo.paramType 0 = iface_length → m.word0 = Sptr.num 0) ∧
    (functionInfo.paramType 0 ≠ iface_length →
      m.word0 = convertedWord (functionInfo.paramType 0) arg1) := by
  have hf := marshalArgs_ok_frame env functionInfo name arg1 arg2 need m hm
  have hs := marshalArgs_stringResult env functionInfo name arg1 arg2 need m hshape hneed hm
  have hsr := sendAndReturn_stringResult api pane functionInfo m host1 host2 p r w1 w k
    hk (by rw [hf.1]; exact hp) hr hw hnul
  refine ⟨?_, hs.2.1, hs.2.2⟩
  unfold CallPaneFunction
  rw [hm, hs.1]
  simp only []
  rw [hsr, hf.2.1]

/-- C4 amended, at concrete calls: GetLine(3) on a host that answers 5 and
writes "hello" probes with (3, 0), then sends (3, buffer of 6 zero bytes), and
returns ("hello", 5); the same on a host that writes the 5 bytes and their
terminating NUL, 6 bytes in all. -/
theorem CallPaneFunction_probe_then_allocate_witness :
    CallPaneFunction helloHost freshEnv Pane.paneEditor getLineInfo "GetLine"
        (some (PyInt 3)) none =
      some (some (PyTuple [PyString "hello", PyInt 5]),
        { host := 2,
          sends :=
            [⟨Pane.paneEditor, 2153, Sptr.num 3, Sptr.num 0⟩,
             ⟨Pane.paneEditor, 2153, Sptr.num 3,
              Sptr.buffer ['\x00', '\x00', '\x00', '\x00', '\x00', '\x00']⟩],
          traces := [],
          pyErr := none }) ∧
    CallPaneFunction helloNulHost freshEnv Pane.paneEditor getLineInfo "GetLine"
        (some (PyInt 3)) none =
      some (some (PyTuple [PyString "hello", PyInt 5]),
        { host := 2,
          sends :=
            [⟨Pane.paneEditor, 2153, Sptr.num 3, Sptr.num 0⟩,
             ⟨Pane.paneEditor, 2153, Sptr.num 3,
              Sptr.buffer ['\x00', '\x00', '\x00', '\x00', '\x00', '\x00']⟩],
          traces := [],
          pyErr := none }) :=
  ⟨(CallPaneFunction_probe_then_allocate helloHost freshEnv Pane.paneEditor getLineInfo "GetLine"
      (some (PyInt 3)) none true ⟨Sptr.num 3, Sptr.num 0, 1, freshEnv⟩
      1 2 5 5 [] ['h', 'e', 'l', 'l', 'o'] 5 (by decide) (Or.inl rfl) rfl rfl rfl rfl
      (by decide) (by decide)).1,
   (CallPaneFunction_probe_then_allocate helloNulHost freshEnv Pane.paneEditor getLineInfo
      "GetLine" (some (PyInt 3)) none true ⟨Sptr.num 3, Sptr.num 0, 1, freshEnv⟩
      1 2 5 5 [] ['h', 'e', 'l', 'l', 'o', '\x00'] 5 (by decide) (Or.inl rfl) rfl rfl rfl rfl
      (by decide) (by decide)).1⟩

/-! ### The resolver -/

/-- A string compares equal to itself. -/
theorem strcmpBytes_self (l : List Char) : strcmpBytes l l = 0 := by
  induction l with
  | nil => rfl
  | cons a t ih => simp [strcmpBytes, ih]

/-- The test `strEqual(s, s)` holds. -/
theorem strEqual_self (s : String) : strEqual s s = true := by
  simp [strEqual, strcmp, strcmpBytes_self]

/-- A name that starts with "Set" does not start with "Get". -/
theorem not_Get_of_Set (name : String) (h : strStartsWith name "Set" = true) :
    strStartsWith name "Get" = false := by
  have h3 : strlen "Set" = 3 := by decide
  have g3 : strlen "Get" = 3 := by decide
  have hs : cstr "Set" = ['S', 'e', 't'] := by decide
  have hg : cstr "Get" = ['G', 'e', 't'] := by decide
  unfold strStartsWith at h ⊢
  rw [h3, hs] at h
  rw [g3, hg]
  split_ifs at h with hlt
  rw [if_neg hlt]
  simp only [beq_iff_eq] at h
  rw [h]
  decide

/-- A name that starts with "Get" does not start with "Set". -/
theorem not_Set_of_Get (name : String) (h : strStartsWith name "Get" = true) :
    strStartsWith name "Set" = false := by
  have h3 : strlen "Set" = 3 := by decide
  have g3 : strlen "Get" = 3 := by decide
  have hs : cstr "Set" = ['S', 'e', 't'] := by decide
  have hg : cstr "Get" = ['G', 'e', 't'] := by decide
  unfold strStartsWith at h ⊢
  rw [g3, hg] at h
  rw [h3, hs]
  split_ifs at h with hlt
  rw [if_neg hlt]
  simp only [beq_iff_eq] at h
  rw [h]
  decide

/-- The defect of line 894, in general: when the property lookup answers index
0, the property found there is never looked at, and the resolver returns the
empty descriptor without raising anything. -/
theorem SearchForFunction_property_at_zero (T : IFaceTable) (name nameFound : String)
    (err : Option PyErr) (hF : T.FindFunction name < 0)
    (hP : T.FindProperty (strOffset name 3) = 0) :
    SearchForFunction T name nameFound err = some ⟨IFaceFunction.empty, nameFound, err⟩ := by
  have h3 : strlen "Set" = 3 := by decide
  have g3 : strlen "Get" = 3 := by decide
  unfold SearchForFunction
  simp only [ge_iff_le, not_le.mpr hF, if_false, h3, g3, ite_self, hP, gt_iff_lt, lt_irrefl]

/-- The getter path where the code reaches it: a name "Get"+P with no direct
function, P found at an index above 0 under its own name, scriptable and with a
getter, resolves to the property's `GetterFunction()` and raises nothing. -/
theorem SearchForFunction_getter (T : IFaceTable) (name nameFound : String)
    (err : Option PyErr) (q : IFaceProperty)
    (hF : T.FindFunction name < 0)
    (hget : strStartsWith name "Get" = true)
    (hidx : 0 < T.FindProperty (strOffset name 3))
    (hentry : tableAt T.properties (T.FindProperty (strOffset name 3)) = some q)
    (hname : q.name = strOffset name 3)
    (hscript : IFacePropertyIsScriptable q = true)
    (hgetter : q.getter ≠ 0) :
    SearchForFunction T name nameFound err =
      some ⟨T.GetterFunction q, String.mk (cstr q.name) ++ " (getter)", err⟩ := by
  have g3 : strlen "Get" = 3 := by decide
  rw [← hname] at hidx hentry
  unfold SearchForFunction
  have hns := not_Set_of_Get name hget
  simp only [ge_iff_le, not_le.mpr hF, if_false, hget, hns, Bool.true_or, if_true, g3, gt_iff_lt]
  simp only [← hname, hidx, hentry]
  simp [hgetter, hscript, strEqual_self]

/-- The missing-accessor paths where the code reaches them: P found at an index
above 0 under its own name and scriptable; "Set"+P without a setter raises the
read-only error, "Get"+P without a getter the write-only error, and the empty
descriptor is returned. -/
theorem SearchForFunction_missing_accessor (T : IFaceTable) (name nameFound : String)
    (err : Option PyErr) (q : IFaceProperty)
    (hF : T.FindFunction name < 0)
    (hidx : 0 < T.FindProperty (strOffset name 3))
    (hentry : tableAt T.properties (T.FindProperty (strOffset name 3)) = some q)
    (hname : q.name = strOffset name 3)
    (hscript : IFacePropertyIsScriptable q = true) :
    (strStartsWith name "Set" = true → q.setter = 0 →
      SearchForFunction T name nameFound err =
        some ⟨IFaceFunction.empty, nameFound,
          some ⟨PyExc.RuntimeError, "Cannot write to a read-only property"⟩⟩) ∧
    (strStartsWith name "Get" = true → q.getter = 0 →
      SearchForFunction T name nameFound err =
        some ⟨IFaceFunction.empty, nameFound,
          some ⟨PyExc.RuntimeError, "Cannot read from a write-only property"⟩⟩) := by
  have h3 : strlen "Set" = 3 := by decide
  have g3 : strlen "Get" = 3 := by decide
  rw [← hname] at hidx hentry
  constructor
  · intro hset hno
    have hng := not_Get_of_Set name hset
    unfold SearchForFunction
    simp only [ge_iff_le, not_le.mpr hF, if_false, hset, hng, Bool.or_true, if_true, h3,
      gt_iff_lt, Bool.false_eq_true]
    simp only [← hname, hidx, hentry]
    simp [hno, hscript, strEqual_self]
  · intro hget hno
    unfold SearchForFunction
    simp only [ge_iff_le, not_le.mpr hF, if_false, hget, Bool.true_or, if_true, g3,
      gt_iff_lt]
    simp only [← hname, hidx, hentry]
    simp [hno, hscript, strEqual_self]

/-- C5. SearchForFunction, property getter, fails on the first property of the
table.  In the sample table no function is named "GetAdditionalCaretFore", the
property lookup finds "AdditionalCaretFore" at index 0, the entry there has that
name, is scriptable and has a getter; yet the resolver, which tests
`index > 0`, returns the empty descriptor with no error instead of the
property's GetterFunction(), and pyfun_pane_SendScintilla reports
"Function or property not found" without any Send.  The same property is
resolved when it is not the first of the table. -/
theorem SearchForFunction_getter_first_property :
    sampleTable.FindFunction "GetAdditionalCaretFore" = -1 ∧
    sampleTable.FindProperty "AdditionalCaretFore" = 0 ∧
    tableAt sampleTable.properties 0 =
      some ⟨"AdditionalCaretFore", 2605, 2604, iface_colour, iface_void⟩ ∧
    IFacePropertyIsScriptable ⟨"AdditionalCaretFore", 2605, 2604, iface_colour, iface_void⟩ = true ∧
    SearchForFunction sampleTable "GetAdditionalCaretFore" "" none =
      some ⟨IFaceFunction.empty, "", none⟩ ∧
    SearchForFunction sampleTable "GetAdditionalCaretFore" "" none ≠
      some ⟨sampleTable.GetterFunction ⟨"AdditionalCaretFore", 2605, 2604, iface_colour, iface_void⟩,
        "AdditionalCaretFore (getter)", none⟩ ∧
    (∃ out, pyfun_pane_SendScintilla helloHost sampleTable freshEnv
        (Except.ok ⟨0, "GetAdditionalCaretFore", none, none⟩) = some out ∧
      out.1 = none ∧ out.2.sends = [] ∧
      out.2.pyErr = some ⟨PyExc.RuntimeError, "Function or property not found"⟩) ∧
    SearchForFunction sampleTable "GetLength" "" none =
      some ⟨sampleTable.GetterFunction ⟨"Length", 2006, 0, iface_int, iface_void⟩,
        "Length (getter)", none⟩ := by
  refine ⟨rfl, rfl, rfl, rfl, rfl, by decide, ⟨_, rfl, rfl, rfl, rfl⟩, rfl⟩

/-- C6. SearchForFunction, missing accessor, fails on the first property of the
table.  With the read-only property "AllLinesVisible" at index 0,
"SetAllLinesVisible" raises no read-only error: the resolver returns the empty
descriptor with no error set, and the caller reports "Function or property not
found"; with the write-only property "CallTipForeHlt" at index 0,
"GetCallTipForeHlt" raises no write-only error either.  At an index above 0 the
errors are raised ("SetLength", "GetCallTipForeHlt" in the sample table). -/
theorem SearchForFunction_missing_accessor_first_property :
    readOnlyFirstTable.FindFunction "SetAllLinesVisible" = -1 ∧
    readOnlyFirstTable.FindProperty "AllLinesVisible" = 0 ∧
    tableAt readOnlyFirstTable.properties 0 =
      some ⟨"AllLinesVisible", 2236, 0, iface_bool, iface_void⟩ ∧
    IFacePropertyIsScriptable ⟨"AllLinesVisible", 2236, 0, iface_bool, iface_void⟩ = true ∧
    SearchForFunction readOnlyFirstTable "SetAllLinesVisible" "" none =
      some ⟨IFaceFunction.empty, "", none⟩ ∧
    (∃ out, pyfun_pane_SendScintilla helloHost readOnlyFirstTable freshEnv
        (Except.ok ⟨0, "SetAllLinesVisible", some (PyBool true), none⟩) = some out ∧
      out.1 = none ∧
      out.2.pyErr = some ⟨PyExc.RuntimeError, "Function or property not found"⟩) ∧
    SearchForFunction writeOnlyFirstTable "GetCallTipForeHlt" "" none =
      some ⟨IFaceFunction.empty, "", none⟩ ∧
    SearchForFunction sampleTable "SetLength" "" none =
      some ⟨IFaceFunction.empty, "",
        some ⟨PyExc.RuntimeError, "Cannot write to a read-only property"⟩⟩ ∧
    SearchForFunction sampleTable "GetCallTipForeHlt" "" none =
      some ⟨IFaceFunction.empty, "",
        some ⟨PyExc.RuntimeError, "Cannot read from a write-only property"⟩⟩ := by
  refine ⟨rfl, rfl, rfl, rfl, rfl, ⟨_, rfl, rfl, rfl⟩, rfl, rfl, rfl⟩

/-- C7. SearchForFunction, direct function first.  (1) IFaceFunctionIsScriptable
holds exactly when paramType[0] precedes string-result and paramType[1] precedes
or equals string-result.  (2) For a name that the function table finds at an
index whose stored name equals the queried name, the resolver returns that
entry unchanged and raises nothing when the entry is scriptable, and otherwise
raises "function is not scriptable" and returns the empty descriptor; either way
the result is the same whatever the property table, its lookup and its accessor
producers are, also for names that start with "Get" or "Set".  (3) A name found
in neither table yields the empty descriptor with no error set, and
pyfun_pane_SendScintilla (arguments parsed, pane 0 or 1, no error pending)
then raises "Function or property not found", returns NULL and sends nothing. -/
theorem SearchForFunction_direct (T : IFaceTable) (name nameFound : String)
    (err : Option PyErr) :
    (∀ f : IFaceFunction, IFaceFunctionIsScriptable f = true ↔
      f.paramType0.ord < iface_stringresult.ord ∧ f.paramType1.ord ≤ iface_stringresult.ord) ∧
    (∀ f : IFaceFunction, 0 ≤ T.FindFunction name →
      tableAt T.functions (T.FindFunction name) = some f → f.name = some name →
      (IFaceFunctionIsScriptable f = true →
        SearchForFunction T name nameFound err = some ⟨f, stdString name, err⟩) ∧
      (IFaceFunctionIsScriptable f = false →
        SearchForFunction T name nameFound err =
          some ⟨IFaceFunction.empty, nameFound,
            some ⟨PyExc.RuntimeError, "function is not scriptable"⟩⟩) ∧
      (∀ (properties : List IFaceProperty) (FindProperty : String → Int)
          (G S : IFaceProperty → IFaceFunction),
        SearchForFunction
          { T with properties := properties, FindProperty := FindProperty,
                   GetterFunction := G, SetterFunction := S } name nameFound err =
        SearchForFunction T name nameFound err)) ∧
    (T.FindFunction name < 0 →
      (strStartsWith name "Get" = true ∨ strStartsWith name "Set" = true →
        T.FindProperty (strOffset name 3) < 0) →
      SearchForFunction T name nameFound err = some ⟨IFaceFunction.empty, nameFound, err⟩ ∧
      (∀ {σ : Type} (api : ExtensionAPI σ) (env : Env σ) (nPane : Int)
          (arg1 arg2 : Option PyObject),
        env.pyErr = none → nPane = 0 ∨ nPane = 1 →
        pyfun_pane_SendScintilla api T env (Except.ok ⟨nPane, name, arg1, arg2⟩) =
          some (none,
            { env with pyErr := some ⟨PyExc.RuntimeError, "Function or property not found"⟩ }))) := by
  refine ⟨?_, ?_, ?_⟩
  · intro f
    unfold IFaceFunctionIsScriptable IFaceTypeIsScriptable IFaceFunction.paramType
    cases f.paramType0 <;> cases f.paramType1 <;> decide
  · intro f hfind hentry hname
    refine ⟨?_, ?_, ?_⟩
    · intro hs
      unfold SearchForFunction
      simp only [ge_iff_le, hfind, if_true, hentry, hs, hname, strEqual_self, Bool.not_true,
        Bool.false_eq_true, if_false]
      rfl
    · intro hs
      unfold SearchForFunction
      simp only [ge_iff_le, hfind, if_true, hentry, hs, Bool.not_false]
    · intro properties FindProperty G S
      unfold SearchForFunction
      simp only [ge_iff_le, hfind, if_true, hentry]
  · intro hF hP
    have h3 : strlen "Set" = 3 := by decide
    have g3 : strlen "Get" = 3 := by decide
    have hres : SearchForFunction T name nameFound err =
        some ⟨IFaceFunction.empty, nameFound, err⟩ := by
      unfold SearchForFunction
      simp only [ge_iff_le, not_le.mpr hF, if_false, h3, g3, ite_self]
      by_cases hgs : (strStartsWith name "Get" || strStartsWith name "Set") = true
      · rw [if_pos hgs]
        have hlt := hP (by simpa using hgs)
        simp only [gt_iff_lt, not_lt.mpr (le_of_lt hlt), if_false]
      · rw [if_neg hgs]
    refine ⟨hres, ?_⟩
    intro σ api env nPane arg1 arg2 hclear hpane
    have hres2 : SearchForFunction T name "" none = some ⟨IFaceFunction.empty, "", none⟩ := by
      unfold SearchForFunction
      simp only [ge_iff_le, not_le.mpr hF, if_false, h3, g3, ite_self]
      by_cases hgs : (strStartsWith name "Get" || strStartsWith name "Set") = true
      · rw [if_pos hgs]
        have hlt := hP (by simpa using hgs)
        simp only [gt_iff_lt, not_lt.mpr (le_of_lt hlt), if_false]
      · rw [if_neg hgs]
    rcases hpane with h | h <;> subst h <;>
      simp [pyfun_pane_SendScintilla, GetPaneFromInt, hclear, hres2, pyErrSet,
        IFaceFunction.empty]

/-- C7, at concrete names of the sample table: "GetLine" is a scriptable
function and is returned as stored, "FindText" is not scriptable, and
"NoSuchThing" is reported as not found. -/
theorem SearchForFunction_direct_witness :
    SearchForFunction sampleTable "GetLine" "" none = some ⟨getLineInfo, "GetLine", none⟩ ∧
    SearchForFunction sampleTable "FindText" "" none =
      some ⟨IFaceFunction.empty, "", some ⟨PyExc.RuntimeError, "function is not scriptable"⟩⟩ ∧
    pyfun_pane_SendScintilla helloHost sampleTable freshEnv
        (Except.ok ⟨1, "NoSuchThing", none, none⟩) =
      some (none,
        { freshEnv with pyErr := some ⟨PyExc.RuntimeError, "Function or property not found"⟩ }) :=
  ⟨((SearchForFunction_direct sampleTable "GetLine" "" none).2.1 getLineInfo
      (by decide) rfl rfl).1 rfl,
   ((SearchForFunction_direct sampleTable "FindText" "" none).2.1
      ⟨some "FindText", 2150, iface_position, iface_int, iface_findtext⟩
      (by decide) rfl rfl).2.1 rfl,
   ((SearchForFunction_direct sampleTable "NoSuchThing" "" none).2.2 (by decide)
      (fun h => by revert h; decide)).2 helloHost freshEnv 1 none none rfl (Or.inr rfl)⟩

/-! ### The event bridge -/

/-- The comparison `strcmp` answers 0 exactly for equal byte sequences. -/
theorem strcmpBytes_eq_zero_iff (a : List Char) : ∀ b : List Char, strcmpBytes a b = 0 ↔ a = b := by
  induction a with
  | nil =>
    intro b
    cases b <;> simp [strcmpBytes]
  | cons x t ih =>
    intro b
    cases b with
    | nil => simp [strcmpBytes]
    | cons y u =>
      simp only [strcmpBytes, List.cons.injEq]
      split_ifs with h1 h2
      · constructor
        · intro h; exact absurd h (by decide)
        · rintro ⟨hxy, _⟩; subst hxy; exact absurd h1 (lt_irrefl _)
      · constructor
        · intro h; exact absurd h (by decide)
        · rintro ⟨hxy, _⟩; subst hxy; exact absurd h2 (lt_irrefl _)
      · have hxy : x = y := by
          have hn : x.toNat = y.toNat := by omega
          rw [← Char.ofNat_toNat x, ← Char.ofNat_toNat y, hn]
        rw [ih u]
        simp [hxy]

/-- The sentinel test as the code makes it: with the module imported and
`OnEvent` callable and returning `result`, the bridge reports handled exactly
when `result` is a string whose bytes before its first NUL are
"StopEventPropagation". -/
theorem RunCallbackArgs_handled_iff (log : EventLog) (eventName : String)
    (pArgs : Option PyObject) (f : List PyObject → Option PyObject) (result : PyObject)
    (hf : f [buildS eventName, pArgs.getD None] = some result) :
    (RunCallbackArgs ⟨true, true, OnEventEntry.callable f⟩ log eventName pArgs).1 = true ↔
      ∃ s, result = PyString s ∧ cstr s = cstr "StopEventPropagation" := by
  unfold RunCallbackArgs
  simp only [Bool.not_true, Bool.false_eq_true, if_false, hf]
  cases result with
  | PyString s =>
    simp only [strcmp, strcmpBytes_eq_zero_iff]
    constructor
    · intro h
      refine ⟨s, rfl, ?_⟩
      by_contra hne
      rw [if_neg (fun h2 => hne h2.symm)] at h
      cases h
    · rintro ⟨s2, hs, hc⟩
      injection hs with hs
      subst hs
      rw [if_pos hc.symm]
  | None => simp
  | PyInt n => simp
  | PyBool b => simp
  | PyTuple items => simp
  | PyOther id => simp

/-- C8. RunCallbackArgs, sentinel, fails for a string with an embedded NUL.
With the module imported and OnEvent callable and returning without raising,
the exact string "StopEventPropagation" reports handled, and
"stopeventpropagation", "StopEventPropagationX", a non-string and None report
not handled; but the Python string "StopEventPropagation\x00X", whose bytes are
not exactly the sentinel, reports handled as well: `strcmp` on
`PyString_AsString` stops at the first NUL byte. -/
theorem RunCallbackArgs_sentinel_embedded_nul :
    (RunCallbackArgs (scriptReturning (PyString "StopEventPropagation")) EventLog.start
      "OnChar" (some (PyTuple [PyInt 120]))).1 = true ∧
    (RunCallbackArgs (scriptReturning (PyString "stopeventpropagation")) EventLog.start
      "OnChar" (some (PyTuple [PyInt 120]))).1 = false ∧
    (RunCallbackArgs (scriptReturning (PyString "StopEventPropagationX")) EventLog.start
      "OnChar" (some (PyTuple [PyInt 120]))).1 = false ∧
    (RunCallbackArgs (scriptReturning (PyInt 1)) EventLog.start
      "OnChar" (some (PyTuple [PyInt 120]))).1 = false ∧
    (RunCallbackArgs (scriptReturning None) EventLog.start
      "OnChar" (some (PyTuple [PyInt 120]))).1 = false ∧
    "StopEventPropagation\x00X" ≠ "StopEventPropagation" ∧
    (RunCallbackArgs (scriptReturning (PyString "StopEventPropagation\x00X")) EventLog.start
      "OnChar" (some (PyTuple [PyInt 120]))).1 = true := by
  refine ⟨by decide, by decide, by decide, by decide, by decide, by decide, by decide⟩

/-- C9 as stated fails for Initialise.  On an extension that is not initialised
and has no notification enabled, `Initialise` (delayed loading off) still runs
the callback for "OnStart", and the script's OnEvent is called. -/
theorem Initialise_dispatch_counterexample :
    PythonExtension.new.FInitialized = false ∧
    PythonExtension.new.NeedsNotification "OnStart" = false ∧
    (PythonExtension.new.Initialise (scriptReturning None) EventLog.start "").2.2.runs =
      [("OnStart", none)] ∧
    (PythonExtension.new.Initialise (scriptReturning None) EventLog.start "").2.2.calls =
      [[PyString "OnStart", None]] := by
  refine ⟨rfl, rfl, rfl, rfl⟩

/-- C9, amended. Event gating: if the interpreter is not initialised or the
event's name is not in the enabled-notification set, each of the entry points
OnOpen, OnSwitchFile, OnBeforeSave, OnSave, OnSavePointReached, OnSavePointLeft,
OnDoubleClick, OnMarginClick, OnClose, OnChar, OnKey, OnUserListSelection and
OnUserStrip returns false and leaves the log as it was: neither RunCallback nor
RunCallbackArgs nor the script is invoked.  Initialise returns false in every
case; its OnStart dispatch is not gated by the set: it is made exactly when
delayed loading is off. -/
theorem event_gating (ext : PythonExtension) (script : ScriptModule) (log : EventLog) :
    ((ext.FInitialized = false ∨ ext.NeedsNotification "OnOpen" = false) →
      ∀ filename, ext.OnOpen script log filename = (false, log)) ∧
    ((ext.FInitialized = false ∨ ext.NeedsNotification "OnSwitchFile" = false) →
      ∀ filename, ext.OnSwitchFile script log filename = (false, log)) ∧
    ((ext.FInitialized = false ∨ ext.NeedsNotification "OnBeforeSave" = false) →
      ∀ filename, ext.OnBeforeSave script log filename = (false, log)) ∧
    ((ext.FInitialized = false ∨ ext.NeedsNotification "OnSave" = false) →
      ∀ filename, ext.OnSave script log filename = (false, log)) ∧
    ((ext.FInitialized = false ∨ ext.NeedsNotification "OnSavePointReached" = false) →
      ext.OnSavePointReached script log = (false, log)) ∧
    ((ext.FInitialized = false ∨ ext.NeedsNotification "OnSavePointLeft" = false) →
      ext.OnSavePointLeft script log = (false, log)) ∧
    ((ext.FInitialized = false ∨ ext.NeedsNotification "OnDoubleClick" = false) →
      ext.OnDoubleClick script log = (false, log)) ∧
    ((ext.FInitialized = false ∨ ext.NeedsNotification "OnMarginClick" = false) →
      ext.OnMarginClick script log = (false, log)) ∧
    ((ext.FInitialized = false ∨ ext.NeedsNotification "OnClose" = false) →
      ∀ filename, ext.OnClose script log filename = (false, log)) ∧
    ((ext.FInitialized = false ∨ ext.NeedsNotification "OnChar" = false) →
      ∀ ch, ext.OnChar script log ch = (false, log)) ∧
    ((ext.FInitialized = false ∨ ext.NeedsNotification "OnKey" = false) →
      ∀ K keyval modifiers, ext.OnKey script log K keyval modifiers = (false, log)) ∧
    ((ext.FInitialized = false ∨ ext.NeedsNotification "OnUserListSelection" = false) →
      ∀ type selection, ext.OnUserListSelection script log type selection = (false, log)) ∧
    ((ext.FInitialized = false ∨ ext.NeedsNotification "OnUserStrip" = false) →
      ∀ control eventType, ext.OnUserStrip script log control eventType = (false, log)) ∧
    (∀ delayLoadProp, (ext.Initialise script log delayLoadProp).1 = false) ∧
    (∀ delayLoadProp,
      ((decide (0 < delayLoadProp.length) && delayLoadProp.data.head? != some '0') = true →
        (ext.Initialise script log delayLoadProp).2.2 = log) ∧
      ((decide (0 < delayLoadProp.length) && delayLoadProp.data.head? != some '0') = false →
        (ext.Initialise script log delayLoadProp).2.2 =
          (RunCallbackArgs script log "OnStart" none).2)) := by
  refine ⟨?_, ?_, ?_, ?_, ?_, ?_, ?_, ?_, ?_, ?_, ?_, ?_, ?_, ?_, ?_⟩
  · rintro (h | h) <;> intros <;> simp [PythonExtension.OnOpen, h]
  · rintro (h | h) <;> intros <;> simp [PythonExtension.OnSwitchFile, h]
  · rintro (h | h) <;> intros <;> simp [PythonExtension.OnBeforeSave, h]
  · rintro (h | h) <;> intros <;> simp [PythonExtension.OnSave, h]
  · rintro (h | h) <;> simp [PythonExtension.OnSavePointReached, h]
  · rintro (h | h) <;> simp [PythonExtension.OnSavePointLeft, h]
  · rintro (h | h) <;> simp [PythonExtension.OnDoubleClick, h]
  · rintro (h | h) <;> simp [PythonExtension.OnMarginClick, h]
  · rintro (h | h) <;> intros <;> simp [PythonExtension.OnClose, h]
  · rintro (h | h) <;> intros <;> simp [PythonExtension.OnChar, h]
  · rintro (h | h) <;> intros <;> simp [PythonExtension.OnKey, h]
  · rintro (h | h) <;> intros <;> simp [PythonExtension.OnUserListSelection, h]
  · rintro (h | h) <;> intros <;> simp [PythonExtension.OnUserStrip, h]
  · intro d
    unfold PythonExtension.Initialise
    simp only []
    split_ifs <;> rfl
  · intro d
    unfold PythonExtension.Initialise
    constructor
    · intro h
      simp only [h, Bool.not_true, Bool.false_eq_true, if_false]
    · intro h
      simp only [h, Bool.not_false, if_true, RunCallback]

/-- C9 amended, at a concrete state: with the interpreter initialised and only
"OnKey" enabled, OnChar('x') returns false and logs nothing. -/
theorem event_gating_witness :
    (PythonExtension.mk true [("OnKey", true)]).OnChar
        (scriptReturning (PyString "StopEventPropagation")) EventLog.start 120 =
      (false, EventLog.start) :=
  (event_gating (PythonExtension.mk true [("OnKey", true)])
    (scriptReturning (PyString "StopEventPropagation")) EventLog.start).2.2.2.2.2.2.2.2.2.1
    (Or.inr (by decide)) 120

/-- After `_enabledNotifications[key] = true` the key is in the map. -/
theorem mapAssignTrue_has (key : String) (m : List (String × Bool)) :
    (mapAssignTrue key m).any (fun kv => kv.1 = key) = true := by
  induction m with
  | nil => simp [mapAssignTrue]
  | cons kv rest ih =>
    obtain ⟨k, v⟩ := kv
    unfold mapAssignTrue
    split_ifs with h
    · simp [h]
    · rw [List.any_cons, ih]
      simp

/-- Assigning to a key leaves every key that is in the map in the map. -/
theorem mapAssignTrue_keeps (key other : String) (m : List (String × Bool))
    (h : m.any (fun kv => kv.1 = other) = true) :
    (mapAssignTrue key m).any (fun kv => kv.1 = other) = true := by
  induction m with
  | nil => simp at h
  | cons kv rest ih =>
    obtain ⟨k, v⟩ := kv
    unfold mapAssignTrue
    rw [List.any_cons] at h
    split_ifs with hk
    · rw [List.any_cons]
      exact h
    · rw [List.any_cons]
      simp only [Bool.or_eq_true] at h ⊢
      rcases h with h | h
      · exact Or.inl h
      · exact Or.inr (ih h)

/-- A call of EnableNotification that does not disable the event `e` leaves it
enabled. -/
theorem NeedsNotification_kept (ext : PythonExtension) (e : String) (op : String × Bool)
    (h : ext.NeedsNotification e = true)
    (hop : op.2 = false → stdString op.1 ≠ stdString e) :
    (ext.EnableNotification op.1 op.2).NeedsNotification e = true := by
  unfold PythonExtension.EnableNotification PythonExtension.NeedsNotification at *
  cases hb : op.2 with
  | true =>
    simp only [if_true]
    exact mapAssignTrue_keeps _ _ _ h
  | false =>
    have hne := hop hb
    simp only [Bool.false_eq_true, if_false]
    simp only [List.any_eq_true, decide_eq_true_eq] at h ⊢
    obtain ⟨kv, hmem, hkey⟩ := h
    refine ⟨kv, ?_, hkey⟩
    simp only [List.mem_filter, decide_eq_true_eq, ne_eq, decide_not, Bool.not_eq_true',
      decide_eq_false_iff_not]
    refine ⟨hmem, ?_⟩
    rw [hkey]
    exact fun h2 => hne h2.symm

/-- An event enabled and not disabled afterwards is needed, and the run of
calls does not touch the initialisation flag. -/
theorem applyAll_enabled (e : String) (ops : List (String × Bool)) :
    ∀ ext : PythonExtension, ext.NeedsNotification e = true → noLaterDisable e ops →
      (ext.applyAll ops).NeedsNotification e = true ∧
      (ext.applyAll ops).FInitialized = ext.FInitialized := by
  induction ops with
  | nil => intro ext h _; exact ⟨h, rfl⟩
  | cons op rest ih =>
    intro ext h hno
    have hop : op.2 = false → stdString op.1 ≠ stdString e := hno op (List.mem_cons_self _ _)
    have hrest : noLaterDisable e rest := fun o ho => hno o (List.mem_cons_of_mem _ ho)
    have h1 := NeedsNotification_kept ext e op h hop
    have h2 := ih (ext.EnableNotification op.1 op.2) h1 hrest
    refine ⟨h2.1, h2.2.trans ?_⟩
    unfold PythonExtension.EnableNotification PythonExtension.FInitialized
    split_ifs <;> rfl

/-- The call `EnableNotification(e, true)` puts the event in the set. -/
theorem NeedsNotification_after_enable (ext : PythonExtension) (e : String) :
    (ext.EnableNotification e true).NeedsNotification e = true ∧
    (ext.EnableNotification e true).FInitialized = ext.FInitialized := by
  unfold PythonExtension.EnableNotification PythonExtension.NeedsNotification
  simp only [if_true]
  exact ⟨mapAssignTrue_has _ _, rfl⟩

/-- With the module imported and `OnEvent` callable, `RunCallbackArgs` calls the
script exactly once, with the event name and the argument object (None for NULL). -/
theorem RunCallbackArgs_calls (script : ScriptModule) (f : List PyObject → Option PyObject)
    (log : EventLog) (eventName : String) (pArgs : Option PyObject)
    (himp : script.imports = true) (hdict : script.hasDict = true)
    (hcall : script.OnEvent = OnEventEntry.callable f) :
    (RunCallbackArgs script log eventName pArgs).2.calls =
      log.calls ++ [[buildS eventName, pArgs.getD None]] := by
  unfold RunCallbackArgs
  simp only [himp, hdict, hcall, Bool.not_true, Bool.false_eq_true, if_false]
  cases f [buildS eventName, pArgs.getD None] with
  | none => rfl
  | some result =>
    cases result with
    | PyString s => simp only []; split_ifs <;> rfl
    | None => rfl
    | PyInt n => rfl
    | PyBool b => rfl
    | PyTuple items => rfl
    | PyOther id => rfl

/-- C10. Event argument marshaling: with the interpreter initialised, after
EnableNotification(e, true) and any later EnableNotification calls that do not
disable e, and with the dispatch module importable and OnEvent callable, each
event entry point calls the script's OnEvent exactly once, with the event name
and the argument tuple of the event's arity: OnChar(ch) passes the 1-tuple of
the integer code of ch; OnKey(keyval, modifiers) passes the 4-tuple (keyval,
shift, ctrl, alt), each flag 1 if its SCMOD mask meets modifiers and 0
otherwise; the file events pass the 1-tuple of the file name,
OnUserListSelection (type, selection), OnUserStrip (control, eventType); the
events without arguments pass None. -/
theorem event_marshaling (ext0 : PythonExtension) (ops : List (String × Bool))
    (script : ScriptModule) (f : List PyObject → Option PyObject) (log : EventLog)
    (hinit : ext0.FInitialized = true)
    (himp : script.imports = true) (hdict : script.hasDict = true)
    (hcall : script.OnEvent = OnEventEntry.callable f) :
    (noLaterDisable "OnChar" ops → ∀ ch,
      (((ext0.EnableNotification "OnChar" true).applyAll ops).OnChar script log ch).2.calls =
        log.calls ++ [[PyString "OnChar", PyTuple [PyInt ch]]]) ∧
    (noLaterDisable "OnKey" ops → ∀ K keyval modifiers,
      (((ext0.EnableNotification "OnKey" true).applyAll ops).OnKey script log K keyval
          modifiers).2.calls =
        log.calls ++ [[PyString "OnKey", PyTuple [PyInt keyval,
          PyInt (if Int.land K.SCMOD_SHIFT modifiers ≠ 0 then 1 else 0),
          PyInt (if Int.land K.SCMOD_CTRL modifiers ≠ 0 then 1 else 0),
          PyInt (if Int.land K.SCMOD_ALT modifiers ≠ 0 then 1 else 0)]]]) ∧
    (noLaterDisable "OnUserListSelection" ops → ∀ type selection,
      (((ext0.EnableNotification "OnUserListSelection" true).applyAll ops).OnUserListSelection
          script log type selection).2.calls =
        log.calls ++ [[PyString "OnUserListSelection",
          PyTuple [PyInt type, PyString (stdString selection)]]]) ∧
    (noLaterDisable "OnUserStrip" ops → ∀ control eventType,
      (((ext0.EnableNotification "OnUserStrip" true).applyAll ops).OnUserStrip script log
          control eventType).2.calls =
        log.calls ++ [[PyString "OnUserStrip", PyTuple [PyInt control, PyInt eventType]]]) ∧
    (noLaterDisable "OnOpen" ops → ∀ filename,
      (((ext0.EnableNotification "OnOpen" true).applyAll ops).OnOpen script log filename).2.calls =
        log.calls ++ [[PyString "OnOpen", PyTuple [PyString (stdString filename)]]]) ∧
    (noLaterDisable "OnSwitchFile" ops → ∀ filename,
      (((ext0.EnableNotification "OnSwitchFile" true).applyAll ops).OnSwitchFile script log
          filename).2.calls =
        log.calls ++ [[PyString "OnSwitchFile", PyTuple [PyString (stdString filename)]]]) ∧
    (noLaterDisable "OnBeforeSave" ops → ∀ filename,
      (((ext0.EnableNotification "OnBeforeSave" true).applyAll ops).OnBeforeSave script log
          filename).2.calls =
        log.calls ++ [[PyString "OnBeforeSave", PyTuple [PyString (stdString filename)]]]) ∧
    (noLaterDisable "OnSave" ops → ∀ filename,
      (((ext0.EnableNotification "OnSave" true).applyAll ops).OnSave script log filename).2.calls =
        log.calls ++ [[PyString "OnSave", PyTuple [PyString (stdString filename)]]]) ∧
    (noLaterDisable "OnClose" ops → ∀ filename,
      (((ext0.EnableNotification "OnClose" true).applyAll ops).OnClose script log filename).2.calls =
        log.calls ++ [[PyString "OnClose", PyTuple [PyString (stdString filename)]]]) ∧
    (noLaterDisable "OnSavePointReached" ops →
      (((ext0.EnableNotification "OnSavePointReached" true).applyAll ops).OnSavePointReached
          script log).2.calls =
        log.calls ++ [[PyString "OnSavePointReached", None]]) ∧
    (noLaterDisable "OnSavePointLeft" ops →
      (((ext0.EnableNotification "OnSavePointLeft" true).applyAll ops).OnSavePointLeft
          script log).2.calls =
        log.calls ++ [[PyString "OnSavePointLeft", None]]) ∧
    (noLaterDisable "OnDoubleClick" ops →
      (((ext0.EnableNotification "OnDoubleClick" true).applyAll ops).OnDoubleClick
          script log).2.calls =
        log.calls ++ [[PyString "OnDoubleClick", None]]) ∧
    (noLaterDisable "OnMarginClick" ops →
      (((ext0.EnableNotification "OnMarginClick" true).applyAll ops).OnMarginClick
          script log).2.calls =
        log.calls ++ [[PyString "OnMarginClick", None]]) := by
  have key : ∀ e : String, noLaterDisable e ops →
      ((ext0.EnableNotification e true).applyAll ops).FInitialized = true ∧
      ((ext0.EnableNotification e true).applyAll ops).NeedsNotification e = true := by
    intro e hno
    have h1 := NeedsNotification_after_enable ext0 e
    have h2 := applyAll_enabled e ops (ext0.EnableNotification e true) h1.1 hno
    exact ⟨h2.2.trans (h1.2.trans hinit), h2.1⟩
  have run := fun (e : String) (a : Option PyObject) =>
    RunCallbackArgs_calls script f log e a himp hdict hcall
  refine ⟨?_, ?_, ?_, ?_, ?_, ?_, ?_, ?_, ?_, ?_, ?_, ?_, ?_⟩
  · intro hno ch
    have hk := key "OnChar" hno
    simp only [PythonExtension.OnChar, hk.1, hk.2, Bool.and_self, if_true, run]
    rfl
  · intro hno K keyval modifiers
    have hk := key "OnKey" hno
    simp only [PythonExtension.OnKey, hk.1, hk.2, Bool.and_self, if_true, run]
    rfl
  · intro hno type selection
    have hk := key "OnUserListSelection" hno
    simp only [PythonExtension.OnUserListSelection, hk.1, hk.2, Bool.and_self, if_true, run]
    rfl
  · intro hno control eventType
    have hk := key "OnUserStrip" hno
    simp only [PythonExtension.OnUserStrip, hk.1, hk.2, Bool.and_self, if_true, run]
    rfl
  · intro hno filename
    have hk := key "OnOpen" hno
    simp only [PythonExtension.OnOpen, hk.1, hk.2, Bool.and_self, if_true, RunCallback, one_ne_zero, if_false, run]
    rfl
  · intro hno filename
    have hk := key "OnSwitchFile" hno
    simp only [PythonExtension.OnSwitchFile, hk.1, hk.2, Bool.and_self, if_true, RunCallback, one_ne_zero, if_false, run]
    rfl
  · intro hno filename
    have hk := key "OnBeforeSave" hno
    simp only [PythonExtension.OnBeforeSave, hk.1, hk.2, Bool.and_self, if_true, RunCallback, one_ne_zero, if_false, run]
    rfl
  · intro hno filename
    have hk := key "OnSave" hno
    simp only [PythonExtension.OnSave, hk.1, hk.2, Bool.and_self, if_true, RunCallback, one_ne_zero, if_false, run]
    rfl
  · intro hno filename
    have hk := key "OnClose" hno
    simp only [PythonExtension.OnClose, hk.1, hk.2, Bool.and_self, if_true, RunCallback, one_ne_zero, if_false, run]
    rfl
  · intro hno
    have hk := key "OnSavePointReached" hno
    simp only [PythonExtension.OnSavePointReached, hk.1, hk.2, Bool.and_self, if_true, RunCallback,
      run]
    rfl
  · intro hno
    have hk := key "OnSavePointLeft" hno
    simp only [PythonExtension.OnSavePointLeft, hk.1, hk.2, Bool.and_self, if_true, RunCallback,
      run]
    rfl
  · intro hno
    have hk := key "OnDoubleClick" hno
    simp only [PythonExtension.OnDoubleClick, hk.1, hk.2, Bool.and_self, if_true, RunCallback, one_ne_zero, if_false, run]
    rfl
  · intro hno
    have hk := key "OnMarginClick" hno
    simp only [PythonExtension.OnMarginClick, hk.1, hk.2, Bool.and_self, if_true, RunCallback, one_ne_zero, if_false, run]
    rfl

/-- C10, at concrete events: after EnableNotification("OnChar", true) and later
calls that enable "OnKey" and disable "OnSave", OnChar('x') calls OnEvent once
with ("OnChar", (120,)); and OnKey(65, shift+ctrl) passes (65, 1, 1, 0). -/
theorem event_marshaling_witness :
    ((((PythonExtension.mk true []).EnableNotification "OnChar" true).applyAll
        [("OnKey", true), ("OnSave", false)]).OnChar (scriptReturning None) EventLog.start
        ('x'.toNat : Int)).2.calls =
      [[PyString "OnChar", PyTuple [PyInt 120]]] ∧
    ((((PythonExtension.mk true []).EnableNotification "OnKey" true).applyAll
        [("OnKey", true), ("OnSave", false)]).OnKey (scriptReturning None) EventLog.start
        scintillaKeyMods 65 3).2.calls =
      [[PyString "OnKey", PyTuple [PyInt 65, PyInt 1, PyInt 1, PyInt 0]]] :=
  ⟨(event_marshaling (PythonExtension.mk true []) [("OnKey", true), ("OnSave", false)]
      (scriptReturning None) (fun _ => some None) EventLog.start rfl rfl rfl rfl).1
      (by intro op hop; revert op; decide) ('x'.toNat : Int),
   (event_marshaling (PythonExtension.mk true []) [("OnKey", true), ("OnSave", false)]
      (scriptReturning None) (fun _ => some None) EventLog.start rfl rfl rfl rfl).2.1
      (by intro op hop; revert op; decide) scintillaKeyMods 65 3⟩

/-! ### The named-command lookup -/

/-- Swapping the arguments of `strcmp` negates its answer. -/
theorem strcmpBytes_swap (a : List Char) : ∀ b : List Char, strcmpBytes b a = - strcmpBytes a b := by
  induction a with
  | nil => intro b; cases b <;> simp [strcmpBytes]
  | cons x t ih =>
    intro b
    cases b with
    | nil => simp [strcmpBytes]
    | cons y u =>
      simp only [strcmpBytes]
      by_cases h1 : x.toNat < y.toNat
      · rw [if_neg (by omega), if_pos h1, if_pos h1]
        rfl
      · by_cases h2 : y.toNat < x.toNat
        · rw [if_pos h2, if_neg h1, if_pos h2]
        · rw [if_neg h2, if_neg h1, if_neg h1, if_neg h2]
          exact ih u

/-- Being below under `strcmp` is transitive. -/
theorem strcmpBytes_lt_trans (a : List Char) :
    ∀ b c : List Char, strcmpBytes a b < 0 → strcmpBytes b c < 0 → strcmpBytes a c < 0 := by
  induction a with
  | nil =>
    intro b c h1 h2
    cases b with
    | nil => simp [strcmpBytes] at h1
    | cons y u =>
      cases c with
      | nil => simp [strcmpBytes] at h2
      | cons z v => simp [strcmpBytes]
  | cons x t ih =>
    intro b c h1 h2
    cases b with
    | nil => simp [strcmpBytes] at h1
    | cons y u =>
      cases c with
      | nil => simp [strcmpBytes] at h2
      | cons z v =>
        simp only [strcmpBytes] at h1 h2 ⊢
        have hxy : x.toNat ≤ y.toNat := by
          by_contra hn
          rw [if_neg (by omega), if_pos (by omega)] at h1
          omega
        have hyz : y.toNat ≤ z.toNat := by
          by_contra hn
          rw [if_neg (by omega), if_pos (by omega)] at h2
          omega
        by_cases hxz : x.toNat < z.toNat
        · rw [if_pos hxz]
          decide
        · have e1 : x.toNat = y.toNat := by omega
          have e2 : y.toNat = z.toNat := by omega
          rw [if_neg (by omega), if_neg (by omega)] at h1 h2
          rw [if_neg hxz, if_neg (by omega)]
          exact ih u v h1 h2

/-- An index within the table has an entry. -/
theorem tableAt_some {α : Type} (table : List α) (i : Int) (h0 : 0 ≤ i)
    (h1 : i < table.length) : ∃ e, tableAt table i = some e := by
  unfold tableAt
  rw [if_neg (by omega)]
  have : i.toNat < table.length := by omega
  exact ⟨table[i.toNat], by simp [List.getElem?_eq_getElem this]⟩

/-- An index that has an entry is not negative. -/
theorem tableAt_nonneg {α : Type} (table : List α) (i : Int) (e : α)
    (h : tableAt table i = some e) : 0 ≤ i := by
  unfold tableAt at h
  by_contra hn
  rw [if_pos (by omega)] at h
  cases h

/-- The loop invariant of the binary search over a table in ascending order:
entered with every entry before `lo` below the name and every entry after `hi`
above it, and with fuel for `hi - lo + 1` iterations, the loop returns either an
index whose entry compares equal to the name, or -1 when no entry does. -/
theorem findLoop_spec (table : List IFaceConstant) (name : String)
    (hs : ∀ (i j : Int) (e1 e2 : IFaceConstant), tableAt table i = some e1 →
      tableAt table j = some e2 → i < j → strcmp e1.name e2.name < 0) :
    ∀ (fuel : Nat) (lo hi : Int), 0 ≤ lo → lo ≤ hi → hi < table.length → hi - lo < fuel →
      (∀ (j : Int) (e : IFaceConstant), j < lo → tableAt table j = some e →
        strcmp name e.name > 0) →
      (∀ (j : Int) (e : IFaceConstant), hi < j → tableAt table j = some e →
        strcmp name e.name < 0) →
      (∃ i e, findLoop table name fuel lo hi = some i ∧ tableAt table i = some e ∧
          strcmp name e.name = 0) ∨
      (findLoop table name fuel lo hi = some (-1) ∧
        ∀ (j : Int) (e : IFaceConstant), tableAt table j = some e → strcmp name e.name ≠ 0) := by
  intro fuel
  induction fuel with
  | zero => intro lo hi _ _ _ hf; omega
  | succ n ih =>
    intro lo hi h0 hle hlen hfuel loInv hiInv
    have hidx : Int.tdiv (lo + hi) 2 = (lo + hi) / 2 :=
      Int.tdiv_eq_ediv (by omega) (by decide)
    obtain ⟨entry, hentry⟩ := tableAt_some table ((lo + hi) / 2) (by omega) (by omega)
    rw [findLoop]
    simp only [hidx, hentry]
    by_cases hgt : strcmp name entry.name > 0
    · rw [if_pos hgt]
      have loInv2 : ∀ (j : Int) (e : IFaceConstant), j < (lo + hi) / 2 + 1 →
          tableAt table j = some e → strcmp name e.name > 0 := by
        intro j e hj he
        by_cases hje : j = (lo + hi) / 2
        · subst hje
          rw [hentry] at he
          injection he with he
          subst he
          exact hgt
        · have h1 := hs j ((lo + hi) / 2) e entry he hentry (by omega)
          have h2 : strcmp entry.name name < 0 := by
            unfold strcmp at hgt ⊢
            rw [strcmpBytes_swap]
            omega
          have h3 := strcmpBytes_lt_trans _ _ _ h1 h2
          unfold strcmp
          rw [strcmpBytes_swap]
          omega
      by_cases hcont : (lo + hi) / 2 + 1 ≤ hi
      · rw [if_pos hcont]
        exact ih _ _ (by omega) hcont hlen (by omega) loInv2 hiInv
      · rw [if_neg hcont]
        right
        refine ⟨rfl, ?_⟩
        intro j e he
        by_cases hj : j < (lo + hi) / 2 + 1
        · have := loInv2 j e hj he
          omega
        · have := hiInv j e (by omega) he
          omega
    · rw [if_neg hgt]
      by_cases hlt : strcmp name entry.name < 0
      · rw [if_pos hlt]
        have hiInv2 : ∀ (j : Int) (e : IFaceConstant), (lo + hi) / 2 - 1 < j →
            tableAt table j = some e → strcmp name e.name < 0 := by
          intro j e hj he
          by_cases hje : j = (lo + hi) / 2
          · subst hje
            rw [hentry] at he
            injection he with he
            subst he
            exact hlt
          · have h1 := hs ((lo + hi) / 2) j entry e hentry he (by omega)
            exact strcmpBytes_lt_trans _ _ _ hlt h1
        by_cases hcont : lo ≤ (lo + hi) / 2 - 1
        · rw [if_pos hcont]
          exact ih _ _ h0 hcont (by omega) (by omega) loInv hiInv2
        · rw [if_neg hcont]
          right
          refine ⟨rfl, ?_⟩
          intro j e he
          by_cases hj : (lo + hi) / 2 - 1 < j
          · have := hiInv2 j e hj he
            omega
          · have := loInv j e (by omega) he
            omega
      · rw [if_neg hlt]
        left
        exact ⟨_, entry, rfl, hentry, by omega⟩

/-- A list whose adjacent names ascend is ascending pairwise. -/
theorem pairwise_of_strictlyAscending :
    ∀ l : List String, strictlyAscending l = true →
      l.Pairwise (fun a b => strcmp a b < 0) := by
  intro l
  induction l with
  | nil => intro _; exact List.Pairwise.nil
  | cons a t ih =>
    intro h
    cases t with
    | nil => exact List.pairwise_singleton _ _
    | cons b r =>
      simp only [strictlyAscending, Bool.and_eq_true, decide_eq_true_eq] at h
      have hp := ih h.2
      refine List.Pairwise.cons ?_ hp
      intro c hc
      rcases List.mem_cons.mp hc with hcb | hcr
      · subst hcb; exact h.1
      · exact strcmpBytes_lt_trans _ _ _ h.1 (List.rel_of_pairwise_cons hp hcr)

/-- In a table whose adjacent names ascend, an entry at a lower index is below
an entry at a higher index. -/
theorem sorted_tableAt (table : List IFaceConstant)
    (h : strictlyAscending (table.map (fun e => e.name)) = true) :
    ∀ (i j : Int) (e1 e2 : IFaceConstant), tableAt table i = some e1 →
      tableAt table j = some e2 → i < j → strcmp e1.name e2.name < 0 := by
  have hp := pairwise_of_strictlyAscending _ h
  rw [List.pairwise_map] at hp
  rw [List.pairwise_iff_getElem] at hp
  intro i j e1 e2 h1 h2 hij
  have hi := tableAt_nonneg table i e1 h1
  unfold tableAt at h1 h2
  rw [if_neg (by omega)] at h1 h2
  rw [List.get?_eq_getElem?, List.getElem?_eq_some] at h1 h2
  obtain ⟨hl1, he1⟩ := h1
  obtain ⟨hl2, he2⟩ := h2
  have := hp i.toNat j.toNat hl1 hl2 (by omega)
  rw [he1, he2] at this
  exact this

/-- Over a table whose adjacent names ascend the verification loop traces nothing. -/
theorem verifyLoop_sorted :
    ∀ table : List IFaceConstant, strictlyAscending (table.map (fun e => e.name)) = true →
      verifyLoop table = [] := by
  intro table
  induction table with
  | nil => intro _; rfl
  | cons a t ih =>
    intro h
    cases t with
    | nil => rfl
    | cons b r =>
      simp only [List.map_cons, strictlyAscending, Bool.and_eq_true, decide_eq_true_eq] at h
      have h2 := ih (by simpa [List.map_cons] using h.2)
      simp only [verifyLoop, h.1, not_true_eq_false, if_false, List.nil_append]
      exact h2

/-- The lookup over a table that is not empty and ascends: it returns, and the
result is the index of an entry equal to the name as a C string, or -1 when no
entry is. -/
theorem FindFriendlyNamedIDMConstant_sorted (table : List IFaceConstant) (name : String)
    (hne : 0 < table.length)
    (h : strictlyAscending (table.map (fun e => e.name)) = true) :
    ∃ r, FindFriendlyNamedIDMConstant table name = some r ∧
      ((∃ e, tableAt table r = some e ∧ cstr e.name = cstr name) ∨
       (r = -1 ∧ ∀ e ∈ table, cstr e.name ≠ cstr name)) := by
  have hs := sorted_tableAt table h
  have hspec := findLoop_spec table name hs (table.length + 1) 0 ((table.length : Int) - 1)
    (le_refl 0) (by omega) (by omega) (by push_cast; omega)
    (fun j e hj he => absurd (tableAt_nonneg table j e he) (by omega))
    (fun j e hj he => by
      exfalso
      have h0 := tableAt_nonneg table j e he
      unfold tableAt at he
      rw [if_neg (by omega), List.get?_eq_getElem?, List.getElem?_eq_some] at he
      obtain ⟨hl, _⟩ := he
      omega)
  rcases hspec with ⟨i, e, hf, he, hc⟩ | ⟨hf, hno⟩
  · refine ⟨i, hf, Or.inl ⟨e, he, ?_⟩⟩
    exact ((strcmpBytes_eq_zero_iff _ _).mp hc).symm
  · refine ⟨-1, hf, Or.inr ⟨rfl, ?_⟩⟩
    intro e he hce
    obtain ⟨k, hk, hget⟩ := List.getElem_of_mem he
    have hat : tableAt table (k : Int) = some e := by
      unfold tableAt
      rw [if_neg (by omega), List.get?_eq_getElem?, List.getElem?_eq_some]
      exact ⟨by simpa using hk, by simpa using hget⟩
    exact hno k e hat ((strcmpBytes_eq_zero_iff _ _).mpr hce.symm)

/-- Over a table that is not empty and ascends, the name stored at an index is
found at that index. -/
theorem FindFriendlyNamedIDMConstant_own_index (table : List IFaceConstant)
    (hne : 0 < table.length)
    (h : strictlyAscending (table.map (fun e => e.name)) = true)
    (i : Int) (e : IFaceConstant) (he : tableAt table i = some e) :
    FindFriendlyNamedIDMConstant table e.name = some i := by
  have hs := sorted_tableAt table h
  obtain ⟨r, hr, hcase⟩ := FindFriendlyNamedIDMConstant_sorted table e.name hne h
  rcases hcase with ⟨e2, he2, hc⟩ | ⟨_, hno⟩
  · have hri : r = i := by
      rcases lt_trichotomy r i with hlt | heq | hgt
      · have := hs r i e2 e he2 he hlt
        unfold strcmp at this
        rw [hc, strcmpBytes_self] at this
        omega
      · exact heq
      · have := hs i r e e2 he he2 hgt
        unfold strcmp at this
        rw [hc, strcmpBytes_self] at this
        omega
    rw [hr, hri]
  · exfalso
    have hi := tableAt_nonneg table i e he
    unfold tableAt at he
    rw [if_neg (by omega), List.get?_eq_getElem?, List.getElem?_eq_some] at he
    obtain ⟨hl, hget⟩ := he
    exact hno e (hget ▸ List.getElem_mem _) rfl

set_option maxRecDepth 100000 in
/-- The names of the shipped table ascend, pair by adjacent pair. -/
theorem shipped_sorted : strictlyAscending (friendlyNamedIDM.map (fun p => p.1)) = true := by
  decide

/-- The names of the table do not depend on the values of the `IDM_` macros. -/
theorem shipped_names (idm : String → Int) :
    (rgFriendlyNamedIDMConstants idm).map (fun e => e.name) =
      friendlyNamedIDM.map (fun p => p.1) := by
  simp [rgFriendlyNamedIDMConstants, List.map_map, Function.comp_def]

set_option maxRecDepth 100000 in
/-- C11. FindFriendlyNamedIDMConstant over the shipped table
rgFriendlyNamedIDMConstants, whatever the values of the IDM_ macros: for every
name the function returns, and the result is an index whose entry has that name
(equal as C strings) when some entry has it, and -1 when no entry has it; every
name stored in the table is found at its own index; "Save" is found at the
index of the entry ("Save", IDM_SAVE), and "NotACommand" yields -1. -/
theorem FindFriendlyNamedIDMConstant_shipped (idm : String → Int) (name : String) :
    (∃ r, FindFriendlyNamedIDMConstant (rgFriendlyNamedIDMConstants idm) name = some r ∧
      ((∃ e, tableAt (rgFriendlyNamedIDMConstants idm) r = some e ∧ cstr e.name = cstr name) ∨
       (r = -1 ∧ ∀ e ∈ rgFriendlyNamedIDMConstants idm, cstr e.name ≠ cstr name))) ∧
    (∀ (i : Int) (e : IFaceConstant), tableAt (rgFriendlyNamedIDMConstants idm) i = some e →
      FindFriendlyNamedIDMConstant (rgFriendlyNamedIDMConstants idm) e.name = some i) ∧
    tableAt (rgFriendlyNamedIDMConstants idm) 107 = some ⟨"Save", idm "IDM_SAVE"⟩ ∧
    FindFriendlyNamedIDMConstant (rgFriendlyNamedIDMConstants idm) "Save" = some 107 ∧
    FindFriendlyNamedIDMConstant (rgFriendlyNamedIDMConstants idm) "NotACommand" = some (-1) := by
  have hne : 0 < (rgFriendlyNamedIDMConstants idm).length := by
    simp [rgFriendlyNamedIDMConstants, friendlyNamedIDM]
  have hasc : strictlyAscending ((rgFriendlyNamedIDMConstants idm).map (fun e => e.name)) = true := by
    rw [shipped_names]
    exact shipped_sorted
  have hsave : tableAt (rgFriendlyNamedIDMConstants idm) 107 = some ⟨"Save", idm "IDM_SAVE"⟩ := rfl
  refine ⟨FindFriendlyNamedIDMConstant_sorted _ name hne hasc,
    fun i e he => FindFriendlyNamedIDMConstant_own_index _ hne hasc i e he, hsave,
    FindFriendlyNamedIDMConstant_own_index _ hne hasc 107 _ hsave, ?_⟩
  have hnone : ∀ n ∈ friendlyNamedIDM.map (fun p => p.1), cstr n ≠ cstr "NotACommand" := by
    decide
  obtain ⟨r, hr, hcase⟩ := FindFriendlyNamedIDMConstant_sorted _ "NotACommand" hne hasc
  rcases hcase with ⟨e, he, hc⟩ | ⟨hm, _⟩
  · exfalso
    have h0 := tableAt_nonneg _ r e he
    unfold tableAt at he
    rw [if_neg (by omega), List.get?_eq_getElem?, List.getElem?_eq_some] at he
    obtain ⟨hl, hget⟩ := he
    have hmem : e ∈ rgFriendlyNamedIDMConstants idm := hget ▸ List.getElem_mem _
    have hn : e.name ∈ (rgFriendlyNamedIDMConstants idm).map (fun e => e.name) :=
      List.mem_map_of_mem _ hmem
    rw [shipped_names] at hn
    exact hnone _ hn hc
  · rw [hr, hm]

/-- C12. Table order invariant: the shipped table rgFriendlyNamedIDMConstants,
of 154 entries, is strictly ascending by name under strcmp: every entry is
below the next one, so no name occurs twice, and the check of
VerifyConstantsTableOrder (in a debug build) traces no warning. -/
theorem rgFriendlyNamedIDMConstants_ascending (idm : String → Int) :
    (rgFriendlyNamedIDMConstants idm).length = 154 ∧
    (∀ (i : Int) (e1 e2 : IFaceConstant),
      tableAt (rgFriendlyNamedIDMConstants idm) i = some e1 →
      tableAt (rgFriendlyNamedIDMConstants idm) (i + 1) = some e2 →
      strcmp e1.name e2.name < 0) ∧
    ((rgFriendlyNamedIDMConstants idm).map (fun e => e.name)).Nodup ∧
    VerifyConstantsTableOrder (rgFriendlyNamedIDMConstants idm) = some [] := by
  have hasc : strictlyAscending ((rgFriendlyNamedIDMConstants idm).map (fun e => e.name)) = true := by
    rw [shipped_names]
    exact shipped_sorted
  have hlen : (rgFriendlyNamedIDMConstants idm).length = 154 := by
    simp [rgFriendlyNamedIDMConstants, friendlyNamedIDM]
  refine ⟨hlen, ?_, ?_, ?_⟩
  · intro i e1 e2 h1 h2
    exact sorted_tableAt _ hasc i (i + 1) e1 e2 h1 h2 (by omega)
  · have hp := pairwise_of_strictlyAscending _ hasc
    refine List.Pairwise.imp ?_ hp
    intro a b hab heq
    subst heq
    unfold strcmp at hab
    rw [strcmpBytes_self] at hab
    omega
  · unfold VerifyConstantsTableOrder
    rw [if_neg (by omega), verifyLoop_sorted _ hasc]

/-! ### Pane selector, properties, classifier and converters -/

/-- C13. GetPaneFromInt: selector 0 succeeds with the pane Editor, selector 1
with the pane Output, neither touching the error indicator; every other
selector (negative ones and 2 included) fails, raising "Invalid pane, must be 0
or 1." and leaving the output pane unwritten. -/
theorem GetPaneFromInt_selector (nPane : Int) (err : Option PyErr) :
    (nPane = 0 → GetPaneFromInt nPane err = (some Pane.paneEditor, err)) ∧
    (nPane = 1 → GetPaneFromInt nPane err = (some Pane.paneOutput, err)) ∧
    (nPane ≠ 0 → nPane ≠ 1 →
      GetPaneFromInt nPane err =
        (none, some ⟨PyExc.RuntimeError, "Invalid pane, must be 0 or 1."⟩)) ∧
    GetPaneFromInt (-1) err = (none, some ⟨PyExc.RuntimeError, "Invalid pane, must be 0 or 1."⟩) ∧
    GetPaneFromInt 2 err = (none, some ⟨PyExc.RuntimeError, "Invalid pane, must be 0 or 1."⟩) := by
  refine ⟨?_, ?_, ?_, rfl, rfl⟩
  · intro h
    subst h
    rfl
  · intro h
    subst h
    rfl
  · intro h0 h1
    unfold GetPaneFromInt
    rw [if_neg h0, if_neg h1]

/-- A string without a NUL byte is the C string read at its first byte. -/
theorem stdString_of_no_nul (v : String) (hv : '\x00' ∉ v.data) : stdString v = v := by
  have h : v.data.takeWhile (fun c => c != '\x00') = v.data := by
    rw [List.takeWhile_eq_self_iff]
    intro c hc
    have : c ≠ '\x00' := fun h => hv (h ▸ hc)
    simpa using this
  unfold stdString cstr
  rw [h]

/-- Reading a C string twice reads the same bytes. -/
theorem stdString_idem (v : String) : stdString (stdString v) = stdString v := by
  have h : (v.data.takeWhile (fun c => c != '\x00')).takeWhile (fun c => c != '\x00') =
      v.data.takeWhile (fun c => c != '\x00') := by
    rw [List.takeWhile_eq_self_iff]
    intro c hc
    exact @List.mem_takeWhile_imp _ (fun c => c != '\x00') _ c hc
  unfold stdString cstr
  simp only [h]

/-- C14. Property round trip through the bridge, for a host that is a
key-to-string store (`Property` after `SetProperty` on the same key answers the
value set): pyfun_SetProperty(k, v) returns None and pyfun_GetProperty(k) then
returns the string v, the C string that the argument parser handed over, which
is exactly v as v holds no NUL byte; and pyfun_GetProperty on a key for which
the host answers the empty string returns the empty string "", not None and
not an error. -/
theorem property_round_trip {σ : Type} (H : PropertyHost σ)
    (hstore : ∀ (st : σ) (key val : String), H.Property (H.SetProperty st key val) key = val)
    (st : σ) (err : Option PyErr) (k v : String) :
    (pyfun_SetProperty H st err (Except.ok (k, v))).1 = some None ∧
    (pyfun_SetProperty H st err (Except.ok (k, v))).2.2 = err ∧
    pyfun_GetProperty H (pyfun_SetProperty H st err (Except.ok (k, v))).2.1 err (Except.ok k) =
      (some (PyString (stdString v)), (pyfun_SetProperty H st err (Except.ok (k, v))).2.1, err) ∧
    ('\x00' ∉ v.data →
      (pyfun_GetProperty H (pyfun_SetProperty H st err (Except.ok (k, v))).2.1 err
        (Except.ok k)).1 = some (PyString v)) ∧
    (H.Property st (stdString k) = "" →
      pyfun_GetProperty H st err (Except.ok k) = (some (PyString ""), st, err)) := by
  have hget : pyfun_GetProperty H (pyfun_SetProperty H st err (Except.ok (k, v))).2.1 err
      (Except.ok k) =
      (some (PyString (stdString v)), (pyfun_SetProperty H st err (Except.ok (k, v))).2.1, err) := by
    simp only [pyfun_GetProperty, pyfun_SetProperty, hstore]
    by_cases hl : (stdString v).length > 0
    · rw [if_pos hl, stdString_idem]
    · rw [if_neg hl]
      have he : stdString v = "" := by
        have h0 : (stdString v).length = 0 := by omega
        exact String.ext (List.length_eq_zero.mp h0)
      rw [he]
      rfl
  refine ⟨rfl, rfl, hget, ?_, ?_⟩
  · intro hv
    rw [hget, stdString_of_no_nul v hv]
  · intro hmiss
    simp only [pyfun_GetProperty, hmiss]
    rfl

/-- C14, on the store host: after SetProperty("font.size", "12"), GetProperty
returns "12"; GetProperty("unset.key") on the empty store returns "". -/
theorem property_round_trip_witness :
    (pyfun_GetProperty storeHost
        (pyfun_SetProperty storeHost [] none (Except.ok ("font.size", "12"))).2.1 none
        (Except.ok "font.size")).1 = some (PyString "12") ∧
    pyfun_GetProperty storeHost [] none (Except.ok "unset.key") = (some (PyString ""), [], none) :=
  ⟨(property_round_trip storeHost (fun st key val => by simp [storeHost]) [] none
      "font.size" "12").2.2.2.1 (by decide),
   (property_round_trip storeHost (fun st key val => by simp [storeHost]) [] none
      "unset.key" "").2.2.2.2 rfl⟩

/-- C15 as stated fails for a parameter of type colour.  The property below has
a value type in (void, string-result] other than keymod, the parameter type
colour and a getter; the claim makes it scriptable, the predicate, which tests
`paramType < iface_colour`, does not. -/
theorem IFacePropertyIsScriptable_colour_counterexample :
    iface_void.ord < iface_int.ord ∧ iface_int.ord ≤ iface_stringresult.ord ∧
    iface_int ≠ iface_keymod ∧
    iface_colour ∈ [iface_void, iface_int, iface_length, iface_position, iface_colour] ∧
    (2000 : Int) ≠ 0 ∧
    IFacePropertyIsScriptable ⟨"Sample", 2000, 0, iface_int, iface_colour⟩ = false := by
  decide

/-- C15, amended. IFacePropertyIsScriptable: the predicate holds if and only if
the value type lies strictly after void and up to and including string-result
in the tag order and is not keymod (int, length, position, colour, bool,
string, string-result), AND the parameter type is one of the tags strictly
before colour (void, int, length, position) or is string or bool, AND the
property has a getter or a setter. -/
theorem IFacePropertyIsScriptable_iff (p : IFaceProperty) :
    IFacePropertyIsScriptable p = true ↔
      p.valueType ∈ [iface_int, iface_length, iface_position, iface_colour, iface_bool,
        iface_string, iface_stringresult] ∧
      p.paramType ∈ [iface_void, iface_int, iface_length, iface_position, iface_string,
        iface_bool] ∧
      (p.getter ≠ 0 ∨ p.setter ≠ 0) := by
  unfold IFacePropertyIsScriptable
  cases p.valueType <;> cases p.paramType <;>
    simp [IFaceType.ord]

/-- C16 as stated fails on the class of the exception: for an absent required
argument and for an argument that is not an int, GetPythonInt raises
RuntimeError ("expected int param."), not TypeError. -/
theorem GetPythonInt_exception_counterexample :
    GetPythonInt none false none = (0, some ⟨PyExc.RuntimeError, "expected int param."⟩) ∧
    GetPythonInt (some (PyString "7")) false none =
      (0, some ⟨PyExc.RuntimeError, "expected int param."⟩) ∧
    (GetPythonInt none false none).2.map (fun e => e.exc) ≠ some PyExc.TypeError ∧
    (GetPythonInt (some (PyString "7")) false none).2.map (fun e => e.exc) ≠
      some PyExc.TypeError := by
  refine ⟨rfl, rfl, by decide, by decide⟩

/-- C16, amended. GetPythonInt: if the argument is present and passes
PyInt_Check (an int, or an instance of a subclass of int such as bool), the
result is its integer value converted to C int (the value itself when it fits)
and the error indicator is left as it was; if the argument is absent and
optional is true the result is 0 and the error indicator is left as it was; if
the argument is absent with optional false, or present but not of integer type,
a RuntimeError with the message "expected int param." is signalled and the
value returned is the placeholder 0. -/
theorem GetPythonInt_result (arg : Option PyObject) (optional : Bool) (err : Option PyErr) :
    (∀ a, arg = some a → PyInt_Check a = true →
      GetPythonInt arg optional err = (castInt (PyInt_AsLong a), err)) ∧
    (∀ n : Int, arg = some (PyInt n) → -2147483648 ≤ n → n < 2147483648 →
      GetPythonInt arg optional err = (n, err)) ∧
    (arg = none → optional = true → GetPythonInt arg optional err = (0, err)) ∧
    (arg = none → optional = false →
      GetPythonInt arg optional err =
        (0, some ⟨PyExc.RuntimeError, "expected int param."⟩)) ∧
    (∀ a, arg = some a → PyInt_Check a = false →
      GetPythonInt arg optional err =
        (0, some ⟨PyExc.RuntimeError, "expected int param."⟩)) := by
  refine ⟨?_, ?_, ?_, ?_, ?_⟩
  · intro a ha hc
    subst ha
    simp [GetPythonInt, hc]
  · intro n ha hlo hhi
    subst ha
    simp [GetPythonInt, PyInt_Check, PyInt_AsLong, castInt_of_fits n hlo hhi]
  · intro ha ho
    subst ha
    subst ho
    rfl
  · intro ha ho
    subst ha
    subst ho
    rfl
  · intro a ha hc
    subst ha
    simp [GetPythonInt, hc]

/-! ### The generic parameter loop -/

/-- The conversions of one iteration for an argument that does not convert
raise an error. -/
theorem loopConvert_not_convertible {σ : Type} (functionInfo : IFaceFunction) (name : String)
    (arg1 arg2 : Option PyObject) (i : Nat) (m : Marshal σ)
    (hconv : convertible (functionInfo.paramType i) (argAt arg1 arg2 m.arg) = false) :
    (loopConvert functionInfo name arg1 arg2 i m).env.pyErr.isSome = true := by
  unfold loopConvert
  unfold convertible at hconv
  simp only []
  by_cases h1 : functionInfo.paramType i = iface_string
  · simp only [h1, if_true] at hconv ⊢
    cases ha : argAt arg1 arg2 m.arg with
    | none => simp [GetPythonString]
    | some x =>
      rw [ha] at hconv
      cases x <;> simp [PyString_Check] at hconv <;> simp [GetPythonString]
  · simp only [h1, if_false] at hconv ⊢
    by_cases h2 : functionInfo.paramType i = iface_bool
    · simp only [h2, if_true] at hconv ⊢
      cases ha : argAt arg1 arg2 m.arg with
      | none => simp [GetPythonBool]
      | some x =>
        rw [ha] at hconv
        simp only [] at hconv
        simp [GetPythonBool, hconv]
    · simp only [h2, if_false] at hconv ⊢
      by_cases h3 : (IFaceTypeIsNumeric (functionInfo.paramType i) ||
          decide (functionInfo.paramType i = iface_keymod)) = true
      · simp only [h3, if_true] at hconv ⊢
        cases ha : argAt arg1 arg2 m.arg with
        | none => simp [GetPythonInt]
        | some x =>
          rw [ha] at hconv
          simp only [] at hconv
          simp [GetPythonInt, hconv]
      · simp only [h3, if_false, Bool.false_eq_true] at hconv
        cases hconv

/-- The argument counter after the conversions of one iteration, whether they
succeeded or not. -/
theorem loopConvert_arg {σ : Type} (functionInfo : IFaceFunction) (name : String)
    (arg1 arg2 : Option PyObject) (i : Nat) (m : Marshal σ) :
    (loopConvert functionInfo name arg1 arg2 i m).arg =
      m.arg + (if consumes (functionInfo.paramType i) then 1 else 0) := by
  unfold loopConvert consumes
  simp only []
  by_cases h1 : functionInfo.paramType i = iface_string
  · simp [h1, Marshal.setParam]
  · by_cases h2 : functionInfo.paramType i = iface_bool
    · simp [h1, h2, Marshal.setParam]
    · by_cases h3 : (IFaceTypeIsNumeric (functionInfo.paramType i) ||
          decide (functionInfo.paramType i = iface_keymod)) = true
      · have h3b : (IFaceTypeIsNumeric (functionInfo.paramType i) = true ∨
            functionInfo.paramType i = iface_keymod) := by simpa using h3
        simp [h1, h2, h3b, Marshal.setParam]
      · have h3b : ¬ (IFaceTypeIsNumeric (functionInfo.paramType i) = true ∨
            functionInfo.paramType i = iface_keymod) := by simpa using h3
        simp [h1, h2, h3b]
        split_ifs <;> rfl

/-- When some argument conversion fails, the marshaling phase returns NULL. -/
theorem marshalArgs_conversionFails {σ : Type} (env : Env σ) (functionInfo : IFaceFunction)
    (name : String) (arg1 arg2 : Option PyObject)
    (hfail : conversionFails functionInfo arg1 arg2 = true) :
    ∃ e, marshalArgs env functionInfo name arg1 arg2 = Except.error e := by
  unfold conversionFails at hfail
  unfold marshalArgs
  simp only []
  by_cases hshape : functionInfo.paramType 0 = iface_length ∧ functionInfo.paramType 1 = iface_string
  · rw [if_pos hshape] at hfail ⊢
    have hs : (GetPythonString (argAt arg1 arg2 0) false env.pyErr).2.2.isSome = true := by
      have ha : argAt arg1 arg2 0 = arg1 := rfl
      rw [ha]
      unfold convertible at hfail
      simp only [if_true] at hfail
      cases arg1 with
      | none => simp [GetPythonString]
      | some x => cases x <;> simp [PyString_Check] at hfail <;> simp [GetPythonString]
    rw [if_pos hs]
    exact ⟨_, rfl⟩
  · rw [if_neg hshape] at hfail ⊢
    by_cases hneed : functionInfo.paramType 1 = iface_stringresult ∨
        functionInfo.returnType = iface_stringresult
    · have hd : decide (functionInfo.paramType 1 = iface_stringresult ∨
          functionInfo.returnType = iface_stringresult) = true := by simpa using hneed
      rw [if_pos hneed] at hfail
      rw [hd]
      simp only [if_true]
      by_cases h0 : functionInfo.paramType 0 = iface_length
      · rw [if_pos h0] at hfail
        cases hfail
      · rw [if_neg h0] at hfail ⊢
        have hnc : convertible (functionInfo.paramType 0) (argAt arg1 arg2 0) = false := by
          simpa using hfail
        have he := loopConvert_not_convertible (σ := σ) functionInfo name arg1 arg2 0
          ⟨Sptr.num 0, Sptr.num 0, 0, env⟩ hnc
        simp only [paramLoop, loopBody, he, if_true]
        exact ⟨_, rfl⟩
    · have hd : decide (functionInfo.paramType 1 = iface_stringresult ∨
          functionInfo.returnType = iface_stringresult) = false := by simpa using hneed
      rw [if_neg hneed] at hfail
      rw [hd]
      simp only [Bool.false_eq_true, if_false, paramLoop, loopBody]
      by_cases hi0 : (loopConvert functionInfo name arg1 arg2 0
          (⟨Sptr.num 0, Sptr.num 0, 0, env⟩ : Marshal σ)).env.pyErr.isSome = true
      · rw [if_pos hi0]
        exact ⟨_, rfl⟩
      · rw [if_neg hi0]
        simp only []
        have hc0 : convertible (functionInfo.paramType 0) arg1 = true := by
          by_contra hn
          have hnc : convertible (functionInfo.paramType 0) (argAt arg1 arg2 0) = false := by
            simpa using hn
          exact hi0 (loopConvert_not_convertible functionInfo name arg1 arg2 0 _ hnc)
        have hnc1 : convertible (functionInfo.paramType 1)
            (if consumes (functionInfo.paramType 0) then arg2 else arg1) = false := by
          simpa [hc0] using hfail
        have harg := loopConvert_arg (σ := σ) functionInfo name arg1 arg2 0
          ⟨Sptr.num 0, Sptr.num 0, 0, env⟩
        have hnc2 : convertible (functionInfo.paramType 1)
            (argAt arg1 arg2 (loopConvert functionInfo name arg1 arg2 0
              (⟨Sptr.num 0, Sptr.num 0, 0, env⟩ : Marshal σ)).arg) = false := by
          rw [harg]
          by_cases hc : consumes (functionInfo.paramType 0) = true
          · simpa [hc, argAt] using hnc1
          · simpa [hc, argAt] using hnc1
        have he := loopConvert_not_convertible functionInfo name arg1 arg2 1 _ hnc2
        rw [if_pos he]
        exact ⟨_, rfl⟩

/-- C18. CallPaneFunction, abort on conversion error: for every descriptor and
arguments, if an argument conversion fails (in the length+string shortcut or in
the parameter loop) because a required argument is absent or of the wrong type,
the call returns NULL with an error raised, and no host Send, neither the
probe nor the real one, is issued: the log of sends and the host state are as
they were. -/
theorem CallPaneFunction_conversion_error {σ : Type} (api : ExtensionAPI σ) (env : Env σ)
    (pane : Pane) (functionInfo : IFaceFunction) (name : String) (arg1 arg2 : Option PyObject)
    (hfail : conversionFails functionInfo arg1 arg2 = true) :
    ∃ e, CallPaneFunction api env pane functionInfo name arg1 arg2 = some (none, e) ∧
      e.sends = env.sends ∧ e.host = env.host ∧ e.pyErr.isSome = true := by
  obtain ⟨e, he⟩ := marshalArgs_conversionFails env functionInfo name arg1 arg2 hfail
  have hf := marshalArgs_error_frame env functionInfo name arg1 arg2 e he
  refine ⟨e, ?_, hf.2.1, hf.1, hf.2.2⟩
  unfold CallPaneFunction
  rw [he]

/-- C18, at concrete calls: AddText(7), GetLine("x") and GotoPos() return NULL
with "expected ... param." raised and send nothing. -/
theorem CallPaneFunction_conversion_error_witness :
    (∃ e, CallPaneFunction helloHost freshEnv Pane.paneEditor addTextInfo "AddText"
        (some (PyInt 7)) none = some (none, e) ∧
      e.sends = [] ∧ e.host = 0 ∧ e.pyErr.isSome = true) ∧
    CallPaneFunction helloHost freshEnv Pane.paneEditor getLineInfo "GetLine"
        (some (PyString "x")) none =
      some (none, { freshEnv with pyErr := some ⟨PyExc.RuntimeError, "expected int param."⟩ }) ∧
    CallPaneFunction helloHost freshEnv Pane.paneEditor gotoPosInfo "GotoPos" none none =
      some (none, { freshEnv with pyErr := some ⟨PyExc.RuntimeError, "expected int param."⟩ }) :=
  ⟨CallPaneFunction_conversion_error helloHost freshEnv Pane.paneEditor addTextInfo "AddText"
      (some (PyInt 7)) none rfl, rfl, rfl⟩

/-- C19. CallPaneFunction, extra-argument warning, is not traced for the shapes
that shorten the parameter loop.  AddText("abc", 7) (length+string shape, two
arguments), GetLine(3, 9) (string-result shape, a surplus second argument) and
GetText("x") (string-result shape with the reserved length, a surplus
argument) all proceed to the host Send and trace nothing, because the check of
lines 1000-1004 runs from `arg` to `loopParamCount`, which is 0 or 1 there.
The warning is traced where the loop runs twice: GotoPos(5, 6) traces it and
still sends; and GotoPos(5), which has no surplus argument, traces nothing. -/
theorem CallPaneFunction_too_many_not_traced :
    CallPaneFunction helloHost freshEnv Pane.paneEditor addTextInfo "AddText"
        (some (PyString "abc")) (some (PyInt 7)) =
      some (some None,
        { host := 1, sends := [⟨Pane.paneEditor, 2001, Sptr.num 3, Sptr.sz "abc"⟩],
          traces := [], pyErr := none }) ∧
    (∃ out, CallPaneFunction helloHost freshEnv Pane.paneEditor getLineInfo "GetLine"
        (some (PyInt 3)) (some (PyInt 9)) = some out ∧
      out.1 = some (PyTuple [PyString "hello", PyInt 5]) ∧ out.2.sends.length = 2 ∧
      out.2.traces = []) ∧
    (∃ out, CallPaneFunction helloHost freshEnv Pane.paneEditor getTextInfo "GetText"
        (some (PyString "x")) none = some out ∧
      out.1 = some (PyTuple [PyString "hello", PyInt 5]) ∧ out.2.sends.length = 2 ∧
      out.2.traces = []) ∧
    CallPaneFunction helloHost freshEnv Pane.paneEditor gotoPosInfo "GotoPos"
        (some (PyInt 5)) (some (PyInt 6)) =
      some (some None,
        { host := 1, sends := [⟨Pane.paneEditor, 2025, Sptr.num 5, Sptr.num 0⟩],
          traces := ["Warning: too many parameter(s) passed to function ", "GotoPos"],
          pyErr := none }) ∧
    CallPaneFunction helloHost freshEnv Pane.paneEditor gotoPosInfo "GotoPos"
        (some (PyInt 5)) none =
      some (some None,
        { host := 1, sends := [⟨Pane.paneEditor, 2025, Sptr.num 5, Sptr.num 0⟩],
          traces := [], pyErr := none }) := by
  refine ⟨rfl, ⟨_, rfl, rfl, rfl, rfl⟩, ⟨_, rfl, rfl, rfl, rfl⟩, rfl, rfl⟩

/-! ### The pane text calls -/

/-- C20. pyfun_pane_FindText has an inverted error check: for every call whose
argument tuple parses, the function returns NULL and makes no call into the
host (no SCI_FINDTEXT is sent; the state is as it was); whenever it does call
the host or returns an object, the parsing had failed; whereas
pyfun_pane_TextRange, on arguments that parse, with positions that are not
negative and a pane of 0 or 1, calls the host's Range once and returns an
object. -/
theorem pyfun_pane_FindText_inverted {σ : Type} (H : PaneHost σ) (M : ScintillaMsg)
    (st : PaneEnv σ) :
    (∀ v : FindTextVars, pyfun_pane_FindText H M st (Parsed.ok v) = (none, st)) ∧
    (∀ parsed : Parsed FindTextVars,
      ((pyfun_pane_FindText H M st parsed).1 ≠ none ∨
        (pyfun_pane_FindText H M st parsed).2.calls ≠ st.calls) →
      ∃ e v, parsed = Parsed.failed e v) ∧
    (∀ v : TextRangeVars, 0 ≤ v.nPosStart → 0 ≤ v.nPosEnd → (v.nPane = 0 ∨ v.nPane = 1) →
      (pyfun_pane_TextRange H st (Parsed.ok v)).1 ≠ none ∧
      (pyfun_pane_TextRange H st (Parsed.ok v)).2.calls =
        st.calls ++ [HostCall.Range (if v.nPane = 0 then Pane.paneEditor else Pane.paneOutput)
          v.nPosStart v.nPosEnd]) := by
  refine ⟨fun v => rfl, ?_, ?_⟩
  · intro parsed h
    cases parsed with
    | ok v => simp [pyfun_pane_FindText] at h
    | failed e v => exact ⟨e, v, rfl⟩
  · intro v hs he hp
    have hcond : ¬ (v.nPosStart < 0 ∨ v.nPosEnd < 0) := by omega
    rcases hp with hp | hp
    · simp only [pyfun_pane_TextRange, if_neg hcond, hp, GetPaneFromInt, if_true]
      cases hr : (H.Range st.host Pane.paneEditor v.nPosStart v.nPosEnd).2 <;> simp
    · simp only [pyfun_pane_TextRange, if_neg hcond, hp, GetPaneFromInt]
      cases hr : (H.Range st.host Pane.paneOutput v.nPosStart v.nPosEnd).2 <;> simp [hr]

/-- C20, at concrete calls: FindText(0, "world"), which parses, returns NULL and
calls nothing; FindText(0, 5), whose second argument fails to parse after the
pane was stored, enters the search branch and sends SCI_GETLENGTH and
SCI_FINDTEXT; TextRange(0, 0, 5) calls Range and returns "hello". -/
theorem pyfun_pane_FindText_inverted_witness :
    pyfun_pane_FindText textHost scintillaMsg freshPaneEnv
        (Parsed.ok ⟨0, some "world", 0, 0, -1⟩) = (none, freshPaneEnv) ∧
    (pyfun_pane_FindText textHost scintillaMsg freshPaneEnv
        (Parsed.failed ⟨PyExc.TypeError, "must be string, not int"⟩ ⟨0, none, 0, 0, -1⟩)).2.calls =
      [HostCall.Send Pane.paneEditor 2006 0 0,
       HostCall.SendFindText Pane.paneEditor 2150 0 ⟨⟨0, 11⟩, none, ⟨0, 0⟩⟩] ∧
    (pyfun_pane_TextRange textHost freshPaneEnv (Parsed.ok ⟨0, 0, 5⟩)).1 ≠ none ∧
    (pyfun_pane_TextRange textHost freshPaneEnv (Parsed.ok ⟨0, 0, 5⟩)).2.calls =
      [HostCall.Range Pane.paneEditor 0 5] :=
  ⟨(pyfun_pane_FindText_inverted textHost scintillaMsg freshPaneEnv).1 ⟨0, some "world", 0, 0, -1⟩,
   rfl,
   ((pyfun_pane_FindText_inverted textHost scintillaMsg freshPaneEnv).2.2 ⟨0, 0, 5⟩
      (by decide) (by decide) (Or.inl rfl)).1,
   ((pyfun_pane_FindText_inverted textHost scintillaMsg freshPaneEnv).2.2 ⟨0, 0, 5⟩
      (by decide) (by decide) (Or.inl rfl)).2⟩

/-! ### Remove and the diagnostic dump -/

/-- The inverted test of line 731, in general: a call of pyfun_pane_Remove whose
arguments parse returns NULL and leaves the state as it was; the host's Remove
is called only after a parse that failed. -/
theorem pyfun_pane_Remove_parsed {σ : Type} (H : PaneHost σ) (st : PaneEnv σ) :
    (∀ v : RemoveVars, pyfun_pane_Remove H st (Parsed.ok v) = (none, st)) ∧
    (∀ parsed : Parsed RemoveVars,
      ((pyfun_pane_Remove H st parsed).1 ≠ none ∨
        (pyfun_pane_Remove H st parsed).2.calls ≠ st.calls) →
      ∃ e v, parsed = Parsed.failed e v) := by
  refine ⟨fun v => rfl, ?_⟩
  intro parsed h
  cases parsed with
  | ok v => simp [pyfun_pane_Remove] at h
  | failed e v => exact ⟨e, v, rfl⟩

/-- The sibling that does it: pyfun_pane_Insert, on arguments that parse, with a
position that is not negative and a pane of 0 or 1, calls the host's Insert once
on that pane and returns None. -/
theorem pyfun_pane_Insert_parsed {σ : Type} (H : PaneHost σ) (st : PaneEnv σ)
    (v : InsertVars) (hpos : 0 ≤ v.nPos) (hpane : v.nPane = 0 ∨ v.nPane = 1) :
    pyfun_pane_Insert H st (Parsed.ok v) =
      (some None,
        { host := H.Insert st.host (if v.nPane = 0 then Pane.paneEditor else Pane.paneOutput)
            v.nPos (stdString v.text),
          calls := st.calls ++
            [HostCall.Insert (if v.nPane = 0 then Pane.paneEditor else Pane.paneOutput)
              v.nPos (stdString v.text)],
          pyErr := st.pyErr }) := by
  have hge : v.nPos ≥ 0 := hpos
  rcases hpane with h | h
  · simp only [pyfun_pane_Insert, if_pos hge, h, GetPaneFromInt, if_true]
  · simp [pyfun_pane_Insert, hge, h, GetPaneFromInt]

/-- C21. pyfun_pane_Remove does not honour its arguments.  Remove(0, 2, 5) and
Remove(1, 0, 3), three integers with a pane of 0 or 1 and positions that are
not negative, parse and then return NULL without any call of the host's Remove:
the test of line 731 is `!PyArg_ParseTuple(...)`.  The sibling
pyfun_pane_Insert(0, 2, "abc") calls the host's Insert on the pane Editor and
returns None; and Remove reaches the host only when the parse failed and the
variables happen to hold a pane and two positions. -/
theorem pyfun_pane_Remove_never_removes :
    pyfun_pane_Remove textHost freshPaneEnv (Parsed.ok ⟨0, 2, 5⟩) = (none, freshPaneEnv) ∧
    pyfun_pane_Remove textHost freshPaneEnv (Parsed.ok ⟨1, 0, 3⟩) = (none, freshPaneEnv) ∧
    (pyfun_pane_Remove textHost freshPaneEnv (Parsed.ok ⟨0, 2, 5⟩)).2.calls ≠
      [HostCall.Remove Pane.paneEditor 2 5] ∧
    pyfun_pane_Insert textHost freshPaneEnv (Parsed.ok ⟨0, 2, "abc"⟩) =
      (some None, ⟨1, [HostCall.Insert Pane.paneEditor 2 "abc"], none⟩) ∧
    (pyfun_pane_Remove textHost freshPaneEnv
        (Parsed.failed ⟨PyExc.TypeError, "an integer is required"⟩ ⟨0, 2, 5⟩)).2.calls =
      [HostCall.Remove Pane.paneEditor 2 5] := by
  refine ⟨rfl, rfl, by decide, rfl, rfl⟩

/-- The names of the type tags, apart from the pair find-text and format-range:
two tags with the same name are the same tag or are that pair, and no tag is
named "unknown". -/
theorem IFaceTypeToString_names (t u : IFaceType) :
    (IFaceTypeToString t = IFaceTypeToString u →
      t = u ∨ (t = iface_findtext ∧ u = iface_formatrange) ∨
        (t = iface_formatrange ∧ u = iface_findtext)) ∧
    IFaceTypeToString t ≠ "unknown" := by
  constructor
  · cases t <;> cases u <;> simp [IFaceTypeToString]
  · cases t <;> decide

/-- C22. IFaceTypeToString is not injective: the distinct tags find-text and
format-range are both named "findtext" (line 79 returns the string of line 78),
so the dump of lines 1246-1290 prints the same line for two descriptors that
differ in that tag.  No tag is named "unknown", and "formatrange" is never
printed. -/
theorem IFaceTypeToString_formatrange_findtext :
    iface_findtext ≠ iface_formatrange ∧
    IFaceTypeToString iface_findtext = "findtext" ∧
    IFaceTypeToString iface_formatrange = "findtext" ∧
    IFaceTypeToString iface_findtext = IFaceTypeToString iface_formatrange ∧
    PrintIFaceFunction ⟨some "FormatRange", 2151, iface_position, iface_bool, iface_formatrange⟩
        "" "Sample" true = "position|bool|findtext|Sample\n" ∧
    PrintIFaceFunction ⟨some "FindText", 2150, iface_position, iface_bool, iface_findtext⟩
        "" "Sample" true = "position|bool|findtext|Sample\n" ∧
    PrintIFaceFunction ⟨some "FormatRange", 2151, iface_position, iface_bool, iface_formatrange⟩
        "" "Sample" false = "position Sample(bool, findtext)\n" ∧
    (∀ t : IFaceType, IFaceTypeToString t ≠ "unknown" ∧ IFaceTypeToString t ≠ "formatrange") := by
  refine ⟨by decide, rfl, rfl, rfl, by decide, by decide, by decide, ?_⟩
  intro t
  cases t <;> decide

/-! ### The object returned by `CallPaneFunction` -/

/-- Whether the string-result buffer is allocated is decided by the descriptor
alone: it is, exactly when the call is not of the length+string shape and its
second parameter or its return type is a string result. -/
theorem marshalArgs_need {σ : Type} (env : Env σ) (functionInfo : IFaceFunction)
    (name : String) (arg1 arg2 : Option PyObject) (need : Bool) (m : Marshal σ)
    (h : marshalArgs env functionInfo name arg1 arg2 = Except.ok (need, m)) :
    need = true ↔
      (¬ (functionInfo.paramType 0 = iface_length ∧ functionInfo.paramType 1 = iface_string) ∧
        (functionInfo.paramType 1 = iface_stringresult ∨
          functionInfo.returnType = iface_stringresult)) := by
  unfold marshalArgs at h
  simp only [] at h
  by_cases hshape : functionInfo.paramType 0 = iface_length ∧
      functionInfo.paramType 1 = iface_string
  · rw [if_pos hshape] at h
    split at h
    · cases h
    · split at h
      · cases h
      · injection h with h
        injection h with h1 h2
        subst h1
        simp [hshape]
  · rw [if_neg hshape] at h
    split at h
    · cases h
    · injection h with h
      injection h with h1 h2
      subst h1
      simp [hshape]

/-- A send without a string-result buffer: one `Send` with the two marshalled
words, and the object built from its result word alone. -/
theorem sendAndReturn_plain {σ : Type} (api : ExtensionAPI σ) (pane : Pane)
    (functionInfo : IFaceFunction) (m : Marshal σ) :
    sendAndReturn api pane functionInfo false m =
      some (some (buildReturn functionInfo.returnType none
          (api.Send m.env.host ⟨pane, functionInfo.value, m.word0, m.word1⟩).2.1),
        { host := (api.Send m.env.host ⟨pane, functionInfo.value, m.word0, m.word1⟩).1,
          sends := m.env.sends ++ [⟨pane, functionInfo.value, m.word0, m.word1⟩],
          traces := m.env.traces,
          pyErr := m.env.pyErr }) := by
  simp [sendAndReturn, hostSend]

/-- A send with a string-result buffer that returns an object: the object is
built from the result word of the last `Send`, the one that received the
buffer, and from the string read back from that buffer. -/
theorem sendAndReturn_buffer {σ : Type} (api : ExtensionAPI σ) (pane : Pane)
    (functionInfo : IFaceFunction) (m : Marshal σ) (res : Option PyObject) (env1 : Env σ)
    (h : sendAndReturn api pane functionInfo true m = some (res, env1)) :
    ∃ (str : String) (r : Int) (sent : List SendCall) (c : SendCall) (host : σ)
        (w buf : List Char),
      res = some (buildReturn functionInfo.returnType (some str) r) ∧
      env1.sends = sent ++ [c] ∧
      api.Send host c = (env1.host, r, w) ∧
      c.word1 = Sptr.buffer buf ∧
      (writeBuffer buf w).bind PyString_FromBuffer = some str := by
  unfold sendAndReturn at h
  simp only [if_true, SimpleStringBuffer.Allocate, SimpleStringBuffer.Get] at h
  generalize hostSend api m.env ⟨pane, functionInfo.value, m.word0, Sptr.num 0⟩ = probe at h
  generalize (if probe.2.1 = 0 then (1 : Int) else probe.2.1) = len at h
  by_cases hneg : len + 1 ≤ 0
  · rw [if_pos hneg] at h
    cases h
  · rw [if_neg hneg] at h
    generalize List.replicate (len + 1).toNat '\x00' = buf at h
    generalize (if functionInfo.paramType 0 = iface_length then Sptr.num len else m.word0) =
      word0 at h
    cases hwb : writeBuffer buf
        (hostSend api probe.1 ⟨pane, functionInfo.value, word0, Sptr.buffer buf⟩).2.2 with
    | none =>
      rw [hwb] at h
      cases h
    | some written =>
      rw [hwb] at h
      simp only [] at h
      cases hps : PyString_FromBuffer written with
      | none =>
        rw [hps] at h
        cases h
      | some str =>
        rw [hps] at h
        simp only [] at h
        injection h with h
        injection h with h1 h2
        subst h1
        subst h2
        refine ⟨str, _, probe.1.sends, _, probe.1.host, _, buf, rfl, rfl, rfl, rfl, ?_⟩
        simp only [hostSend] at hwb
        rw [hwb]
        exact hps

/-- C2, as the code has it: the claim says that a numeric return type yields the
integer r, the result word of the Send.  On a host whose Send answers the word
2147483648 (2^31), a call of a function without parameters that returns an int
yields the integer -2147483648: the word is narrowed to a C int before the
Python integer is made. -/
theorem CallPaneFunction_result_word_counterexample :
    (wideHost.Send 0 ⟨Pane.paneEditor, 2006, Sptr.num 0, Sptr.num 0⟩).2.1 = 2147483648 ∧
    CallPaneFunction wideHost freshEnv Pane.paneEditor getLengthInfo "GetLength" none none =
      some (some (PyInt (-2147483648)),
        { host := 1,
          sends := [⟨Pane.paneEditor, 2006, Sptr.num 0, Sptr.num 0⟩],
          traces := [],
          pyErr := none }) ∧
    buildReturn iface_int none 2147483648 = PyInt (-2147483648) ∧
    PyInt (-2147483648) ≠ PyInt 2147483648 :=
  ⟨rfl, rfl, rfl, fun h => absurd (PyObject.PyInt.inj h) (by decide)⟩

/-- C2, amended. CallPaneFunction, result shaping (lines 1028-1055): whenever a
call returns an object, that object is built from r, the result word of the last
Send the call issued, and from s, the string read from the string-result buffer
that Send received; s exists exactly when the call is string-result-shaped (not
of the length+string shape, with a string-result second parameter or return
type).  Return type bool yields the boolean r != 0, or the pair (s, r != 0) when
s exists; a numeric return type (int, length, position, colour) or keymod yields
the integer (int)r, the result word narrowed to a 32-bit C int, which is r
itself whenever r fits 32 bits, or the pair (s, (int)r) when s exists; any other
return type yields s alone when s exists and None otherwise.  The string is the
first element of every pair. -/
theorem CallPaneFunction_result_shape {σ : Type} (api : ExtensionAPI σ) (env : Env σ)
    (pane : Pane) (functionInfo : IFaceFunction) (name : String)
    (arg1 arg2 : Option PyObject) (obj : PyObject) (env1 : Env σ)
    (hcall : CallPaneFunction api env pane functionInfo name arg1 arg2 =
      some (some obj, env1)) :
    ∃ (s : Option String) (r : Int),
      (∃ (sent : List SendCall) (c : SendCall) (host : σ) (w : List Char),
        env1.sends = sent ++ [c] ∧
        api.Send host c = (env1.host, r, w) ∧
        ∀ str, s = some str →
          ∃ buf, c.word1 = Sptr.buffer buf ∧
            (writeBuffer buf w).bind PyString_FromBuffer = some str) ∧
      (s.isSome = true ↔
        (¬ (functionInfo.paramType 0 = iface_length ∧
            functionInfo.paramType 1 = iface_string) ∧
          (functionInfo.paramType 1 = iface_stringresult ∨
            functionInfo.returnType = iface_stringresult))) ∧
      obj = buildReturn functionInfo.returnType s r ∧
      (functionInfo.returnType = iface_bool →
        (s = none → obj = PyBool (r != 0)) ∧
        ∀ str, s = some str → obj = PyTuple [PyString str, PyBool (r != 0)]) ∧
      (functionInfo.returnType ∈
          [iface_int, iface_length, iface_position, iface_colour, iface_keymod] →
        (s = none → obj = PyInt (castInt r)) ∧
        (∀ str, s = some str → obj = PyTuple [PyString str, PyInt (castInt r)]) ∧
        (-2147483648 ≤ r → r < 2147483648 → castInt r = r)) ∧
      (functionInfo.returnType ∉
          [iface_bool, iface_int, iface_length, iface_position, iface_colour, iface_keymod] →
        (s = none → obj = None) ∧
        ∀ str, s = some str → obj = PyString str) := by
  have key : ∃ (s : Option String) (r : Int),
      (∃ (sent : List SendCall) (c : SendCall) (host : σ) (w : List Char),
        env1.sends = sent ++ [c] ∧
        api.Send host c = (env1.host, r, w) ∧
        ∀ str, s = some str →
          ∃ buf, c.word1 = Sptr.buffer buf ∧
            (writeBuffer buf w).bind PyString_FromBuffer = some str) ∧
      (s.isSome = true ↔
        (¬ (functionInfo.paramType 0 = iface_length ∧
            functionInfo.paramType 1 = iface_string) ∧
          (functionInfo.paramType 1 = iface_stringresult ∨
            functionInfo.returnType = iface_stringresult))) ∧
      obj = buildReturn functionInfo.returnType s r := by
    unfold CallPaneFunction at hcall
    cases hm : marshalArgs env functionInfo name arg1 arg2 with
    | error e =>
      rw [hm] at hcall
      simp at hcall
    | ok nm =>
      obtain ⟨need, m⟩ := nm
      rw [hm] at hcall
      simp only [] at hcall
      have hneed := marshalArgs_need env functionInfo name arg1 arg2 need m hm
      cases need with
      | false =>
        rw [sendAndReturn_plain] at hcall
        injection hcall with hcall
        injection hcall with h1 h2
        injection h1 with h1
        subst h1
        subst h2
        refine ⟨none, _, ⟨m.env.sends, _, m.env.host, _, rfl, rfl, ?_⟩, ?_, rfl⟩
        · intro str hstr
          cases hstr
        · rw [← hneed]
          simp
      | true =>
        obtain ⟨str, r, sent, c, host, w, buf, hres, hsends, hsend, hword, hread⟩ :=
          sendAndReturn_buffer api pane functionInfo m (some obj) env1 hcall
        injection hres with hres
        refine ⟨some str, r, ⟨sent, c, host, w, hsends, hsend, ?_⟩, ?_, hres⟩
        · intro str1 hstr
          injection hstr with hstr
          subst hstr
          exact ⟨buf, hword, hread⟩
        · rw [← hneed]
          simp
  obtain ⟨s, r, hlast, hs, hobj⟩ := key
  have hshape := buildReturn_shape functionInfo.returnType r
  refine ⟨s, r, hlast, hs, hobj, ?_, ?_, ?_⟩
  · intro hb
    refine ⟨fun hn => ?_, fun str hstr => ?_⟩
    · rw [hobj, hn]
      exact (hshape.1 hb).1
    · rw [hobj, hstr]
      exact (hshape.1 hb).2 str
  · intro hn
    refine ⟨fun hnone => ?_, fun str hstr => ?_, (hshape.2.1 hn).2.2⟩
    · rw [hobj, hnone]
      exact (hshape.2.1 hn).1
    · rw [hobj, hstr]
      exact (hshape.2.1 hn).2.1 str
  · intro ho
    refine ⟨fun hnone => ?_, fun str hstr => ?_⟩
    · rw [hobj, hnone]
      exact (hshape.2.2 ho).1
    · rw [hobj, hstr]
      exact (hshape.2.2 ho).2 str

/-- C2 amended, at concrete calls: GetLine(3) on a host that answers 5 and
writes "hello" returns ("hello", 5), a string read from the buffer paired with a
result word; GetLength() on a host that answers 2^31 returns an integer built
without a string, and that integer is -2^31. -/
theorem CallPaneFunction_result_shape_witness :
    (∃ (s : Option String) (r : Int), s.isSome = true ∧
      PyTuple [PyString "hello", PyInt 5] = buildReturn iface_int s r) ∧
    (∃ (r : Int), PyInt (-2147483648) = PyInt (castInt r) ∧
      (wideHost.Send 0 ⟨Pane.paneEditor, 2006, Sptr.num 0, Sptr.num 0⟩).2.1 = 2147483648) := by
  constructor
  · obtain ⟨s, r, _, hs, hobj, _⟩ :=
      CallPaneFunction_result_shape helloHost freshEnv Pane.paneEditor getLineInfo "GetLine"
        (some (PyInt 3)) none (PyTuple [PyString "hello", PyInt 5])
        { host := 2,
          sends :=
            [⟨Pane.paneEditor, 2153, Sptr.num 3, Sptr.num 0⟩,
             ⟨Pane.paneEditor, 2153, Sptr.num 3,
              Sptr.buffer ['\x00', '\x00', '\x00', '\x00', '\x00', '\x00']⟩],
          traces := [],
          pyErr := none } rfl
    exact ⟨s, r, hs.mpr ⟨by decide, Or.inl rfl⟩, hobj⟩
  · obtain ⟨s, r, _, hs, _, _, hnum, _⟩ :=
      CallPaneFunction_result_shape wideHost freshEnv Pane.paneEditor getLengthInfo "GetLength"
        none none (PyInt (-2147483648))
        { host := 1,
          sends := [⟨Pane.paneEditor, 2006, Sptr.num 0, Sptr.num 0⟩],
          traces := [],
          pyErr := none } (by rfl)
    have hnone : s = none := by
      cases s with
      | none => rfl
      | some str =>
        have hfalse := hs.mp rfl
        exact absurd hfalse (by decide)
    exact ⟨r, (hnum (by decide)).1 hnone, rfl⟩

end SciTE
